import Mathlib

/-! DWARFASTParser: array-bound resolution and attribute normalisation.

A shallow embedding of `lldb/source/Plugins/SymbolFile/DWARF/DWARFASTParser.{h,cpp}`:

* `DWARFASTParser.ParseChildArrayInfo` (DWARFASTParser.cpp:21-100),
* `DWARFASTParser.GetAccessTypeFromDWARF` (DWARFASTParser.cpp:102-115),
* the constructor of `ParsedDWARFTypeAttributes` (DWARFASTParser.cpp:117-253) with the
  flag accessors of DWARFASTParser.h:120-195.

Machine integers are natural numbers reduced explicitly: `uint64_t` values modulo `2^64`,
`uint32_t` values modulo `2^32`, `uint16_t` values modulo `2^16`.  Loops over an attribute
list or over the children of a node are folds over a `List` in iteration order.  (The loop
counter of `ParseChildArrayInfo` is a `uint32_t`; lists are taken to be shorter than `2^32`,
as every attribute vector held in memory is.)
-/

set_option autoImplicit false

namespace DWARFASTParser

/-! ## Constants of `llvm/BinaryFormat/Dwarf.def` and `lldb-enumerations.h`

These headers are not among the sources at hand; the numeric codes are those of the DWARF
standard, which the headers transcribe. -/

def DW_TAG_subrange_type : Nat := 0x21
def DW_TAG_variable : Nat := 0x34

def DW_AT_name : Nat := 0x03
def DW_AT_byte_size : Nat := 0x0b
def DW_AT_containing_type : Nat := 0x1d
def DW_AT_inline : Nat := 0x20
def DW_AT_lower_bound : Nat := 0x22
def DW_AT_bit_stride : Nat := 0x2e
def DW_AT_upper_bound : Nat := 0x2f
def DW_AT_abstract_origin : Nat := 0x31
def DW_AT_accessibility : Nat := 0x32
def DW_AT_artificial : Nat := 0x34
def DW_AT_calling_convention : Nat := 0x36
def DW_AT_count : Nat := 0x37
def DW_AT_decl_column : Nat := 0x39
def DW_AT_decl_file : Nat := 0x3a
def DW_AT_decl_line : Nat := 0x3b
def DW_AT_declaration : Nat := 0x3c
def DW_AT_encoding : Nat := 0x3e
def DW_AT_external : Nat := 0x3f
def DW_AT_specification : Nat := 0x47
def DW_AT_type : Nat := 0x49
def DW_AT_virtuality : Nat := 0x4c
def DW_AT_byte_stride : Nat := 0x51
def DW_AT_explicit : Nat := 0x63
def DW_AT_object_pointer : Nat := 0x64
def DW_AT_signature : Nat := 0x69
def DW_AT_enum_class : Nat := 0x6d
def DW_AT_linkage_name : Nat := 0x6e
def DW_AT_export_symbols : Nat := 0x89
def DW_AT_MIPS_linkage_name : Nat := 0x2007
def DW_AT_GNU_vector : Nat := 0x2107
def DW_AT_APPLE_runtime_class : Nat := 0x3fe6
def DW_AT_APPLE_objc_complete_type : Nat := 0x3fec
def DW_AT_APPLE_objc_direct : Nat := 0x3fee

def DW_ACCESS_public : Nat := 0x01
def DW_ACCESS_protected : Nat := 0x02
def DW_ACCESS_private : Nat := 0x03

def DW_CC_normal : Nat := 0x01

/-- The enumeration `lldb::AccessType`. -/
inductive AccessType where
  | eAccessNone
  | eAccessPublic
  | eAccessPrivate
  | eAccessProtected
  | eAccessPackage
deriving DecidableEq, Repr

/-- The enumerator `lldb::eLanguageTypeUnknown`. -/
def eLanguageTypeUnknown : Int := 0

/-! ## Collaborators: form values, attribute lists, nodes, execution context -/

/-- Modelled from the spec: `DWARFFormValue` (DWARFFormValue.h is not among the sources).
A raw form value "decodes as unsigned, signed, boolean, string, or as a reference to another
node".  The unsigned, signed and boolean decodings read the same 64-bit word `uval`; `cstr`
is what `AsCString()` yields (`none` for a null pointer) and `ref` is the offset of the node
that `Reference()` resolves to (`none` for an invalid handle). -/
structure DWARFFormValue where
  form : Nat := 0
  uval : Nat := 0
  cstr : Option String := none
  ref : Option Nat := none
deriving DecidableEq, Repr

/-- The method `DWARFFormValue::Unsigned()`, a `uint64_t`. -/
def DWARFFormValue.Unsigned (fv : DWARFFormValue) : Nat := fv.uval % 2 ^ 64

/-- The method `DWARFFormValue::Signed()`: the same word read as an `int64_t`. -/
def DWARFFormValue.Signed (fv : DWARFFormValue) : Int :=
  if fv.uval % 2 ^ 64 < 2 ^ 63 then ((fv.uval % 2 ^ 64 : Nat) : Int)
  else ((fv.uval % 2 ^ 64 : Nat) : Int) - 2 ^ 64

/-- The method `DWARFFormValue::Boolean()`: the word is nonzero. -/
def DWARFFormValue.Boolean (fv : DWARFFormValue) : Bool := fv.uval % 2 ^ 64 != 0

/-- The method `DWARFFormValue::AsCString()`. -/
def DWARFFormValue.AsCString (fv : DWARFFormValue) : Option String := fv.cstr

/-- The method `DWARFFormValue::Reference()`. -/
def DWARFFormValue.Reference (fv : DWARFFormValue) : Option Nat := fv.ref

/-- A file of a compile unit's file table (`lldb_private::FileSpec`), by its path; the empty
path is the default-constructed `FileSpec`. -/
structure FileSpec where
  path : String := ""
deriving DecidableEq, Repr

/-- Modelled from the spec: `DWARFUnit` (DWARFUnit.h is not among the sources), the "owning
compile-unit for file-index resolution".  `GetFile idx` is the entry `idx` of the unit's file
table, the default `FileSpec` when there is none. -/
structure DWARFUnit where
  files : List FileSpec := []
deriving DecidableEq, Repr

/-- The method `DWARFUnit::GetFile(file_idx)`. -/
def DWARFUnit.GetFile (cu : DWARFUnit) (file_idx : Nat) : FileSpec :=
  cu.files.getD file_idx {}

/-- One position `i` of a `DWARFAttributes` list: `AttributeAtIndex(i)`, the outcome of
`ExtractFormValueAtIndex(i, form_value)` (`none` when it returns false) and
`CompileUnitAtIndex(i)`. -/
structure DWARFAttribute where
  attr : Nat
  form_value : Option DWARFFormValue := some {}
  cu : DWARFUnit := {}
deriving DecidableEq, Repr

/-- A `DWARFDIE` handle.  `invalid` is the handle for which `operator bool` is false.  A valid
handle shows its tag, its name, the attribute list that `GetAttributes` fills, the node that
`GetReferencedDIE(DW_AT_count)` resolves to (possibly invalid) and its children. -/
inductive DWARFDIE where
  | invalid : DWARFDIE
  | die (tag : Nat) (name : String) (attributes : List DWARFAttribute)
      (count_ref : DWARFDIE) (children : List DWARFDIE) : DWARFDIE

/-- The conversion `DWARFDIE::operator bool`. -/
def DWARFDIE.IsValid : DWARFDIE → Bool
  | .invalid => false
  | .die _ _ _ _ _ => true

/-- The method `DWARFDIE::Tag()`; `0` for an invalid handle. -/
def DWARFDIE.Tag : DWARFDIE → Nat
  | .invalid => 0
  | .die tag _ _ _ _ => tag

/-- The method `DWARFDIE::GetName()`. -/
def DWARFDIE.GetName : DWARFDIE → String
  | .invalid => ""
  | .die _ name _ _ _ => name

/-- The method `DWARFDIE::GetAttributes(attributes)`: the list it fills. -/
def DWARFDIE.GetAttributes : DWARFDIE → List DWARFAttribute
  | .invalid => []
  | .die _ _ attributes _ _ => attributes

/-- The call `die.GetReferencedDIE(DW_AT_count)`. -/
def DWARFDIE.GetReferencedDIE_count : DWARFDIE → DWARFDIE
  | .invalid => .invalid
  | .die _ _ _ count_ref _ => count_ref

/-- The range `DWARFDIE::children()`. -/
def DWARFDIE.children : DWARFDIE → List DWARFDIE
  | .invalid => []
  | .die _ _ _ _ children => children

/-- A `ValueObject` as far as it is read here: the word behind `GetValueAsUnsigned`. -/
structure ValueObject where
  uval : Nat
deriving DecidableEq, Repr

/-- The call `valobj_sp->GetValueAsUnsigned(0)`, a `uint64_t`. -/
def ValueObject.GetValueAsUnsigned (v : ValueObject) : Nat := v.uval % 2 ^ 64

/-- A `StackFrame` as far as it is used here: `GetValueForVariableExpressionPath` applied to
a variable name, `none` when the returned shared pointer is null. -/
structure StackFrame where
  GetValueForVariableExpressionPath : String → Option ValueObject

/-- An `ExecutionContext` as far as it is used here: `GetFrameSP()`, `none` when null. -/
structure ExecutionContext where
  GetFrameSP : Option StackFrame

/-- Modelled from the spec: the record `SymbolFile::ArrayInfo` (declared in
`lldb/Symbol/SymbolFile.h`, which is not among the sources), with "`element_orders`: ordered
sequence of per-dimension unsigned element counts" and the strides "`bit_stride`,
`byte_stride`".  As in that declaration, `element_orders` holds `uint64_t` values, the two
strides are `uint32_t` fields with default `0` (like the fields of the same names at
DWARFASTParser.h:85-86) and `first_index` is an `int64_t` with default `0`. -/
structure ArrayInfo where
  first_index : Int := 0
  element_orders : List Nat := []
  byte_stride : Nat := 0
  bit_stride : Nat := 0
deriving DecidableEq, Repr

/-! ## `ParseChildArrayInfo` -/

/-- The locals of one subrange child (DWARFASTParser.cpp:36-39). -/
structure SubrangeLocals where
  num_elements : Nat := 0
  lower_bound : Nat := 0
  upper_bound : Nat := 0
  upper_bound_valid : Bool := false
deriving DecidableEq, Repr

/-- The case `DW_AT_count` of the switch (DWARFASTParser.cpp:49-66): the new value of
`num_elements`. -/
def countCase (die : DWARFDIE) (exe_ctx : Option ExecutionContext)
    (form_value : DWARFFormValue) (num_elements : Nat) : Nat :=
  let var_die := die.GetReferencedDIE_count
  if var_die.IsValid then
    if var_die.Tag = DW_TAG_variable then
      match exe_ctx with
      | none => num_elements
      | some ctx =>
        match ctx.GetFrameSP with
        | none => num_elements
        | some frame =>
          match frame.GetValueForVariableExpressionPath var_die.GetName with
          | some valobj_sp => valobj_sp.GetValueAsUnsigned
          | none => num_elements
    else num_elements
  else form_value.Unsigned

/-- One iteration of the attribute loop of a subrange child (DWARFASTParser.cpp:41-89). -/
def scanAttribute (die : DWARFDIE) (exe_ctx : Option ExecutionContext)
    (st : ArrayInfo × SubrangeLocals) (a : DWARFAttribute) : ArrayInfo × SubrangeLocals :=
  match a.form_value with
  | none => st
  | some form_value =>
    if a.attr = DW_AT_name then st
    else if a.attr = DW_AT_count then
      (st.1, { st.2 with num_elements := countCase die exe_ctx form_value st.2.num_elements })
    else if a.attr = DW_AT_bit_stride then
      ({ st.1 with bit_stride := form_value.Unsigned % 2 ^ 32 }, st.2)
    else if a.attr = DW_AT_byte_stride then
      ({ st.1 with byte_stride := form_value.Unsigned % 2 ^ 32 }, st.2)
    else if a.attr = DW_AT_lower_bound then
      (st.1, { st.2 with lower_bound := form_value.Unsigned })
    else if a.attr = DW_AT_upper_bound then
      (st.1, { st.2 with upper_bound_valid := true, upper_bound := form_value.Unsigned })
    else st

/-- The attribute loop of a subrange child, over the whole list. -/
def scanAttributes (die : DWARFDIE) (exe_ctx : Option ExecutionContext)
    (attributes : List DWARFAttribute) (st : ArrayInfo × SubrangeLocals) :
    ArrayInfo × SubrangeLocals :=
  attributes.foldl (scanAttribute die exe_ctx) st

/-- The value pushed for a dimension (DWARFASTParser.cpp:91-96): `num_elements` after the
fallback to the bounds, computed in `uint64_t`. -/
def finalNumElements (l : SubrangeLocals) : Nat :=
  if l.num_elements = 0 then
    if l.upper_bound_valid = true ∧ l.upper_bound ≥ l.lower_bound then
      (l.upper_bound - l.lower_bound + 1) % 2 ^ 64
    else l.num_elements
  else l.num_elements

/-- The body of the loop over the children (DWARFASTParser.cpp:28-98). -/
def visitChild (exe_ctx : Option ExecutionContext) (array_info : ArrayInfo) (die : DWARFDIE) :
    ArrayInfo :=
  if die.Tag ≠ DW_TAG_subrange_type then array_info
  else
    let attributes := die.GetAttributes
    let num_child_attributes := attributes.length
    if num_child_attributes > 0 then
      let st := scanAttributes die exe_ctx attributes (array_info, {})
      { st.1 with element_orders := st.1.element_orders ++ [finalNumElements st.2] }
    else array_info

/-- The function `DWARFASTParser::ParseChildArrayInfo` (DWARFASTParser.cpp:21-100). -/
def ParseChildArrayInfo (parent_die : DWARFDIE) (exe_ctx : Option ExecutionContext) :
    Option ArrayInfo :=
  if ¬ parent_die.IsValid then none
  else some (parent_die.children.foldl (visitChild exe_ctx) {})

/-! ## `GetAccessTypeFromDWARF` -/

/-- The function `DWARFASTParser::GetAccessTypeFromDWARF` (DWARFASTParser.cpp:102-115); the
argument is a `uint32_t`, so callers pass a value already reduced modulo `2^32`. -/
def GetAccessTypeFromDWARF (dwarf_accessibility : Nat) : AccessType :=
  if dwarf_accessibility = DW_ACCESS_public then AccessType.eAccessPublic
  else if dwarf_accessibility = DW_ACCESS_private then AccessType.eAccessPrivate
  else if dwarf_accessibility = DW_ACCESS_protected then AccessType.eAccessProtected
  else AccessType.eAccessNone

/-! ## `ParsedDWARFTypeAttributes` -/

/-- Modelled from the spec: `lldb_private::Declaration` (Declaration.h is not among the
sources), the "declaration_site: file, line, column, each field independently
optional/defaulted".  The line is a `uint32_t` and the column a `uint16_t`, both `0` by
default. -/
structure Declaration where
  file : FileSpec := {}
  line : Nat := 0
  column : Nat := 0
deriving DecidableEq, Repr

/-- The method `Declaration::SetFile`. -/
def Declaration.SetFile (d : Declaration) (f : FileSpec) : Declaration := { d with file := f }

/-- The method `Declaration::SetLine`, whose parameter is a `uint32_t`. -/
def Declaration.SetLine (d : Declaration) (line : Nat) : Declaration :=
  { d with line := line % 2 ^ 32 }

/-- The method `Declaration::SetColumn`, whose parameter is a `uint16_t`. -/
def Declaration.SetColumn (d : Declaration) (column : Nat) : Declaration :=
  { d with column := column % 2 ^ 16 }

/-- The record `ParsedDWARFTypeAttributes` with its default member initialisers
(DWARFASTParser.h:72-88).  `object_pointer` is a node handle, kept as the offset of the node
(`none` for the invalid handle); `class_language` is kept as the integer behind the
`LanguageType` enumerator, an `unsigned int`, so that the cast of cpp:240 keeps the low 32
bits of the signed value. -/
structure ParsedDWARFTypeAttributes where
  accessibility : AccessType := AccessType.eAccessNone
  mangled_name : Option String := none
  name : String := ""
  decl : Declaration := {}
  object_pointer : Option Nat := none
  abstract_origin : DWARFFormValue := {}
  containing_type : DWARFFormValue := {}
  signature : DWARFFormValue := {}
  specification : DWARFFormValue := {}
  type : DWARFFormValue := {}
  class_language : Int := eLanguageTypeUnknown
  byte_size : Option Nat := none
  calling_convention : Nat := DW_CC_normal
  bit_stride : Nat := 0
  byte_stride : Nat := 0
  encoding : Nat := 0
  attr_flags : Nat := 0
deriving DecidableEq, Repr

/-! The enumeration `DWARFAttributeFlags` (DWARFASTParser.h:91-117). -/

def eDWARFAttributeNone : Nat := 0
def eDWARFAttributeArtificial : Nat := 1 <<< 0
def eDWARFAttributeExplicit : Nat := 1 <<< 1
def eDWARFAttributeForwardDecl : Nat := 1 <<< 2
def eDWARFAttributeInline : Nat := 1 <<< 3
def eDWARFAttributeScopedEnum : Nat := 1 <<< 4
def eDWARFAttributeVector : Nat := 1 <<< 5
def eDWARFAttributeVirtual : Nat := 1 <<< 6
def eDWARFAttributeExternal : Nat := 1 <<< 7
def eDWARFAttributeExportSymbols : Nat := 1 <<< 8
def eDWARFAttributeObjCDirect : Nat := 1 <<< 9
def eDWARFAttributeObjCCompleteType : Nat := 1 <<< 10

namespace ParsedDWARFTypeAttributes

/-- The statement `attr_flags |= flag` on the `uint32_t` field. -/
def setFlag (r : ParsedDWARFTypeAttributes) (flag : Nat) : ParsedDWARFTypeAttributes :=
  { r with attr_flags := (r.attr_flags ||| flag) % 2 ^ 32 }

/-- The expression `attr_flags & flag` converted to `bool`. -/
def hasFlag (r : ParsedDWARFTypeAttributes) (flag : Nat) : Bool :=
  r.attr_flags &&& flag != 0

def setIsArtificial (r : ParsedDWARFTypeAttributes) := r.setFlag eDWARFAttributeArtificial
def isArtificial (r : ParsedDWARFTypeAttributes) := r.hasFlag eDWARFAttributeArtificial
def setIsExplicit (r : ParsedDWARFTypeAttributes) := r.setFlag eDWARFAttributeExplicit
def isExplicit (r : ParsedDWARFTypeAttributes) := r.hasFlag eDWARFAttributeExplicit
def setIsForwardDeclaration (r : ParsedDWARFTypeAttributes) :=
  r.setFlag eDWARFAttributeForwardDecl
def isForwardDeclaration (r : ParsedDWARFTypeAttributes) :=
  r.hasFlag eDWARFAttributeForwardDecl
def setIsInline (r : ParsedDWARFTypeAttributes) := r.setFlag eDWARFAttributeInline
def isInline (r : ParsedDWARFTypeAttributes) := r.hasFlag eDWARFAttributeInline
def setIsScopedEnum (r : ParsedDWARFTypeAttributes) := r.setFlag eDWARFAttributeScopedEnum
def isScopedEnum (r : ParsedDWARFTypeAttributes) := r.hasFlag eDWARFAttributeScopedEnum
def setIsVector (r : ParsedDWARFTypeAttributes) := r.setFlag eDWARFAttributeVector
def isVector (r : ParsedDWARFTypeAttributes) := r.hasFlag eDWARFAttributeVector
def setIsVirtual (r : ParsedDWARFTypeAttributes) := r.setFlag eDWARFAttributeVirtual
def isVirtual (r : ParsedDWARFTypeAttributes) := r.hasFlag eDWARFAttributeVirtual
def setIsExternal (r : ParsedDWARFTypeAttributes) := r.setFlag eDWARFAttributeExternal
def isExternal (r : ParsedDWARFTypeAttributes) := r.hasFlag eDWARFAttributeExternal
def setIsExportsSymbols (r : ParsedDWARFTypeAttributes) :=
  r.setFlag eDWARFAttributeExportSymbols
def isExportsSymbols (r : ParsedDWARFTypeAttributes) :=
  r.hasFlag eDWARFAttributeExportSymbols
def setIsObjCDirectCall (r : ParsedDWARFTypeAttributes) := r.setFlag eDWARFAttributeObjCDirect
def isObjCDirectCall (r : ParsedDWARFTypeAttributes) := r.hasFlag eDWARFAttributeObjCDirect
def setIsObjCCompleteType (r : ParsedDWARFTypeAttributes) :=
  r.setFlag eDWARFAttributeObjCCompleteType
def isObjCCompleteType (r : ParsedDWARFTypeAttributes) :=
  r.hasFlag eDWARFAttributeObjCCompleteType

/-- One iteration of the constructor's loop (DWARFASTParser.cpp:120-252): the switch over the
attribute at one position, skipped when its form value cannot be extracted. -/
def visitAttribute (r : ParsedDWARFTypeAttributes) (a : DWARFAttribute) :
    ParsedDWARFTypeAttributes :=
  match a.form_value with
  | none => r
  | some form_value =>
    if a.attr = DW_AT_abstract_origin then { r with abstract_origin := form_value }
    else if a.attr = DW_AT_accessibility then
      { r with accessibility := GetAccessTypeFromDWARF (form_value.Unsigned % 2 ^ 32) }
    else if a.attr = DW_AT_artificial then
      if form_value.Boolean then r.setIsArtificial else r
    else if a.attr = DW_AT_bit_stride then
      { r with bit_stride := form_value.Unsigned % 2 ^ 32 }
    else if a.attr = DW_AT_byte_size then { r with byte_size := some form_value.Unsigned }
    else if a.attr = DW_AT_byte_stride then
      { r with byte_stride := form_value.Unsigned % 2 ^ 32 }
    else if a.attr = DW_AT_calling_convention then
      { r with calling_convention := form_value.Unsigned }
    else if a.attr = DW_AT_containing_type then { r with containing_type := form_value }
    else if a.attr = DW_AT_decl_file then
      { r with decl := r.decl.SetFile (a.cu.GetFile form_value.Unsigned) }
    else if a.attr = DW_AT_decl_line then
      { r with decl := r.decl.SetLine form_value.Unsigned }
    else if a.attr = DW_AT_decl_column then
      { r with decl := r.decl.SetColumn form_value.Unsigned }
    else if a.attr = DW_AT_declaration then
      if form_value.Boolean then r.setIsForwardDeclaration else r
    else if a.attr = DW_AT_encoding then { r with encoding := form_value.Unsigned % 2 ^ 32 }
    else if a.attr = DW_AT_enum_class then
      if form_value.Boolean then r.setIsScopedEnum else r
    else if a.attr = DW_AT_explicit then
      if form_value.Boolean then r.setIsExplicit else r
    else if a.attr = DW_AT_external then
      if form_value.Unsigned ≠ 0 then r.setIsExternal else r
    else if a.attr = DW_AT_inline then
      if form_value.Boolean then r.setIsInline else r
    else if a.attr = DW_AT_linkage_name ∨ a.attr = DW_AT_MIPS_linkage_name then
      { r with mangled_name := form_value.AsCString }
    else if a.attr = DW_AT_name then { r with name := form_value.AsCString.getD "" }
    else if a.attr = DW_AT_object_pointer then { r with object_pointer := form_value.Reference }
    else if a.attr = DW_AT_signature then { r with signature := form_value }
    else if a.attr = DW_AT_specification then { r with specification := form_value }
    else if a.attr = DW_AT_type then { r with type := form_value }
    else if a.attr = DW_AT_virtuality then
      if form_value.Unsigned ≠ 0 then r.setIsVirtual else r
    else if a.attr = DW_AT_APPLE_objc_complete_type then
      if form_value.Signed ≠ 0 then r.setIsObjCCompleteType else r
    else if a.attr = DW_AT_APPLE_objc_direct then r.setIsObjCDirectCall
    else if a.attr = DW_AT_APPLE_runtime_class then
      { r with class_language := form_value.Signed % 2 ^ 32 }
    else if a.attr = DW_AT_GNU_vector then
      if form_value.Boolean then r.setIsVector else r
    else if a.attr = DW_AT_export_symbols then
      if form_value.Boolean then r.setIsExportsSymbols else r
    else r

/-- The constructor `ParsedDWARFTypeAttributes(const DWARFDIE &die)`
(DWARFASTParser.cpp:117-253): the loop runs over the default-initialised record. -/
def ctor (die : DWARFDIE) : ParsedDWARFTypeAttributes :=
  die.GetAttributes.foldl visitAttribute {}

end ParsedDWARFTypeAttributes

/-! ## Reading an attribute list

The claims speak of "the" upper bound, lower bound, count or stride of a child.  An attribute
list may repeat a kind and may hold positions whose form value cannot be extracted; the value
meant is the one the scan ends with. -/

/-- The unsigned value of the last attribute of kind `kind` whose form value can be extracted,
`none` when the list has no such attribute. -/
def lastUnsigned (kind : Nat) (attributes : List DWARFAttribute) : Option Nat :=
  attributes.reverse.findSome? fun a =>
    if a.attr = kind then a.form_value.map DWARFFormValue.Unsigned else none

/-- The bound-based computation of DWARFASTParser.cpp:91-94 read off an attribute list: with
upper bound `ub` present, lower bound `lb` (`0` when absent) and `ub >= lb`, the `uint64_t`
value of `ub - lb + 1`; otherwise `0`. -/
def boundBasedCount (attributes : List DWARFAttribute) : Nat :=
  match lastUnsigned DW_AT_upper_bound attributes with
  | none => 0
  | some ub =>
    if (lastUnsigned DW_AT_lower_bound attributes).getD 0 ≤ ub then
      (ub - (lastUnsigned DW_AT_lower_bound attributes).getD 0 + 1) % 2 ^ 64
    else 0

/-! ## Lemmas on the attribute scan of a subrange child -/

theorem lastUnsigned_nil (kind : Nat) : lastUnsigned kind [] = none := rfl

theorem lastUnsigned_snoc (kind : Nat) (l : List DWARFAttribute) (a : DWARFAttribute) :
    lastUnsigned kind (l ++ [a]) =
      if a.attr = kind then
        match a.form_value with
        | some fv => some fv.Unsigned
        | none => lastUnsigned kind l
      else lastUnsigned kind l := by
  unfold lastUnsigned
  rw [List.reverse_append]
  simp only [List.reverse_cons, List.reverse_nil, List.nil_append, List.singleton_append,
    List.findSome?_cons]
  by_cases h : a.attr = kind
  · cases hf : a.form_value <;> simp [h]
  · simp [h]

theorem lastUnsigned_lt (kind : Nat) (l : List DWARFAttribute) (v : Nat)
    (h : lastUnsigned kind l = some v) : v < 2 ^ 64 := by
  induction l using List.reverseRecOn with
  | nil => simp [lastUnsigned_nil] at h
  | append_singleton l a ih =>
    rw [lastUnsigned_snoc] at h
    by_cases hk : a.attr = kind
    · cases hf : a.form_value with
      | none => rw [if_pos hk, hf] at h; exact ih h
      | some fv =>
        rw [if_pos hk, hf] at h
        simp only [Option.some.injEq] at h
        rw [← h]
        exact Nat.mod_lt _ (by positivity)
    · rw [if_neg hk] at h; exact ih h

theorem scanAttributes_nil (die : DWARFDIE) (exe_ctx : Option ExecutionContext)
    (st : ArrayInfo × SubrangeLocals) : scanAttributes die exe_ctx [] st = st := rfl

theorem scanAttributes_snoc (die : DWARFDIE) (exe_ctx : Option ExecutionContext)
    (l : List DWARFAttribute) (a : DWARFAttribute) (st : ArrayInfo × SubrangeLocals) :
    scanAttributes die exe_ctx (l ++ [a]) st =
      scanAttribute die exe_ctx (scanAttributes die exe_ctx l st) a := by
  simp [scanAttributes, List.foldl_append]


theorem scan_lower_bound (die : DWARFDIE) (exe_ctx : Option ExecutionContext)
    (l : List DWARFAttribute) (st : ArrayInfo × SubrangeLocals) :
    (scanAttributes die exe_ctx l st).2.lower_bound =
      (lastUnsigned DW_AT_lower_bound l).getD st.2.lower_bound := by
  induction l using List.reverseRecOn with
  | nil => simp [scanAttributes_nil, lastUnsigned_nil]
  | append_singleton l a ih =>
    rw [scanAttributes_snoc, lastUnsigned_snoc]
    unfold scanAttribute
    cases hf : a.form_value with
    | none => simp [ih]
    | some fv =>
      simp only []
      split_ifs <;> simp_all [DW_AT_name, DW_AT_count, DW_AT_bit_stride, DW_AT_byte_stride,
        DW_AT_lower_bound, DW_AT_upper_bound]

theorem scan_upper_bound (die : DWARFDIE) (exe_ctx : Option ExecutionContext)
    (l : List DWARFAttribute) (st : ArrayInfo × SubrangeLocals) :
    (scanAttributes die exe_ctx l st).2.upper_bound =
      (lastUnsigned DW_AT_upper_bound l).getD st.2.upper_bound := by
  induction l using List.reverseRecOn with
  | nil => simp [scanAttributes_nil, lastUnsigned_nil]
  | append_singleton l a ih =>
    rw [scanAttributes_snoc, lastUnsigned_snoc]
    unfold scanAttribute
    cases hf : a.form_value with
    | none => simp [ih]
    | some fv =>
      simp only []
      split_ifs <;> simp_all [DW_AT_name, DW_AT_count, DW_AT_bit_stride, DW_AT_byte_stride,
        DW_AT_lower_bound, DW_AT_upper_bound]

theorem scan_upper_bound_valid (die : DWARFDIE) (exe_ctx : Option ExecutionContext)
    (l : List DWARFAttribute) (st : ArrayInfo × SubrangeLocals) :
    (scanAttributes die exe_ctx l st).2.upper_bound_valid =
      (st.2.upper_bound_valid || (lastUnsigned DW_AT_upper_bound l).isSome) := by
  induction l using List.reverseRecOn with
  | nil => simp [scanAttributes_nil, lastUnsigned_nil]
  | append_singleton l a ih =>
    rw [scanAttributes_snoc, lastUnsigned_snoc]
    unfold scanAttribute
    cases hf : a.form_value with
    | none => simp [ih]
    | some fv =>
      simp only []
      split_ifs <;> simp_all [DW_AT_name, DW_AT_count, DW_AT_bit_stride, DW_AT_byte_stride,
        DW_AT_lower_bound, DW_AT_upper_bound]

theorem scan_byte_stride (die : DWARFDIE) (exe_ctx : Option ExecutionContext)
    (l : List DWARFAttribute) (st : ArrayInfo × SubrangeLocals) :
    (scanAttributes die exe_ctx l st).1.byte_stride =
      ((lastUnsigned DW_AT_byte_stride l).map (· % 2 ^ 32)).getD st.1.byte_stride := by
  induction l using List.reverseRecOn with
  | nil => simp [scanAttributes_nil, lastUnsigned_nil]
  | append_singleton l a ih =>
    rw [scanAttributes_snoc, lastUnsigned_snoc]
    unfold scanAttribute
    cases hf : a.form_value with
    | none => simp [ih]
    | some fv =>
      simp only []
      split_ifs <;> simp_all [DW_AT_name, DW_AT_count, DW_AT_bit_stride, DW_AT_byte_stride,
        DW_AT_lower_bound, DW_AT_upper_bound]

theorem scan_bit_stride (die : DWARFDIE) (exe_ctx : Option ExecutionContext)
    (l : List DWARFAttribute) (st : ArrayInfo × SubrangeLocals) :
    (scanAttributes die exe_ctx l st).1.bit_stride =
      ((lastUnsigned DW_AT_bit_stride l).map (· % 2 ^ 32)).getD st.1.bit_stride := by
  induction l using List.reverseRecOn with
  | nil => simp [scanAttributes_nil, lastUnsigned_nil]
  | append_singleton l a ih =>
    rw [scanAttributes_snoc, lastUnsigned_snoc]
    unfold scanAttribute
    cases hf : a.form_value with
    | none => simp [ih]
    | some fv =>
      simp only []
      split_ifs <;> simp_all [DW_AT_name, DW_AT_count, DW_AT_bit_stride, DW_AT_byte_stride,
        DW_AT_lower_bound, DW_AT_upper_bound]

theorem scan_element_orders (die : DWARFDIE) (exe_ctx : Option ExecutionContext)
    (l : List DWARFAttribute) (st : ArrayInfo × SubrangeLocals) :
    (scanAttributes die exe_ctx l st).1.element_orders = st.1.element_orders := by
  induction l using List.reverseRecOn with
  | nil => simp [scanAttributes_nil]
  | append_singleton l a ih =>
    rw [scanAttributes_snoc]
    unfold scanAttribute
    cases hf : a.form_value with
    | none => simp [ih]
    | some fv =>
      simp only []
      split_ifs <;> simp_all

theorem scan_first_index (die : DWARFDIE) (exe_ctx : Option ExecutionContext)
    (l : List DWARFAttribute) (st : ArrayInfo × SubrangeLocals) :
    (scanAttributes die exe_ctx l st).1.first_index = st.1.first_index := by
  induction l using List.reverseRecOn with
  | nil => simp [scanAttributes_nil]
  | append_singleton l a ih =>
    rw [scanAttributes_snoc]
    unfold scanAttribute
    cases hf : a.form_value with
    | none => simp [ih]
    | some fv =>
      simp only []
      split_ifs <;> simp_all

theorem scan_num_elements_keep (die : DWARFDIE) (exe_ctx : Option ExecutionContext)
    (h : ∀ fv n, countCase die exe_ctx fv n = n)
    (l : List DWARFAttribute) (st : ArrayInfo × SubrangeLocals) :
    (scanAttributes die exe_ctx l st).2.num_elements = st.2.num_elements := by
  induction l using List.reverseRecOn with
  | nil => simp [scanAttributes_nil, lastUnsigned_nil]
  | append_singleton l a ih =>
    rw [scanAttributes_snoc]
    unfold scanAttribute
    cases hf : a.form_value with
    | none => simp [ih]
    | some fv =>
      simp only []
      split_ifs <;> simp_all [DW_AT_name, DW_AT_count, DW_AT_bit_stride, DW_AT_byte_stride,
        DW_AT_lower_bound, DW_AT_upper_bound]

theorem scan_num_elements_const (die : DWARFDIE) (exe_ctx : Option ExecutionContext)
    (v : Nat) (h : ∀ fv n, countCase die exe_ctx fv n = v)
    (l : List DWARFAttribute) (st : ArrayInfo × SubrangeLocals) :
    (scanAttributes die exe_ctx l st).2.num_elements =
      if (lastUnsigned DW_AT_count l).isSome then v else st.2.num_elements := by
  induction l using List.reverseRecOn with
  | nil => simp [scanAttributes_nil, lastUnsigned_nil]
  | append_singleton l a ih =>
    rw [scanAttributes_snoc, lastUnsigned_snoc]
    unfold scanAttribute
    cases hf : a.form_value with
    | none => simp [ih]
    | some fv =>
      simp only []
      split_ifs <;> simp_all [DW_AT_name, DW_AT_count, DW_AT_bit_stride, DW_AT_byte_stride,
        DW_AT_lower_bound, DW_AT_upper_bound]

theorem scan_num_elements_literal (die : DWARFDIE) (exe_ctx : Option ExecutionContext)
    (h : ∀ fv n, countCase die exe_ctx fv n = fv.Unsigned)
    (l : List DWARFAttribute) (st : ArrayInfo × SubrangeLocals) :
    (scanAttributes die exe_ctx l st).2.num_elements =
      (lastUnsigned DW_AT_count l).getD st.2.num_elements := by
  induction l using List.reverseRecOn with
  | nil => simp [scanAttributes_nil, lastUnsigned_nil]
  | append_singleton l a ih =>
    rw [scanAttributes_snoc, lastUnsigned_snoc]
    unfold scanAttribute
    cases hf : a.form_value with
    | none => simp [ih]
    | some fv =>
      simp only []
      split_ifs <;> simp_all [DW_AT_name, DW_AT_count, DW_AT_bit_stride, DW_AT_byte_stride,
        DW_AT_lower_bound, DW_AT_upper_bound]

theorem countCase_invalid (die : DWARFDIE) (exe_ctx : Option ExecutionContext)
    (h : die.GetReferencedDIE_count.IsValid = false) (fv : DWARFFormValue) (n : Nat) :
    countCase die exe_ctx fv n = fv.Unsigned := by
  simp [countCase, h]

theorem countCase_evaluated (die : DWARFDIE) (ctx : ExecutionContext) (frame : StackFrame)
    (valobj : ValueObject)
    (hvalid : die.GetReferencedDIE_count.IsValid = true)
    (hvar : die.GetReferencedDIE_count.Tag = DW_TAG_variable)
    (hframe : ctx.GetFrameSP = some frame)
    (heval : frame.GetValueForVariableExpressionPath die.GetReferencedDIE_count.GetName
      = some valobj)
    (fv : DWARFFormValue) (n : Nat) :
    countCase die (some ctx) fv n = valobj.GetValueAsUnsigned := by
  simp [countCase, hvalid, hvar, hframe, heval]

/-- The ways in which the reference tier of `DW_AT_count` yields no count for the referenced
node `var_die`: no execution context, a context without a frame, a referenced node that is
not a variable, or a failed evaluation of the variable's name. -/
def countTierFails (var_die : DWARFDIE) (exe_ctx : Option ExecutionContext) : Prop :=
  exe_ctx = none ∨
  (∃ ctx, exe_ctx = some ctx ∧ ctx.GetFrameSP = none) ∨
  var_die.Tag ≠ DW_TAG_variable ∨
  (∃ ctx frame, exe_ctx = some ctx ∧ ctx.GetFrameSP = some frame ∧
    frame.GetValueForVariableExpressionPath var_die.GetName = none)

theorem countCase_fails (die : DWARFDIE) (exe_ctx : Option ExecutionContext)
    (hvalid : die.GetReferencedDIE_count.IsValid = true)
    (hfail : countTierFails die.GetReferencedDIE_count exe_ctx)
    (fv : DWARFFormValue) (n : Nat) :
    countCase die exe_ctx fv n = n := by
  unfold countCase
  simp only [hvalid, if_true]
  rcases hfail with h | ⟨ctx, h, hf⟩ | h | ⟨ctx, frame, h, hf, he⟩
  · subst h; split_ifs <;> rfl
  · subst h; split_ifs <;> simp [hf]
  · rw [if_neg h]
  · subst h; split_ifs <;> simp [hf, he]

theorem visitChild_other (exe_ctx : Option ExecutionContext) (array_info : ArrayInfo)
    (die : DWARFDIE) (h : die.Tag ≠ DW_TAG_subrange_type) :
    visitChild exe_ctx array_info die = array_info := by
  simp [visitChild, h]

theorem visitChild_empty (exe_ctx : Option ExecutionContext) (array_info : ArrayInfo)
    (die : DWARFDIE) (h : die.GetAttributes = []) :
    visitChild exe_ctx array_info die = array_info := by
  simp [visitChild, h]

theorem visitChild_subrange (exe_ctx : Option ExecutionContext) (array_info : ArrayInfo)
    (die : DWARFDIE) (htag : die.Tag = DW_TAG_subrange_type) (hne : die.GetAttributes ≠ []) :
    visitChild exe_ctx array_info die =
      { scanAttributes die exe_ctx die.GetAttributes (array_info, {}) |>.1 with
        element_orders := array_info.element_orders ++
          [finalNumElements (scanAttributes die exe_ctx die.GetAttributes (array_info, {})).2] }
      := by
  have hlen : die.GetAttributes.length > 0 := List.length_pos.mpr hne
  simp [visitChild, htag, hlen, scan_element_orders]

theorem lastUnsigned_ne_nil (kind : Nat) (l : List DWARFAttribute)
    (h : lastUnsigned kind l ≠ none) : l ≠ [] := by
  rintro rfl
  exact h (lastUnsigned_nil kind)

/-- The value pushed for a child, from the values the scan ends with. -/
theorem finalNumElements_scan (die : DWARFDIE) (exe_ctx : Option ExecutionContext)
    (l : List DWARFAttribute) (array_info : ArrayInfo) :
    finalNumElements (scanAttributes die exe_ctx l (array_info, {})).2 =
      if (scanAttributes die exe_ctx l (array_info, {})).2.num_elements = 0 then
        boundBasedCount l
      else (scanAttributes die exe_ctx l (array_info, {})).2.num_elements := by
  unfold finalNumElements boundBasedCount
  rw [scan_upper_bound_valid, scan_upper_bound, scan_lower_bound]
  by_cases h0 : (scanAttributes die exe_ctx l (array_info, {})).2.num_elements = 0
  · simp only [h0, if_true]
    cases hub : lastUnsigned DW_AT_upper_bound l with
    | none => simp
    | some ub => simp
  · simp [h0]

theorem scan_num_elements_absent (die : DWARFDIE) (exe_ctx : Option ExecutionContext)
    (l : List DWARFAttribute) (st : ArrayInfo × SubrangeLocals)
    (h : lastUnsigned DW_AT_count l = none) :
    (scanAttributes die exe_ctx l st).2.num_elements = st.2.num_elements := by
  induction l using List.reverseRecOn with
  | nil => simp [scanAttributes_nil]
  | append_singleton l a ih =>
    rw [lastUnsigned_snoc] at h
    rw [scanAttributes_snoc]
    unfold scanAttribute
    cases hf : a.form_value with
    | none =>
      simp only [hf, ite_self] at h
      simpa using ih h
    | some fv =>
      simp only [hf] at h
      by_cases hk : a.attr = DW_AT_count
      · simp [hk] at h
      · rw [if_neg hk] at h
        simp only []
        split_ifs <;> simp_all

theorem wrap_add_one (ub lb : Nat) (hub : ub < 2 ^ 64) (hle : lb ≤ ub) :
    (ub - lb + 1) % 2 ^ 64 = if ub = 2 ^ 64 - 1 ∧ lb = 0 then 0 else ub - lb + 1 := by
  norm_num at hub ⊢
  split_ifs with h
  · obtain ⟨h1, h2⟩ := h
    subst h1 h2
    rfl
  · apply Nat.mod_eq_of_lt
    omega

/-! ## Claims on `ParseChildArrayInfo` -/

/-- A subrange child holding the single attribute `DW_AT_upper_bound = 2^64 - 1`. -/
def fullRangeChild : DWARFDIE :=
  .die DW_TAG_subrange_type "" [{ attr := DW_AT_upper_bound, form_value := some { uval := 2 ^ 64 - 1 } }]
    .invalid []

/-- C1, as stated, fails: for the subrange child with `upper_bound = 2^64 - 1` and no lower
bound and no count, the recorded count is `0`, not the integer `ub - lb + 1 = 2^64`. -/
theorem full_range_count_wraps :
    fullRangeChild.Tag = DW_TAG_subrange_type ∧
    lastUnsigned DW_AT_count fullRangeChild.GetAttributes = none ∧
    lastUnsigned DW_AT_upper_bound fullRangeChild.GetAttributes = some (2 ^ 64 - 1) ∧
    (lastUnsigned DW_AT_lower_bound fullRangeChild.GetAttributes).getD 0 = 0 ∧
    (visitChild none {} fullRangeChild).element_orders = [0] ∧
    ParseChildArrayInfo (.die 0 "" [] .invalid [fullRangeChild]) none
      = some { element_orders := [0] } ∧
    (2 ^ 64 - 1) - 0 + 1 ≠ 0 := by
  decide

/-- C1 (amended): for a subrange child with no count attribute, an upper bound `ub` and a
lower bound `lb` (`0` when absent) with `ub >= lb`, the loop body appends to `element_orders`
exactly one entry, the integer `ub - lb + 1`, except that for `ub = 2^64 - 1` and `lb = 0`
the entry is `0`. -/
theorem count_from_bounds (exe_ctx : Option ExecutionContext) (array_info : ArrayInfo)
    (child : DWARFDIE) (ub lb : Nat)
    (htag : child.Tag = DW_TAG_subrange_type)
    (hcount : lastUnsigned DW_AT_count child.GetAttributes = none)
    (hub : lastUnsigned DW_AT_upper_bound child.GetAttributes = some ub)
    (hlb : (lastUnsigned DW_AT_lower_bound child.GetAttributes).getD 0 = lb)
    (hle : lb ≤ ub) :
    (visitChild exe_ctx array_info child).element_orders =
      array_info.element_orders ++ [if ub = 2 ^ 64 - 1 ∧ lb = 0 then 0 else ub - lb + 1] := by
  have hne : child.GetAttributes ≠ [] :=
    lastUnsigned_ne_nil DW_AT_upper_bound _ (by rw [hub]; simp)
  rw [visitChild_subrange exe_ctx array_info child htag hne]
  simp only []
  rw [finalNumElements_scan, scan_num_elements_absent _ _ _ _ hcount]
  simp only [if_true]
  unfold boundBasedCount
  rw [hub]
  simp only [hlb, hle, if_true]
  rw [wrap_add_one ub lb (lastUnsigned_lt _ _ _ hub) hle]

/-- The subrange child of the scenario: `[upper_bound = 2, lower_bound = 0]`. -/
def threeElementChild : DWARFDIE :=
  .die DW_TAG_subrange_type "" [{ attr := DW_AT_upper_bound, form_value := some { uval := 2 } },
    { attr := DW_AT_lower_bound, form_value := some { uval := 0 } }] .invalid []

/-- The scenario of C1: the child `[upper_bound = 2, lower_bound = 0]` records `3`. -/
theorem count_from_bounds_witness :
    threeElementChild.Tag = DW_TAG_subrange_type ∧
    (visitChild none {} threeElementChild).element_orders =
      ([] : List Nat) ++ [if 2 = 2 ^ 64 - 1 ∧ 0 = 0 then 0 else 2 - 0 + 1] :=
  ⟨by decide, count_from_bounds none {} threeElementChild 2 0 (by decide) (by decide)
    (by decide) (by decide) (by decide)⟩

/-- C2: for a subrange child with a non-empty attribute list, no count attribute, and either
no upper bound or an upper bound below the lower bound, the loop body appends exactly the
entry `0`. -/
theorem count_unknown_is_zero (exe_ctx : Option ExecutionContext) (array_info : ArrayInfo)
    (child : DWARFDIE)
    (htag : child.Tag = DW_TAG_subrange_type)
    (hne : child.GetAttributes ≠ [])
    (hcount : lastUnsigned DW_AT_count child.GetAttributes = none)
    (hub : lastUnsigned DW_AT_upper_bound child.GetAttributes = none ∨
      ∃ ub, lastUnsigned DW_AT_upper_bound child.GetAttributes = some ub ∧
        ub < (lastUnsigned DW_AT_lower_bound child.GetAttributes).getD 0) :
    (visitChild exe_ctx array_info child).element_orders = array_info.element_orders ++ [0] := by
  rw [visitChild_subrange exe_ctx array_info child htag hne]
  simp only []
  rw [finalNumElements_scan, scan_num_elements_absent _ _ _ _ hcount]
  simp only [if_true]
  unfold boundBasedCount
  rcases hub with h | ⟨ub, h, hlt⟩
  · rw [h]
  · rw [h]
    simp only [Nat.not_le.mpr hlt, if_false]

/-- The child of the example of C2: `[upper_bound = 4, lower_bound = 5]`. -/
def invertedChild : DWARFDIE :=
  .die DW_TAG_subrange_type "" [{ attr := DW_AT_upper_bound, form_value := some { uval := 4 } },
    { attr := DW_AT_lower_bound, form_value := some { uval := 5 } }] .invalid []

/-- The example of C2: the child `[upper_bound = 4, lower_bound = 5]` records `0`. -/
theorem count_unknown_is_zero_witness :
    invertedChild.Tag = DW_TAG_subrange_type ∧
    (visitChild none {} invertedChild).element_orders = ([] : List Nat) ++ [0] :=
  ⟨by decide, count_unknown_is_zero none {} invertedChild (by decide) (by decide) (by decide)
    (Or.inr ⟨4, by decide, by decide⟩)⟩

/-- A variable node, as the target of a `DW_AT_count` reference. -/
def countVariable : DWARFDIE := .die DW_TAG_variable "n" [] .invalid []

/-- A subrange child `[count = ref, upper_bound = 2, lower_bound = 0]` whose count refers to
the variable `n`. -/
def dynamicChild : DWARFDIE :=
  .die DW_TAG_subrange_type "" [{ attr := DW_AT_count, form_value := some { uval := 40 } },
    { attr := DW_AT_upper_bound, form_value := some { uval := 2 } },
    { attr := DW_AT_lower_bound, form_value := some { uval := 0 } }] countVariable []

/-- An execution context whose frame evaluates every variable to `v`. -/
def constantContext (v : Nat) : ExecutionContext :=
  { GetFrameSP := some { GetValueForVariableExpressionPath := fun _ => some { uval := v } } }

/-- C3, as stated, fails: when the variable behind `DW_AT_count` evaluates successfully to
`0`, the child `[count = ref, upper_bound = 2, lower_bound = 0]` records `3`, not `0`. -/
theorem zero_valued_variable_uses_bounds :
    dynamicChild.Tag = DW_TAG_subrange_type ∧
    dynamicChild.GetReferencedDIE_count.IsValid = true ∧
    dynamicChild.GetReferencedDIE_count.Tag = DW_TAG_variable ∧
    (∃ frame valobj, (constantContext 0).GetFrameSP = some frame ∧
      frame.GetValueForVariableExpressionPath dynamicChild.GetReferencedDIE_count.GetName
        = some valobj ∧ valobj.GetValueAsUnsigned = 0) ∧
    (visitChild (some (constantContext 0)) {} dynamicChild).element_orders = [3] ∧
    ParseChildArrayInfo (.die 0 "" [] .invalid [dynamicChild]) (some (constantContext 0))
      = some { element_orders := [3] } :=
  ⟨by decide, by decide, by decide, ⟨_, _, rfl, rfl, by decide⟩, by decide, by decide⟩

/-- C3 (amended): for a subrange child with a count attribute that refers to a variable node,
and an execution context whose frame evaluates the variable's name successfully to a value
with unsigned reading `v`, where `v` is not `0`, the loop body appends exactly the entry `v`,
whatever bound attributes the child carries. -/
theorem count_from_variable (ctx : ExecutionContext) (frame : StackFrame)
    (valobj : ValueObject) (array_info : ArrayInfo) (child : DWARFDIE) (v : Nat)
    (htag : child.Tag = DW_TAG_subrange_type)
    (hcount : (lastUnsigned DW_AT_count child.GetAttributes).isSome = true)
    (hvalid : child.GetReferencedDIE_count.IsValid = true)
    (hvar : child.GetReferencedDIE_count.Tag = DW_TAG_variable)
    (hframe : ctx.GetFrameSP = some frame)
    (heval : frame.GetValueForVariableExpressionPath child.GetReferencedDIE_count.GetName
      = some valobj)
    (hv : valobj.GetValueAsUnsigned = v)
    (hv0 : v ≠ 0) :
    (visitChild (some ctx) array_info child).element_orders =
      array_info.element_orders ++ [v] := by
  have hne : child.GetAttributes ≠ [] :=
    lastUnsigned_ne_nil DW_AT_count _ (by
      intro h; rw [h] at hcount; simp at hcount)
  rw [visitChild_subrange (some ctx) array_info child htag hne]
  simp only []
  rw [finalNumElements_scan,
    scan_num_elements_const child (some ctx) v
      (fun fv n => by
        rw [countCase_evaluated child ctx frame valobj hvalid hvar hframe heval fv n, hv])]
  simp [hcount, hv0]

/-- The example of C3: the variable evaluates to `7` and the child, which also carries
bounds, records `7`. -/
theorem count_from_variable_witness :
    dynamicChild.Tag = DW_TAG_subrange_type ∧
    (visitChild (some (constantContext 7)) {} dynamicChild).element_orders =
      ([] : List Nat) ++ [7] :=
  ⟨by decide, count_from_variable (constantContext 7) _ _ {} dynamicChild 7 (by decide)
    (by decide) (by decide) (by decide) rfl rfl (by decide) (by decide)⟩

/-- The attribute list without its `DW_AT_count` attributes. -/
def withoutCount (attributes : List DWARFAttribute) : List DWARFAttribute :=
  attributes.filter fun a => a.attr ≠ DW_AT_count

theorem lastUnsigned_withoutCount (kind : Nat) (hk : kind ≠ DW_AT_count)
    (l : List DWARFAttribute) :
    lastUnsigned kind (withoutCount l) = lastUnsigned kind l := by
  induction l using List.reverseRecOn with
  | nil => rfl
  | append_singleton l a ih =>
    unfold withoutCount at ih ⊢
    rw [List.filter_append, lastUnsigned_snoc]
    by_cases hc : a.attr = DW_AT_count
    · have hak : a.attr ≠ kind := fun h => hk (h ▸ hc)
      have : List.filter (fun a => decide (a.attr ≠ DW_AT_count)) [a] = [] := by
        simp [hc]
      rw [this, List.append_nil, if_neg hak, ih]
    · have : List.filter (fun a => decide (a.attr ≠ DW_AT_count)) [a] = [a] := by
        simp [hc]
      rw [this, lastUnsigned_snoc, ih]

theorem lastUnsigned_count_withoutCount (l : List DWARFAttribute) :
    lastUnsigned DW_AT_count (withoutCount l) = none := by
  induction l using List.reverseRecOn with
  | nil => rfl
  | append_singleton l a ih =>
    unfold withoutCount at ih ⊢
    rw [List.filter_append]
    by_cases hc : a.attr = DW_AT_count
    · simpa [hc] using ih
    · have : List.filter (fun a => decide (a.attr ≠ DW_AT_count)) [a] = [a] := by
        simp [hc]
      rw [this, lastUnsigned_snoc, if_neg hc, ih]

theorem boundBasedCount_withoutCount (l : List DWARFAttribute) :
    boundBasedCount (withoutCount l) = boundBasedCount l := by
  unfold boundBasedCount
  rw [lastUnsigned_withoutCount DW_AT_upper_bound (by decide),
    lastUnsigned_withoutCount DW_AT_lower_bound (by decide)]

/-- A subrange child `[count = ref, upper_bound = 2^64 - 1]` whose count refers to the
variable `n`. -/
def fullRangeDynamicChild : DWARFDIE :=
  .die DW_TAG_subrange_type "" [{ attr := DW_AT_count, form_value := some { uval := 40 } },
    { attr := DW_AT_upper_bound, form_value := some { uval := 2 ^ 64 - 1 } }] countVariable []

/-- C4, as stated, fails: with no execution context, the child
`[count = ref, upper_bound = 2^64 - 1]`, whose count reference resolves to a variable, has an
upper bound `ub = 2^64 - 1 >= lb = 0` and records `0`, not `ub - lb + 1 = 2^64`. -/
theorem unevaluated_count_full_range_wraps :
    fullRangeDynamicChild.Tag = DW_TAG_subrange_type ∧
    fullRangeDynamicChild.GetReferencedDIE_count.IsValid = true ∧
    countTierFails fullRangeDynamicChild.GetReferencedDIE_count none ∧
    lastUnsigned DW_AT_upper_bound fullRangeDynamicChild.GetAttributes = some (2 ^ 64 - 1) ∧
    (lastUnsigned DW_AT_lower_bound fullRangeDynamicChild.GetAttributes).getD 0 = 0 ∧
    (visitChild none {} fullRangeDynamicChild).element_orders = [0] ∧
    ParseChildArrayInfo (.die 0 "" [] .invalid [fullRangeDynamicChild]) none
      = some { element_orders := [0] } ∧
    (2 ^ 64 - 1) - 0 + 1 ≠ 0 :=
  ⟨by decide, by decide, Or.inl rfl, by decide, by decide, by decide, by decide, by decide⟩

/-- C4 (amended): for a subrange child whose `DW_AT_count` reference resolves to a node, when
no execution context is supplied, or the context has no frame, or the node is not a variable,
or the evaluation of the variable's name fails, the loop body appends exactly the
bound-based count of the child's attributes other than count, which is
`(ub - lb + 1) mod 2^64` when an upper bound is present with `ub >= lb` and `0` otherwise;
and every child that has the same attributes without the count attributes records that same
entry. -/
theorem count_reference_falls_through (exe_ctx : Option ExecutionContext)
    (array_info : ArrayInfo) (child : DWARFDIE)
    (htag : child.Tag = DW_TAG_subrange_type)
    (hne : child.GetAttributes ≠ [])
    (hvalid : child.GetReferencedDIE_count.IsValid = true)
    (hfail : countTierFails child.GetReferencedDIE_count exe_ctx) :
    (visitChild exe_ctx array_info child).element_orders =
        array_info.element_orders ++ [boundBasedCount (withoutCount child.GetAttributes)] ∧
    ∀ stripped : DWARFDIE, stripped.Tag = DW_TAG_subrange_type →
      stripped.GetAttributes = withoutCount child.GetAttributes →
      stripped.GetAttributes ≠ [] →
      (visitChild exe_ctx array_info stripped).element_orders =
        (visitChild exe_ctx array_info child).element_orders := by
  have key : (visitChild exe_ctx array_info child).element_orders =
      array_info.element_orders ++ [boundBasedCount (withoutCount child.GetAttributes)] := by
    rw [visitChild_subrange exe_ctx array_info child htag hne]
    simp only []
    rw [finalNumElements_scan,
      scan_num_elements_keep child exe_ctx (countCase_fails child exe_ctx hvalid hfail)]
    simp only [if_true]
    rw [boundBasedCount_withoutCount]
  refine ⟨key, ?_⟩
  intro stripped hstag hsattrs hsne
  rw [key, visitChild_subrange exe_ctx array_info stripped hstag hsne]
  simp only []
  rw [finalNumElements_scan, scan_num_elements_absent _ _ _ _
    (by rw [hsattrs]; exact lastUnsigned_count_withoutCount _)]
  simp only [if_true]
  rw [hsattrs, boundBasedCount_withoutCount]

/-- The example of C4: no execution context is supplied; the child
`[count = ref (raw word 40), upper_bound = 2, lower_bound = 0]` records `3`, as does the
child `[upper_bound = 2, lower_bound = 0]`. -/
theorem count_reference_falls_through_witness :
    dynamicChild.Tag = DW_TAG_subrange_type ∧
    dynamicChild.GetReferencedDIE_count.IsValid = true ∧
    boundBasedCount (withoutCount dynamicChild.GetAttributes) = 3 ∧
    (visitChild none {} dynamicChild).element_orders =
      ([] : List Nat) ++ [boundBasedCount (withoutCount dynamicChild.GetAttributes)] ∧
    (visitChild none {} threeElementChild).element_orders =
      (visitChild none {} dynamicChild).element_orders :=
  ⟨by decide, by decide, by decide,
    (count_reference_falls_through none {} dynamicChild (by decide) (by decide) (by decide)
      (Or.inl rfl)).1,
    (count_reference_falls_through none {} dynamicChild (by decide) (by decide) (by decide)
      (Or.inl rfl)).2 threeElementChild (by decide) (by decide) (by decide)⟩

/-- C5: for a subrange child whose count attribute refers to no node and whose unsigned
literal value is `n`, with `n` not `0`, the loop body appends exactly the entry `n`, whatever
bound attributes the child carries and wherever they stand in the list. -/
theorem count_literal (exe_ctx : Option ExecutionContext) (array_info : ArrayInfo)
    (child : DWARFDIE) (n : Nat)
    (htag : child.Tag = DW_TAG_subrange_type)
    (hinvalid : child.GetReferencedDIE_count.IsValid = false)
    (hcount : lastUnsigned DW_AT_count child.GetAttributes = some n)
    (hn : n ≠ 0) :
    (visitChild exe_ctx array_info child).element_orders =
      array_info.element_orders ++ [n] := by
  have hne : child.GetAttributes ≠ [] :=
    lastUnsigned_ne_nil DW_AT_count _ (by rw [hcount]; simp)
  rw [visitChild_subrange exe_ctx array_info child htag hne]
  simp only []
  rw [finalNumElements_scan,
    scan_num_elements_literal child exe_ctx (countCase_invalid child exe_ctx hinvalid)]
  simp [hcount, hn]

/-- A subrange child `[upper_bound = 9, count = 4, lower_bound = 0]` with a literal count
standing between the bounds. -/
def literalChild : DWARFDIE :=
  .die DW_TAG_subrange_type "" [{ attr := DW_AT_upper_bound, form_value := some { uval := 9 } },
    { attr := DW_AT_count, form_value := some { uval := 4 } },
    { attr := DW_AT_lower_bound, form_value := some { uval := 0 } }] .invalid []

/-- An example of C5: the literal count `4` is recorded although the bounds would give `10`. -/
theorem count_literal_witness :
    literalChild.Tag = DW_TAG_subrange_type ∧
    boundBasedCount literalChild.GetAttributes = 10 ∧
    (visitChild none {} literalChild).element_orders = ([] : List Nat) ++ [4] :=
  ⟨by decide, by decide,
    count_literal none {} literalChild 4 (by decide) (by decide) (by decide) (by decide)⟩

/-! ### The record as a whole -/

/-- Whether the loop body records a dimension for a child: the child is tagged
`DW_TAG_subrange_type` and `GetAttributes` reports at least one attribute. -/
def recordsDimension (child : DWARFDIE) : Bool :=
  decide (child.Tag = DW_TAG_subrange_type) && !child.GetAttributes.isEmpty

/-- The count resolved for a child: the entry the loop body records for it. -/
def dimensionCount (exe_ctx : Option ExecutionContext) (child : DWARFDIE) : Nat :=
  (visitChild exe_ctx {} child).element_orders.headD 0

/-- The attributes met by `ParseChildArrayInfo`, in scan order: those of the subrange
children, child after child. -/
def subrangeAttributes (parent_die : DWARFDIE) : List DWARFAttribute :=
  (parent_die.children.filter fun c => c.Tag = DW_TAG_subrange_type).flatMap
    DWARFDIE.GetAttributes

theorem scan_locals_indep (die : DWARFDIE) (exe_ctx : Option ExecutionContext)
    (l : List DWARFAttribute) (a b : ArrayInfo) (loc : SubrangeLocals) :
    (scanAttributes die exe_ctx l (a, loc)).2 = (scanAttributes die exe_ctx l (b, loc)).2 := by
  induction l using List.reverseRecOn with
  | nil => rfl
  | append_singleton l x ih =>
    rw [scanAttributes_snoc, scanAttributes_snoc]
    unfold scanAttribute
    cases hf : x.form_value with
    | none => simpa using ih
    | some fv =>
      simp only []
      split_ifs <;> simp [ih]

theorem visitChild_records (exe_ctx : Option ExecutionContext) (array_info : ArrayInfo)
    (child : DWARFDIE) (h : recordsDimension child = true) :
    (visitChild exe_ctx array_info child).element_orders =
      array_info.element_orders ++ [dimensionCount exe_ctx child] := by
  simp only [recordsDimension, Bool.and_eq_true, decide_eq_true_eq, Bool.not_eq_true_eq_eq_false,
    List.isEmpty_eq_false_iff_exists_mem] at h
  obtain ⟨htag, x, hx⟩ := h
  have hne : child.GetAttributes ≠ [] := List.ne_nil_of_mem hx
  unfold dimensionCount
  rw [visitChild_subrange exe_ctx array_info child htag hne,
    visitChild_subrange exe_ctx {} child htag hne]
  simp only []
  rw [scan_locals_indep child exe_ctx child.GetAttributes array_info {} {}]
  simp

theorem visitChild_skips (exe_ctx : Option ExecutionContext) (array_info : ArrayInfo)
    (child : DWARFDIE) (h : recordsDimension child = false) :
    visitChild exe_ctx array_info child = array_info := by
  simp only [recordsDimension, Bool.and_eq_false_iff, decide_eq_false_iff_not,
    Bool.not_eq_false_eq_eq_true, List.isEmpty_iff] at h
  rcases h with h | h
  · exact visitChild_other exe_ctx array_info child h
  · exact visitChild_empty exe_ctx array_info child h

theorem foldl_visitChild_element_orders (exe_ctx : Option ExecutionContext)
    (children : List DWARFDIE) (array_info : ArrayInfo) :
    (children.foldl (visitChild exe_ctx) array_info).element_orders =
      array_info.element_orders ++
        (children.filter recordsDimension).map (dimensionCount exe_ctx) := by
  induction children generalizing array_info with
  | nil => simp
  | cons c cs ih =>
    rw [List.foldl_cons, ih]
    cases h : recordsDimension c with
    | true => simp [List.filter_cons, h, visitChild_records exe_ctx array_info c h]
    | false => simp [List.filter_cons, h, visitChild_skips exe_ctx array_info c h]

/-- A subrange child for which `GetAttributes` reports no attribute. -/
def bareSubrange : DWARFDIE := .die DW_TAG_subrange_type "" [] .invalid []

/-- C6, as stated, fails: a valid parent whose only child is a subrange child without
attributes has one subrange child and an empty `element_orders`. -/
theorem element_orders_skips_bare_subrange :
    (DWARFDIE.die 0 "" [] .invalid [bareSubrange]).IsValid = true ∧
    ((DWARFDIE.die 0 "" [] .invalid [bareSubrange]).children.filter
      fun c => c.Tag = DW_TAG_subrange_type).length = 1 ∧
    ParseChildArrayInfo (.die 0 "" [] .invalid [bareSubrange]) none
      = some { element_orders := [] } := by
  decide

/-- C6 (amended): for every valid parent node, `element_orders` has exactly one entry per
child that is tagged `DW_TAG_subrange_type` and has at least one attribute, in child order:
its length is the number of such children, its entries are the counts resolved for them, and
every other child contributes no entry. -/
theorem element_orders_per_dimension (parent_die : DWARFDIE)
    (exe_ctx : Option ExecutionContext) (hvalid : parent_die.IsValid = true) :
    ∃ info, ParseChildArrayInfo parent_die exe_ctx = some info ∧
      info.element_orders =
        (parent_die.children.filter recordsDimension).map (dimensionCount exe_ctx) ∧
      info.element_orders.length = (parent_die.children.filter recordsDimension).length := by
  refine ⟨parent_die.children.foldl (visitChild exe_ctx) {}, ?_, ?_, ?_⟩
  · simp [ParseChildArrayInfo, hvalid]
  · rw [foldl_visitChild_element_orders]
    rfl
  · rw [foldl_visitChild_element_orders]
    simp

/-- A parent with the children: a variable, `[upper_bound = 2, lower_bound = 0]`, a subrange
without attributes, and `[upper_bound = 9, count = 4, lower_bound = 0]`. -/
def matrixParent : DWARFDIE :=
  .die 0x01 "arr" [] .invalid [countVariable, threeElementChild, bareSubrange, literalChild]

/-- An example of C6: the parent `matrixParent` yields `element_orders = [3, 4]`. -/
theorem element_orders_per_dimension_witness :
    matrixParent.IsValid = true ∧
    (matrixParent.children.filter recordsDimension).map (dimensionCount none) = [3, 4] ∧
    ∃ info, ParseChildArrayInfo matrixParent none = some info ∧
      info.element_orders =
        (matrixParent.children.filter recordsDimension).map (dimensionCount none) ∧
      info.element_orders.length = (matrixParent.children.filter recordsDimension).length :=
  ⟨by decide, by decide, element_orders_per_dimension matrixParent none (by decide)⟩

/-- C7: `ParseChildArrayInfo` returns no result exactly for the invalid handle; for every valid
parent it returns a record, and for a valid parent without subrange children the record has
an empty `element_orders` and the default strides. -/
theorem no_result_iff_invalid (parent_die : DWARFDIE) (exe_ctx : Option ExecutionContext) :
    (ParseChildArrayInfo parent_die exe_ctx = none ↔ parent_die.IsValid = false) ∧
    (parent_die.IsValid = true → ∃ info, ParseChildArrayInfo parent_die exe_ctx = some info) ∧
    (parent_die.IsValid = true →
      (∀ c ∈ parent_die.children, c.Tag ≠ DW_TAG_subrange_type) →
      ParseChildArrayInfo parent_die exe_ctx =
        some { first_index := 0, element_orders := [], byte_stride := 0, bit_stride := 0 }) := by
  refine ⟨?_, ?_, ?_⟩
  · cases h : parent_die.IsValid <;> simp [ParseChildArrayInfo, h]
  · intro h
    exact ⟨parent_die.children.foldl (visitChild exe_ctx) {}, by simp [ParseChildArrayInfo, h]⟩
  · intro h hch
    have hfold : ∀ (cs : List DWARFDIE) (a : ArrayInfo),
        (∀ c ∈ cs, c.Tag ≠ DW_TAG_subrange_type) → cs.foldl (visitChild exe_ctx) a = a := by
      intro cs
      induction cs with
      | nil => intro a _; rfl
      | cons c cs ih =>
        intro a hcs
        rw [List.foldl_cons, visitChild_other exe_ctx a c (hcs c (List.mem_cons_self _ _))]
        exact ih a (fun d hd => hcs d (List.mem_cons_of_mem _ hd))
    simp [ParseChildArrayInfo, h, hfold _ _ hch]

/-- Examples of C7: the invalid handle yields no result; a valid parent whose only child is a
variable yields the default record. -/
theorem no_result_iff_invalid_witness :
    ParseChildArrayInfo .invalid none = none ∧
    ParseChildArrayInfo (.die 0x01 "arr" [] .invalid [countVariable]) none =
      some { first_index := 0, element_orders := [], byte_stride := 0, bit_stride := 0 } :=
  ⟨(no_result_iff_invalid .invalid none).1.mpr (by decide),
    (no_result_iff_invalid (.die 0x01 "arr" [] .invalid [countVariable]) none).2.2
      (by decide) (by decide)⟩

theorem lastUnsigned_append (kind : Nat) (l₁ l₂ : List DWARFAttribute) :
    lastUnsigned kind (l₁ ++ l₂) =
      match lastUnsigned kind l₂ with
      | some v => some v
      | none => lastUnsigned kind l₁ := by
  induction l₂ using List.reverseRecOn with
  | nil => simp [lastUnsigned_nil]
  | append_singleton l a ih =>
    rw [← List.append_assoc, lastUnsigned_snoc, lastUnsigned_snoc, ih]
    by_cases hk : a.attr = kind
    · cases hf : a.form_value <;> simp [hk]
    · simp [hk]

/-- The value a stride field ends with: the last stride value of the list narrowed to the
32-bit field, the previous value when the list has none. -/
def strideAfter (kind : Nat) (attributes : List DWARFAttribute) (previous : Nat) : Nat :=
  match lastUnsigned kind attributes with
  | some v => v % 2 ^ 32
  | none => previous

theorem strideAfter_append (kind : Nat) (l₁ l₂ : List DWARFAttribute) (previous : Nat) :
    strideAfter kind (l₁ ++ l₂) previous = strideAfter kind l₂ (strideAfter kind l₁ previous) := by
  unfold strideAfter
  rw [lastUnsigned_append]
  cases lastUnsigned kind l₂ <;> rfl

theorem visitChild_byte_stride (exe_ctx : Option ExecutionContext) (array_info : ArrayInfo)
    (child : DWARFDIE) :
    (visitChild exe_ctx array_info child).byte_stride =
      if child.Tag = DW_TAG_subrange_type then
        strideAfter DW_AT_byte_stride child.GetAttributes array_info.byte_stride
      else array_info.byte_stride := by
  by_cases htag : child.Tag = DW_TAG_subrange_type
  · rw [if_pos htag]
    by_cases hne : child.GetAttributes = []
    · rw [visitChild_empty exe_ctx array_info child hne, hne]
      rfl
    · rw [visitChild_subrange exe_ctx array_info child htag hne]
      simp only []
      rw [scan_byte_stride]
      unfold strideAfter
      cases lastUnsigned DW_AT_byte_stride child.GetAttributes <;> rfl
  · rw [if_neg htag, visitChild_other exe_ctx array_info child htag]

theorem visitChild_bit_stride (exe_ctx : Option ExecutionContext) (array_info : ArrayInfo)
    (child : DWARFDIE) :
    (visitChild exe_ctx array_info child).bit_stride =
      if child.Tag = DW_TAG_subrange_type then
        strideAfter DW_AT_bit_stride child.GetAttributes array_info.bit_stride
      else array_info.bit_stride := by
  by_cases htag : child.Tag = DW_TAG_subrange_type
  · rw [if_pos htag]
    by_cases hne : child.GetAttributes = []
    · rw [visitChild_empty exe_ctx array_info child hne, hne]
      rfl
    · rw [visitChild_subrange exe_ctx array_info child htag hne]
      simp only []
      rw [scan_bit_stride]
      unfold strideAfter
      cases lastUnsigned DW_AT_bit_stride child.GetAttributes <;> rfl
  · rw [if_neg htag, visitChild_other exe_ctx array_info child htag]

theorem foldl_visitChild_byte_stride (exe_ctx : Option ExecutionContext)
    (children : List DWARFDIE) (array_info : ArrayInfo) :
    (children.foldl (visitChild exe_ctx) array_info).byte_stride =
      strideAfter DW_AT_byte_stride
        ((children.filter fun c => c.Tag = DW_TAG_subrange_type).flatMap DWARFDIE.GetAttributes)
        array_info.byte_stride := by
  induction children generalizing array_info with
  | nil => rfl
  | cons c cs ih =>
    rw [List.foldl_cons, ih, visitChild_byte_stride]
    by_cases htag : c.Tag = DW_TAG_subrange_type
    · simp [List.filter_cons, htag, strideAfter_append]
    · simp [List.filter_cons, htag]

theorem foldl_visitChild_bit_stride (exe_ctx : Option ExecutionContext)
    (children : List DWARFDIE) (array_info : ArrayInfo) :
    (children.foldl (visitChild exe_ctx) array_info).bit_stride =
      strideAfter DW_AT_bit_stride
        ((children.filter fun c => c.Tag = DW_TAG_subrange_type).flatMap DWARFDIE.GetAttributes)
        array_info.bit_stride := by
  induction children generalizing array_info with
  | nil => rfl
  | cons c cs ih =>
    rw [List.foldl_cons, ih, visitChild_bit_stride]
    by_cases htag : c.Tag = DW_TAG_subrange_type
    · simp [List.filter_cons, htag, strideAfter_append]
    · simp [List.filter_cons, htag]

/-- A parent with one subrange child carrying `byte_stride = 2^32 + 8` and
`bit_stride = 2^32 + 64`. -/
def wideStrideParent : DWARFDIE :=
  .die 0x01 "arr" [] .invalid
    [.die DW_TAG_subrange_type ""
      [{ attr := DW_AT_byte_stride, form_value := some { uval := 2 ^ 32 + 8 } },
       { attr := DW_AT_bit_stride, form_value := some { uval := 2 ^ 32 + 64 } }] .invalid []]

/-- C8, as stated, fails: the last `DW_AT_byte_stride` met has the value `2^32 + 8` and the
last `DW_AT_bit_stride` the value `2^32 + 64`, while the record holds `8` and `64`. -/
theorem stride_is_narrowed :
    lastUnsigned DW_AT_byte_stride (subrangeAttributes wideStrideParent) = some (2 ^ 32 + 8) ∧
    lastUnsigned DW_AT_bit_stride (subrangeAttributes wideStrideParent) = some (2 ^ 32 + 64) ∧
    ParseChildArrayInfo wideStrideParent none =
      some { element_orders := [0], byte_stride := 8, bit_stride := 64 } := by
  decide

/-- C8 (amended): the record's `byte_stride` (respectively `bit_stride`) is the value of the
last `DW_AT_byte_stride` (respectively `DW_AT_bit_stride`) attribute met when scanning the
subrange children in child order and each child's attributes in list order, reduced modulo
`2^32`, and is the default `0` when no subrange child carries that attribute; the attributes
of other children do not enter. -/
theorem strides_last_wins (parent_die : DWARFDIE) (exe_ctx : Option ExecutionContext)
    (hvalid : parent_die.IsValid = true) :
    ∃ info, ParseChildArrayInfo parent_die exe_ctx = some info ∧
      info.byte_stride =
        (match lastUnsigned DW_AT_byte_stride (subrangeAttributes parent_die) with
          | some v => v % 2 ^ 32
          | none => 0) ∧
      info.bit_stride =
        (match lastUnsigned DW_AT_bit_stride (subrangeAttributes parent_die) with
          | some v => v % 2 ^ 32
          | none => 0) := by
  refine ⟨parent_die.children.foldl (visitChild exe_ctx) {}, ?_, ?_, ?_⟩
  · simp [ParseChildArrayInfo, hvalid]
  · rw [foldl_visitChild_byte_stride]
    rfl
  · rw [foldl_visitChild_bit_stride]
    rfl

/-- A parent whose children are: a variable carrying `byte_stride = 99`, a subrange child
`[byte_stride = 4, byte_stride = 16]`, and a subrange child `[bit_stride = 3, upper_bound = 1]`. -/
def stridedParent : DWARFDIE :=
  .die 0x01 "arr" [] .invalid
    [.die DW_TAG_variable "v" [{ attr := DW_AT_byte_stride, form_value := some { uval := 99 } }]
      .invalid [],
     .die DW_TAG_subrange_type ""
      [{ attr := DW_AT_byte_stride, form_value := some { uval := 4 } },
       { attr := DW_AT_byte_stride, form_value := some { uval := 16 } }] .invalid [],
     .die DW_TAG_subrange_type ""
      [{ attr := DW_AT_bit_stride, form_value := some { uval := 3 } },
       { attr := DW_AT_upper_bound, form_value := some { uval := 1 } }] .invalid []]

/-- An example of C8: `stridedParent` yields `byte_stride = 16` and `bit_stride = 3`. -/
theorem strides_last_wins_witness :
    stridedParent.IsValid = true ∧
    ParseChildArrayInfo stridedParent none =
      some { element_orders := [0, 2], byte_stride := 16, bit_stride := 3 } ∧
    ∃ info, ParseChildArrayInfo stridedParent none = some info ∧
      info.byte_stride =
        (match lastUnsigned DW_AT_byte_stride (subrangeAttributes stridedParent) with
          | some v => v % 2 ^ 32
          | none => 0) ∧
      info.bit_stride =
        (match lastUnsigned DW_AT_bit_stride (subrangeAttributes stridedParent) with
          | some v => v % 2 ^ 32
          | none => 0) :=
  ⟨by decide, by decide, strides_last_wins stridedParent none (by decide)⟩

/-! ## Claims on `GetAccessTypeFromDWARF` -/

/-- C9: `GetAccessTypeFromDWARF` maps the public code to `eAccessPublic`, the private code to
`eAccessPrivate`, the protected code to `eAccessProtected`, and every other input, in
particular every other unsigned 32-bit input, to `eAccessNone`. -/
theorem access_type_of_code :
    GetAccessTypeFromDWARF DW_ACCESS_public = AccessType.eAccessPublic ∧
    GetAccessTypeFromDWARF DW_ACCESS_private = AccessType.eAccessPrivate ∧
    GetAccessTypeFromDWARF DW_ACCESS_protected = AccessType.eAccessProtected ∧
    ∀ v : Nat, v ≠ DW_ACCESS_public → v ≠ DW_ACCESS_private → v ≠ DW_ACCESS_protected →
      GetAccessTypeFromDWARF v = AccessType.eAccessNone := by
  refine ⟨by decide, by decide, by decide, ?_⟩
  intro v h1 h2 h3
  simp [GetAccessTypeFromDWARF, h1, h2, h3]

/-- Examples of C9: the codes `0`, `4` and `2^32 - 1` map to `eAccessNone`. -/
theorem access_type_of_code_witness :
    GetAccessTypeFromDWARF 0 = AccessType.eAccessNone ∧
    GetAccessTypeFromDWARF 4 = AccessType.eAccessNone ∧
    GetAccessTypeFromDWARF (2 ^ 32 - 1) = AccessType.eAccessNone :=
  ⟨access_type_of_code.2.2.2 0 (by decide) (by decide) (by decide),
    access_type_of_code.2.2.2 4 (by decide) (by decide) (by decide),
    access_type_of_code.2.2.2 (2 ^ 32 - 1) (by decide) (by decide) (by decide)⟩

/-! ## Claims on `ParsedDWARFTypeAttributes` -/

/-- C10: for every node whose attribute list is empty the constructed record is the
all-default one: accessibility none, `attr_flags = 0` and all eleven flags false, `byte_size`
and `mangled_name` absent, empty name, the normal calling convention, and `bit_stride`,
`byte_stride` and `encoding` equal to `0`. -/
theorem empty_attributes_default (die : DWARFDIE) (h : die.GetAttributes = []) :
    ParsedDWARFTypeAttributes.ctor die = {} ∧
    (ParsedDWARFTypeAttributes.ctor die).accessibility = AccessType.eAccessNone ∧
    (ParsedDWARFTypeAttributes.ctor die).attr_flags = 0 ∧
    (ParsedDWARFTypeAttributes.ctor die).isArtificial = false ∧
    (ParsedDWARFTypeAttributes.ctor die).isExplicit = false ∧
    (ParsedDWARFTypeAttributes.ctor die).isForwardDeclaration = false ∧
    (ParsedDWARFTypeAttributes.ctor die).isInline = false ∧
    (ParsedDWARFTypeAttributes.ctor die).isScopedEnum = false ∧
    (ParsedDWARFTypeAttributes.ctor die).isVector = false ∧
    (ParsedDWARFTypeAttributes.ctor die).isVirtual = false ∧
    (ParsedDWARFTypeAttributes.ctor die).isExternal = false ∧
    (ParsedDWARFTypeAttributes.ctor die).isExportsSymbols = false ∧
    (ParsedDWARFTypeAttributes.ctor die).isObjCDirectCall = false ∧
    (ParsedDWARFTypeAttributes.ctor die).isObjCCompleteType = false ∧
    (ParsedDWARFTypeAttributes.ctor die).byte_size = none ∧
    (ParsedDWARFTypeAttributes.ctor die).mangled_name = none ∧
    (ParsedDWARFTypeAttributes.ctor die).name = "" ∧
    (ParsedDWARFTypeAttributes.ctor die).calling_convention = DW_CC_normal ∧
    (ParsedDWARFTypeAttributes.ctor die).bit_stride = 0 ∧
    (ParsedDWARFTypeAttributes.ctor die).byte_stride = 0 ∧
    (ParsedDWARFTypeAttributes.ctor die).encoding = 0 := by
  have hctor : ParsedDWARFTypeAttributes.ctor die = {} := by
    unfold ParsedDWARFTypeAttributes.ctor
    rw [h]
    rfl
  rw [hctor]
  refine ⟨rfl, rfl, rfl, ?_, ?_, ?_, ?_, ?_, ?_, ?_, ?_, ?_, ?_, ?_, rfl, rfl, rfl, rfl, rfl,
    rfl, rfl⟩ <;> decide

/-- An example of C10: a valid node without attributes. -/
theorem empty_attributes_default_witness :
    (DWARFDIE.die 0x13 "" [] .invalid []).GetAttributes = [] ∧
    ParsedDWARFTypeAttributes.ctor (.die 0x13 "" [] .invalid []) = {} :=
  ⟨rfl, (empty_attributes_default (.die 0x13 "" [] .invalid []) rfl).1⟩

/-! ## Further claims on `ParseChildArrayInfo` -/

/-- A subrange child `[count = 0, upper_bound = 2, lower_bound = 0]` whose count is a
literal. -/
def zeroCountChild : DWARFDIE :=
  .die DW_TAG_subrange_type "" [{ attr := DW_AT_count, form_value := some { uval := 0 } },
    { attr := DW_AT_upper_bound, form_value := some { uval := 2 } },
    { attr := DW_AT_lower_bound, form_value := some { uval := 0 } }] .invalid []

/-- A subrange child `[count = 0, upper_bound = 2^64 - 1]` whose count is a literal. -/
def fullRangeZeroCountChild : DWARFDIE :=
  .die DW_TAG_subrange_type "" [{ attr := DW_AT_count, form_value := some { uval := 0 } },
    { attr := DW_AT_upper_bound, form_value := some { uval := 2 ^ 64 - 1 } }] .invalid []

/-- C16, as stated, fails: the child `[count = 0, upper_bound = 2^64 - 1]`, whose count is a
literal `0`, has an upper bound `ub = 2^64 - 1 >= lb = 0` and records `0`, not
`ub - lb + 1 = 2^64`. -/
theorem zero_count_full_range_wraps :
    fullRangeZeroCountChild.Tag = DW_TAG_subrange_type ∧
    fullRangeZeroCountChild.GetReferencedDIE_count.IsValid = false ∧
    lastUnsigned DW_AT_count fullRangeZeroCountChild.GetAttributes = some 0 ∧
    lastUnsigned DW_AT_upper_bound fullRangeZeroCountChild.GetAttributes = some (2 ^ 64 - 1) ∧
    (lastUnsigned DW_AT_lower_bound fullRangeZeroCountChild.GetAttributes).getD 0 = 0 ∧
    (visitChild none {} fullRangeZeroCountChild).element_orders = [0] ∧
    ParseChildArrayInfo (.die 0 "" [] .invalid [fullRangeZeroCountChild]) none
      = some { element_orders := [0] } ∧
    (2 ^ 64 - 1) - 0 + 1 ≠ 0 := by
  decide

/-- C16 (amended): for a subrange child whose count attribute refers to no node and is the
literal `0`, the loop body appends exactly the bound-based count of the child's attributes
other than count, which is `(ub - lb + 1) mod 2^64` when an upper bound is present with
`ub >= lb` and `0` otherwise, the same entry as for every child with the same attributes and
no count. -/
theorem literal_zero_count_is_unknown (exe_ctx : Option ExecutionContext)
    (array_info : ArrayInfo) (child : DWARFDIE)
    (htag : child.Tag = DW_TAG_subrange_type)
    (hinvalid : child.GetReferencedDIE_count.IsValid = false)
    (hcount : lastUnsigned DW_AT_count child.GetAttributes = some 0) :
    (visitChild exe_ctx array_info child).element_orders =
        array_info.element_orders ++ [boundBasedCount (withoutCount child.GetAttributes)] ∧
    ∀ stripped : DWARFDIE, stripped.Tag = DW_TAG_subrange_type →
      stripped.GetAttributes = withoutCount child.GetAttributes →
      stripped.GetAttributes ≠ [] →
      (visitChild exe_ctx array_info stripped).element_orders =
        (visitChild exe_ctx array_info child).element_orders := by
  have hne : child.GetAttributes ≠ [] :=
    lastUnsigned_ne_nil DW_AT_count _ (by rw [hcount]; simp)
  have key : (visitChild exe_ctx array_info child).element_orders =
      array_info.element_orders ++ [boundBasedCount (withoutCount child.GetAttributes)] := by
    rw [visitChild_subrange exe_ctx array_info child htag hne]
    simp only []
    rw [finalNumElements_scan,
      scan_num_elements_literal child exe_ctx (countCase_invalid child exe_ctx hinvalid)]
    simp only [hcount, Option.getD_some, if_true]
    rw [boundBasedCount_withoutCount]
  refine ⟨key, ?_⟩
  intro stripped hstag hsattrs hsne
  rw [key, visitChild_subrange exe_ctx array_info stripped hstag hsne]
  simp only []
  rw [finalNumElements_scan, scan_num_elements_absent _ _ _ _
    (by rw [hsattrs]; exact lastUnsigned_count_withoutCount _)]
  simp only [if_true]
  rw [hsattrs, boundBasedCount_withoutCount]

/-- An example of C16: `[count = 0, upper_bound = 2, lower_bound = 0]` records `3`, as does
`[upper_bound = 2, lower_bound = 0]`. -/
theorem literal_zero_count_is_unknown_witness :
    zeroCountChild.Tag = DW_TAG_subrange_type ∧
    lastUnsigned DW_AT_count zeroCountChild.GetAttributes = some 0 ∧
    boundBasedCount (withoutCount zeroCountChild.GetAttributes) = 3 ∧
    (visitChild none {} zeroCountChild).element_orders =
      ([] : List Nat) ++ [boundBasedCount (withoutCount zeroCountChild.GetAttributes)] ∧
    (visitChild none {} threeElementChild).element_orders =
      (visitChild none {} zeroCountChild).element_orders :=
  ⟨by decide, by decide, by decide,
    (literal_zero_count_is_unknown none {} zeroCountChild (by decide) (by decide)
      (by decide)).1,
    (literal_zero_count_is_unknown none {} zeroCountChild (by decide) (by decide)
      (by decide)).2 threeElementChild (by decide) (by decide) (by decide)⟩

/-- C19: when the scan of a subrange child obtained no count (`num_elements` is still `0`)
and an upper bound `ub` is present with `ub >= lb`, the recorded count is
`(ub - lb + 1) mod 2^64`: it is `0` when `ub = 2^64 - 1` and `lb = 0`, and lies between `1`
and `2^64 - 1` otherwise. -/
theorem bound_count_modulo (exe_ctx : Option ExecutionContext) (array_info : ArrayInfo)
    (child : DWARFDIE) (ub lb : Nat)
    (htag : child.Tag = DW_TAG_subrange_type)
    (hnone : (scanAttributes child exe_ctx child.GetAttributes (array_info, {})).2.num_elements
      = 0)
    (hub : lastUnsigned DW_AT_upper_bound child.GetAttributes = some ub)
    (hlb : (lastUnsigned DW_AT_lower_bound child.GetAttributes).getD 0 = lb)
    (hle : lb ≤ ub) :
    (visitChild exe_ctx array_info child).element_orders =
        array_info.element_orders ++ [(ub - lb + 1) % 2 ^ 64] ∧
    (ub - lb = 2 ^ 64 - 1 ↔ ub = 2 ^ 64 - 1 ∧ lb = 0) ∧
    (ub - lb = 2 ^ 64 - 1 → (ub - lb + 1) % 2 ^ 64 = 0) ∧
    (ub - lb ≠ 2 ^ 64 - 1 →
      1 ≤ (ub - lb + 1) % 2 ^ 64 ∧ (ub - lb + 1) % 2 ^ 64 ≤ 2 ^ 64 - 1) := by
  have hne : child.GetAttributes ≠ [] :=
    lastUnsigned_ne_nil DW_AT_upper_bound _ (by rw [hub]; simp)
  have hlt : ub < 2 ^ 64 := lastUnsigned_lt _ _ _ hub
  refine ⟨?_, ?_, ?_, ?_⟩
  · rw [visitChild_subrange exe_ctx array_info child htag hne]
    simp only []
    rw [finalNumElements_scan, hnone]
    simp only [if_true]
    unfold boundBasedCount
    rw [hub]
    simp only [hlb, hle, if_true]
  · norm_num at hlt ⊢
    omega
  · intro h
    rw [h]
    norm_num
  · intro h
    norm_num at hlt h ⊢
    omega

/-- Examples of C19: the child `[upper_bound = 2, lower_bound = 0]` records `3`, and the
child `[upper_bound = 2^64 - 1]` records `2^64 mod 2^64 = 0`. -/
theorem bound_count_modulo_witness :
    threeElementChild.Tag = DW_TAG_subrange_type ∧
    (visitChild none {} threeElementChild).element_orders =
      ([] : List Nat) ++ [(2 - 0 + 1) % 2 ^ 64] ∧
    (visitChild none {} fullRangeChild).element_orders =
      ([] : List Nat) ++ [(2 ^ 64 - 1 - 0 + 1) % 2 ^ 64] :=
  ⟨by decide, (bound_count_modulo none {} threeElementChild 2 0 (by decide) (by decide)
    (by decide) (by decide) (by decide)).1,
    (bound_count_modulo none {} fullRangeChild (2 ^ 64 - 1) 0 (by decide) (by decide)
    (by decide) (by decide) (by decide)).1⟩

/-! ## Lemmas on the flag set -/

theorem and_two_pow_eq_zero_iff (n j : Nat) : n &&& 2 ^ j = 0 ↔ n.testBit j = false := by
  constructor
  · intro h
    have := Nat.testBit_and n (2 ^ j) j
    rw [h, Nat.testBit_two_pow_self] at this
    simpa using this.symm
  · intro h
    apply Nat.eq_of_testBit_eq
    intro i
    rw [Nat.testBit_and, Nat.testBit_two_pow, Nat.zero_testBit]
    by_cases hij : j = i
    · subst hij; simp [h]
    · simp [hij]

namespace ParsedDWARFTypeAttributes

theorem hasFlag_bit (r : ParsedDWARFTypeAttributes) (j : Nat) :
    r.hasFlag (1 <<< j) = r.attr_flags.testBit j := by
  unfold hasFlag
  rw [Nat.one_shiftLeft]
  cases h : r.attr_flags.testBit j with
  | false => simp [(and_two_pow_eq_zero_iff _ _).mpr h]
  | true =>
    have : r.attr_flags &&& 2 ^ j ≠ 0 := fun h0 => by
      rw [(and_two_pow_eq_zero_iff _ _).mp h0] at h; exact absurd h (by decide)
    simp [this]

theorem setFlag_bit (r : ParsedDWARFTypeAttributes) (i j : Nat) :
    (r.setFlag (1 <<< i)).attr_flags.testBit j =
      (decide (j < 32) && (r.attr_flags.testBit j || decide (i = j))) := by
  unfold setFlag
  simp only [Nat.one_shiftLeft, Nat.testBit_mod_two_pow, Nat.testBit_or, Nat.testBit_two_pow]

theorem hasFlag_setFlag (r : ParsedDWARFTypeAttributes) (i j : Nat) (hj : j < 32) :
    (r.setFlag (1 <<< i)).hasFlag (1 <<< j) = if i = j then true else r.hasFlag (1 <<< j) := by
  rw [hasFlag_bit, hasFlag_bit, setFlag_bit]
  by_cases hij : i = j
  · simp [hij, hj]
  · simp [hij, hj]

end ParsedDWARFTypeAttributes
/-! ## The normalizer, field by field -/

/-- The value an attribute writes to a field fed by the kinds `kinds`: `val` of the attribute
and its form value when the kind is one of `kinds` and the form value can be extracted. -/
def writeOf {β : Type} (kinds : List Nat) (val : DWARFAttribute → DWARFFormValue → β)
    (a : DWARFAttribute) : Option β :=
  match a.form_value with
  | some fv => if a.attr ∈ kinds then some (val a fv) else none
  | none => none

/-- The last value written to a field by a list of attributes, in iteration order. -/
def lastWrite {β : Type} (w : DWARFAttribute → Option β) (l : List DWARFAttribute) :
    Option β :=
  l.reverse.findSome? w

/-- The flag that belongs to an attribute kind, `0` for a kind without a flag. -/
def flagOfKind (attr : Nat) : Nat :=
  if attr = DW_AT_artificial then eDWARFAttributeArtificial
  else if attr = DW_AT_explicit then eDWARFAttributeExplicit
  else if attr = DW_AT_declaration then eDWARFAttributeForwardDecl
  else if attr = DW_AT_inline then eDWARFAttributeInline
  else if attr = DW_AT_enum_class then eDWARFAttributeScopedEnum
  else if attr = DW_AT_GNU_vector then eDWARFAttributeVector
  else if attr = DW_AT_virtuality then eDWARFAttributeVirtual
  else if attr = DW_AT_external then eDWARFAttributeExternal
  else if attr = DW_AT_export_symbols then eDWARFAttributeExportSymbols
  else if attr = DW_AT_APPLE_objc_direct then eDWARFAttributeObjCDirect
  else if attr = DW_AT_APPLE_objc_complete_type then eDWARFAttributeObjCCompleteType
  else 0

/-- The flag an attribute sets, `0` when it sets none: the flag of its kind when the form
value can be extracted and is nonzero, and for `DW_AT_APPLE_objc_direct` whatever the
value. -/
def flagMask (a : DWARFAttribute) : Nat :=
  match a.form_value with
  | none => 0
  | some fv =>
    if a.attr = DW_AT_APPLE_objc_direct then eDWARFAttributeObjCDirect
    else if fv.Unsigned ≠ 0 then flagOfKind a.attr
    else 0

theorem boolean_iff (fv : DWARFFormValue) : fv.Boolean = true ↔ fv.Unsigned ≠ 0 := by
  simp [DWARFFormValue.Boolean, DWARFFormValue.Unsigned]

theorem signed_ne_zero_iff (fv : DWARFFormValue) : fv.Signed ≠ 0 ↔ fv.Unsigned ≠ 0 := by
  unfold DWARFFormValue.Signed DWARFFormValue.Unsigned
  have h : fv.uval % 2 ^ 64 < 2 ^ 64 := Nat.mod_lt _ (by positivity)
  split_ifs with hlt
  · exact_mod_cast Iff.rfl
  · constructor
    · intro _ h0
      rw [h0] at hlt
      exact hlt (by positivity)
    · intro _
      have : ((fv.uval % 2 ^ 64 : Nat) : Int) < 2 ^ 64 := by exact_mod_cast h
      omega

namespace ParsedDWARFTypeAttributes

/-- The effect of one attribute on the record, field by field. -/
def applyAttribute (r : ParsedDWARFTypeAttributes) (a : DWARFAttribute) :
    ParsedDWARFTypeAttributes where
  accessibility := (writeOf [DW_AT_accessibility]
    (fun _ fv => GetAccessTypeFromDWARF (fv.Unsigned % 2 ^ 32)) a).getD r.accessibility
  mangled_name := (writeOf [DW_AT_linkage_name, DW_AT_MIPS_linkage_name]
    (fun _ fv => fv.AsCString) a).getD r.mangled_name
  name := (writeOf [DW_AT_name] (fun _ fv => fv.AsCString.getD "") a).getD r.name
  decl :=
    { file := (writeOf [DW_AT_decl_file] (fun a fv => a.cu.GetFile fv.Unsigned) a).getD
        r.decl.file
      line := (writeOf [DW_AT_decl_line] (fun _ fv => fv.Unsigned % 2 ^ 32) a).getD r.decl.line
      column := (writeOf [DW_AT_decl_column] (fun _ fv => fv.Unsigned % 2 ^ 16) a).getD
        r.decl.column }
  object_pointer := (writeOf [DW_AT_object_pointer] (fun _ fv => fv.Reference) a).getD
    r.object_pointer
  abstract_origin := (writeOf [DW_AT_abstract_origin] (fun _ fv => fv) a).getD
    r.abstract_origin
  containing_type := (writeOf [DW_AT_containing_type] (fun _ fv => fv) a).getD
    r.containing_type
  signature := (writeOf [DW_AT_signature] (fun _ fv => fv) a).getD r.signature
  specification := (writeOf [DW_AT_specification] (fun _ fv => fv) a).getD r.specification
  type := (writeOf [DW_AT_type] (fun _ fv => fv) a).getD r.type
  class_language := (writeOf [DW_AT_APPLE_runtime_class]
    (fun _ fv => fv.Signed % 2 ^ 32) a).getD r.class_language
  byte_size := (writeOf [DW_AT_byte_size] (fun _ fv => some fv.Unsigned) a).getD r.byte_size
  calling_convention := (writeOf [DW_AT_calling_convention] (fun _ fv => fv.Unsigned) a).getD
    r.calling_convention
  bit_stride := (writeOf [DW_AT_bit_stride] (fun _ fv => fv.Unsigned % 2 ^ 32) a).getD
    r.bit_stride
  byte_stride := (writeOf [DW_AT_byte_stride] (fun _ fv => fv.Unsigned % 2 ^ 32) a).getD
    r.byte_stride
  encoding := (writeOf [DW_AT_encoding] (fun _ fv => fv.Unsigned % 2 ^ 32) a).getD r.encoding
  attr_flags :=
    if flagMask a = 0 then r.attr_flags else (r.attr_flags ||| flagMask a) % 2 ^ 32

theorem visitAttribute_eq (r : ParsedDWARFTypeAttributes) (a : DWARFAttribute) :
    visitAttribute r a = applyAttribute r a := by
  obtain ⟨attr, fvo, cu⟩ := a
  cases fvo with
  | none => simp [visitAttribute, applyAttribute, writeOf, flagMask]
  | some fv =>
    have hb := boolean_iff fv
    have hs := signed_ne_zero_iff fv
    by_cases h0 : attr = DW_AT_abstract_origin
    · subst h0
      by_cases hu : fv.Unsigned = 0 <;> simp [hb, hs, hu, visitAttribute, applyAttribute, writeOf, flagMask, flagOfKind, setFlag,
        setIsArtificial, setIsExplicit, setIsForwardDeclaration, setIsInline, setIsScopedEnum,
        setIsVector, setIsVirtual, setIsExternal, setIsExportsSymbols, setIsObjCDirectCall,
        setIsObjCCompleteType, Declaration.SetFile, Declaration.SetLine, Declaration.SetColumn,
        DW_AT_name, DW_AT_byte_size, DW_AT_containing_type, DW_AT_inline, DW_AT_bit_stride,
        DW_AT_abstract_origin, DW_AT_accessibility, DW_AT_artificial, DW_AT_calling_convention,
        DW_AT_decl_column, DW_AT_decl_file, DW_AT_decl_line, DW_AT_declaration, DW_AT_encoding,
        DW_AT_external, DW_AT_specification, DW_AT_type, DW_AT_virtuality, DW_AT_byte_stride,
        DW_AT_explicit, DW_AT_object_pointer, DW_AT_signature, DW_AT_enum_class,
        DW_AT_linkage_name, DW_AT_export_symbols, DW_AT_MIPS_linkage_name, DW_AT_GNU_vector,
        DW_AT_APPLE_runtime_class, DW_AT_APPLE_objc_complete_type, DW_AT_APPLE_objc_direct,
        eDWARFAttributeArtificial, eDWARFAttributeExplicit, eDWARFAttributeForwardDecl,
        eDWARFAttributeInline, eDWARFAttributeScopedEnum, eDWARFAttributeVector,
        eDWARFAttributeVirtual, eDWARFAttributeExternal, eDWARFAttributeExportSymbols,
        eDWARFAttributeObjCDirect, eDWARFAttributeObjCCompleteType]
    by_cases h1 : attr = DW_AT_accessibility
    · subst h1
      by_cases hu : fv.Unsigned = 0 <;> simp [hb, hs, hu, visitAttribute, applyAttribute, writeOf, flagMask, flagOfKind, setFlag,
        setIsArtificial, setIsExplicit, setIsForwardDeclaration, setIsInline, setIsScopedEnum,
        setIsVector, setIsVirtual, setIsExternal, setIsExportsSymbols, setIsObjCDirectCall,
        setIsObjCCompleteType, Declaration.SetFile, Declaration.SetLine, Declaration.SetColumn,
        DW_AT_name, DW_AT_byte_size, DW_AT_containing_type, DW_AT_inline, DW_AT_bit_stride,
        DW_AT_abstract_origin, DW_AT_accessibility, DW_AT_artificial, DW_AT_calling_convention,
        DW_AT_decl_column, DW_AT_decl_file, DW_AT_decl_line, DW_AT_declaration, DW_AT_encoding,
        DW_AT_external, DW_AT_specification, DW_AT_type, DW_AT_virtuality, DW_AT_byte_stride,
        DW_AT_explicit, DW_AT_object_pointer, DW_AT_signature, DW_AT_enum_class,
        DW_AT_linkage_name, DW_AT_export_symbols, DW_AT_MIPS_linkage_name, DW_AT_GNU_vector,
        DW_AT_APPLE_runtime_class, DW_AT_APPLE_objc_complete_type, DW_AT_APPLE_objc_direct,
        eDWARFAttributeArtificial, eDWARFAttributeExplicit, eDWARFAttributeForwardDecl,
        eDWARFAttributeInline, eDWARFAttributeScopedEnum, eDWARFAttributeVector,
        eDWARFAttributeVirtual, eDWARFAttributeExternal, eDWARFAttributeExportSymbols,
        eDWARFAttributeObjCDirect, eDWARFAttributeObjCCompleteType]
    by_cases h2 : attr = DW_AT_artificial
    · subst h2
      by_cases hu : fv.Unsigned = 0 <;> simp [hb, hs, hu, visitAttribute, applyAttribute, writeOf, flagMask, flagOfKind, setFlag,
        setIsArtificial, setIsExplicit, setIsForwardDeclaration, setIsInline, setIsScopedEnum,
        setIsVector, setIsVirtual, setIsExternal, setIsExportsSymbols, setIsObjCDirectCall,
        setIsObjCCompleteType, Declaration.SetFile, Declaration.SetLine, Declaration.SetColumn,
        DW_AT_name, DW_AT_byte_size, DW_AT_containing_type, DW_AT_inline, DW_AT_bit_stride,
        DW_AT_abstract_origin, DW_AT_accessibility, DW_AT_artificial, DW_AT_calling_convention,
        DW_AT_decl_column, DW_AT_decl_file, DW_AT_decl_line, DW_AT_declaration, DW_AT_encoding,
        DW_AT_external, DW_AT_specification, DW_AT_type, DW_AT_virtuality, DW_AT_byte_stride,
        DW_AT_explicit, DW_AT_object_pointer, DW_AT_signature, DW_AT_enum_class,
        DW_AT_linkage_name, DW_AT_export_symbols, DW_AT_MIPS_linkage_name, DW_AT_GNU_vector,
        DW_AT_APPLE_runtime_class, DW_AT_APPLE_objc_complete_type, DW_AT_APPLE_objc_direct,
        eDWARFAttributeArtificial, eDWARFAttributeExplicit, eDWARFAttributeForwardDecl,
        eDWARFAttributeInline, eDWARFAttributeScopedEnum, eDWARFAttributeVector,
        eDWARFAttributeVirtual, eDWARFAttributeExternal, eDWARFAttributeExportSymbols,
        eDWARFAttributeObjCDirect, eDWARFAttributeObjCCompleteType]
    by_cases h3 : attr = DW_AT_bit_stride
    · subst h3
      by_cases hu : fv.Unsigned = 0 <;> simp [hb, hs, hu, visitAttribute, applyAttribute, writeOf, flagMask, flagOfKind, setFlag,
        setIsArtificial, setIsExplicit, setIsForwardDeclaration, setIsInline, setIsScopedEnum,
        setIsVector, setIsVirtual, setIsExternal, setIsExportsSymbols, setIsObjCDirectCall,
        setIsObjCCompleteType, Declaration.SetFile, Declaration.SetLine, Declaration.SetColumn,
        DW_AT_name, DW_AT_byte_size, DW_AT_containing_type, DW_AT_inline, DW_AT_bit_stride,
        DW_AT_abstract_origin, DW_AT_accessibility, DW_AT_artificial, DW_AT_calling_convention,
        DW_AT_decl_column, DW_AT_decl_file, DW_AT_decl_line, DW_AT_declaration, DW_AT_encoding,
        DW_AT_external, DW_AT_specification, DW_AT_type, DW_AT_virtuality, DW_AT_byte_stride,
        DW_AT_explicit, DW_AT_object_pointer, DW_AT_signature, DW_AT_enum_class,
        DW_AT_linkage_name, DW_AT_export_symbols, DW_AT_MIPS_linkage_name, DW_AT_GNU_vector,
        DW_AT_APPLE_runtime_class, DW_AT_APPLE_objc_complete_type, DW_AT_APPLE_objc_direct,
        eDWARFAttributeArtificial, eDWARFAttributeExplicit, eDWARFAttributeForwardDecl,
        eDWARFAttributeInline, eDWARFAttributeScopedEnum, eDWARFAttributeVector,
        eDWARFAttributeVirtual, eDWARFAttributeExternal, eDWARFAttributeExportSymbols,
        eDWARFAttributeObjCDirect, eDWARFAttributeObjCCompleteType]
    by_cases h4 : attr = DW_AT_byte_size
    · subst h4
      by_cases hu : fv.Unsigned = 0 <;> simp [hb, hs, hu, visitAttribute, applyAttribute, writeOf, flagMask, flagOfKind, setFlag,
        setIsArtificial, setIsExplicit, setIsForwardDeclaration, setIsInline, setIsScopedEnum,
        setIsVector, setIsVirtual, setIsExternal, setIsExportsSymbols, setIsObjCDirectCall,
        setIsObjCCompleteType, Declaration.SetFile, Declaration.SetLine, Declaration.SetColumn,
        DW_AT_name, DW_AT_byte_size, DW_AT_containing_type, DW_AT_inline, DW_AT_bit_stride,
        DW_AT_abstract_origin, DW_AT_accessibility, DW_AT_artificial, DW_AT_calling_convention,
        DW_AT_decl_column, DW_AT_decl_file, DW_AT_decl_line, DW_AT_declaration, DW_AT_encoding,
        DW_AT_external, DW_AT_specification, DW_AT_type, DW_AT_virtuality, DW_AT_byte_stride,
        DW_AT_explicit, DW_AT_object_pointer, DW_AT_signature, DW_AT_enum_class,
        DW_AT_linkage_name, DW_AT_export_symbols, DW_AT_MIPS_linkage_name, DW_AT_GNU_vector,
        DW_AT_APPLE_runtime_class, DW_AT_APPLE_objc_complete_type, DW_AT_APPLE_objc_direct,
        eDWARFAttributeArtificial, eDWARFAttributeExplicit, eDWARFAttributeForwardDecl,
        eDWARFAttributeInline, eDWARFAttributeScopedEnum, eDWARFAttributeVector,
        eDWARFAttributeVirtual, eDWARFAttributeExternal, eDWARFAttributeExportSymbols,
        eDWARFAttributeObjCDirect, eDWARFAttributeObjCCompleteType]
    by_cases h5 : attr = DW_AT_byte_stride
    · subst h5
      by_cases hu : fv.Unsigned = 0 <;> simp [hb, hs, hu, visitAttribute, applyAttribute, writeOf, flagMask, flagOfKind, setFlag,
        setIsArtificial, setIsExplicit, setIsForwardDeclaration, setIsInline, setIsScopedEnum,
        setIsVector, setIsVirtual, setIsExternal, setIsExportsSymbols, setIsObjCDirectCall,
        setIsObjCCompleteType, Declaration.SetFile, Declaration.SetLine, Declaration.SetColumn,
        DW_AT_name, DW_AT_byte_size, DW_AT_containing_type, DW_AT_inline, DW_AT_bit_stride,
        DW_AT_abstract_origin, DW_AT_accessibility, DW_AT_artificial, DW_AT_calling_convention,
        DW_AT_decl_column, DW_AT_decl_file, DW_AT_decl_line, DW_AT_declaration, DW_AT_encoding,
        DW_AT_external, DW_AT_specification, DW_AT_type, DW_AT_virtuality, DW_AT_byte_stride,
        DW_AT_explicit, DW_AT_object_pointer, DW_AT_signature, DW_AT_enum_class,
        DW_AT_linkage_name, DW_AT_export_symbols, DW_AT_MIPS_linkage_name, DW_AT_GNU_vector,
        DW_AT_APPLE_runtime_class, DW_AT_APPLE_objc_complete_type, DW_AT_APPLE_objc_direct,
        eDWARFAttributeArtificial, eDWARFAttributeExplicit, eDWARFAttributeForwardDecl,
        eDWARFAttributeInline, eDWARFAttributeScopedEnum, eDWARFAttributeVector,
        eDWARFAttributeVirtual, eDWARFAttributeExternal, eDWARFAttributeExportSymbols,
        eDWARFAttributeObjCDirect, eDWARFAttributeObjCCompleteType]
    by_cases h6 : attr = DW_AT_calling_convention
    · subst h6
      by_cases hu : fv.Unsigned = 0 <;> simp [hb, hs, hu, visitAttribute, applyAttribute, writeOf, flagMask, flagOfKind, setFlag,
        setIsArtificial, setIsExplicit, setIsForwardDeclaration, setIsInline, setIsScopedEnum,
        setIsVector, setIsVirtual, setIsExternal, setIsExportsSymbols, setIsObjCDirectCall,
        setIsObjCCompleteType, Declaration.SetFile, Declaration.SetLine, Declaration.SetColumn,
        DW_AT_name, DW_AT_byte_size, DW_AT_containing_type, DW_AT_inline, DW_AT_bit_stride,
        DW_AT_abstract_origin, DW_AT_accessibility, DW_AT_artificial, DW_AT_calling_convention,
        DW_AT_decl_column, DW_AT_decl_file, DW_AT_decl_line, DW_AT_declaration, DW_AT_encoding,
        DW_AT_external, DW_AT_specification, DW_AT_type, DW_AT_virtuality, DW_AT_byte_stride,
        DW_AT_explicit, DW_AT_object_pointer, DW_AT_signature, DW_AT_enum_class,
        DW_AT_linkage_name, DW_AT_export_symbols, DW_AT_MIPS_linkage_name, DW_AT_GNU_vector,
        DW_AT_APPLE_runtime_class, DW_AT_APPLE_objc_complete_type, DW_AT_APPLE_objc_direct,
        eDWARFAttributeArtificial, eDWARFAttributeExplicit, eDWARFAttributeForwardDecl,
        eDWARFAttributeInline, eDWARFAttributeScopedEnum, eDWARFAttributeVector,
        eDWARFAttributeVirtual, eDWARFAttributeExternal, eDWARFAttributeExportSymbols,
        eDWARFAttributeObjCDirect, eDWARFAttributeObjCCompleteType]
    by_cases h7 : attr = DW_AT_containing_type
    · subst h7
      by_cases hu : fv.Unsigned = 0 <;> simp [hb, hs, hu, visitAttribute, applyAttribute, writeOf, flagMask, flagOfKind, setFlag,
        setIsArtificial, setIsExplicit, setIsForwardDeclaration, setIsInline, setIsScopedEnum,
        setIsVector, setIsVirtual, setIsExternal, setIsExportsSymbols, setIsObjCDirectCall,
        setIsObjCCompleteType, Declaration.SetFile, Declaration.SetLine, Declaration.SetColumn,
        DW_AT_name, DW_AT_byte_size, DW_AT_containing_type, DW_AT_inline, DW_AT_bit_stride,
        DW_AT_abstract_origin, DW_AT_accessibility, DW_AT_artificial, DW_AT_calling_convention,
        DW_AT_decl_column, DW_AT_decl_file, DW_AT_decl_line, DW_AT_declaration, DW_AT_encoding,
        DW_AT_external, DW_AT_specification, DW_AT_type, DW_AT_virtuality, DW_AT_byte_stride,
        DW_AT_explicit, DW_AT_object_pointer, DW_AT_signature, DW_AT_enum_class,
        DW_AT_linkage_name, DW_AT_export_symbols, DW_AT_MIPS_linkage_name, DW_AT_GNU_vector,
        DW_AT_APPLE_runtime_class, DW_AT_APPLE_objc_complete_type, DW_AT_APPLE_objc_direct,
        eDWARFAttributeArtificial, eDWARFAttributeExplicit, eDWARFAttributeForwardDecl,
        eDWARFAttributeInline, eDWARFAttributeScopedEnum, eDWARFAttributeVector,
        eDWARFAttributeVirtual, eDWARFAttributeExternal, eDWARFAttributeExportSymbols,
        eDWARFAttributeObjCDirect, eDWARFAttributeObjCCompleteType]
    by_cases h8 : attr = DW_AT_decl_file
    · subst h8
      by_cases hu : fv.Unsigned = 0 <;> simp [hb, hs, hu, visitAttribute, applyAttribute, writeOf, flagMask, flagOfKind, setFlag,
        setIsArtificial, setIsExplicit, setIsForwardDeclaration, setIsInline, setIsScopedEnum,
        setIsVector, setIsVirtual, setIsExternal, setIsExportsSymbols, setIsObjCDirectCall,
        setIsObjCCompleteType, Declaration.SetFile, Declaration.SetLine, Declaration.SetColumn,
        DW_AT_name, DW_AT_byte_size, DW_AT_containing_type, DW_AT_inline, DW_AT_bit_stride,
        DW_AT_abstract_origin, DW_AT_accessibility, DW_AT_artificial, DW_AT_calling_convention,
        DW_AT_decl_column, DW_AT_decl_file, DW_AT_decl_line, DW_AT_declaration, DW_AT_encoding,
        DW_AT_external, DW_AT_specification, DW_AT_type, DW_AT_virtuality, DW_AT_byte_stride,
        DW_AT_explicit, DW_AT_object_pointer, DW_AT_signature, DW_AT_enum_class,
        DW_AT_linkage_name, DW_AT_export_symbols, DW_AT_MIPS_linkage_name, DW_AT_GNU_vector,
        DW_AT_APPLE_runtime_class, DW_AT_APPLE_objc_complete_type, DW_AT_APPLE_objc_direct,
        eDWARFAttributeArtificial, eDWARFAttributeExplicit, eDWARFAttributeForwardDecl,
        eDWARFAttributeInline, eDWARFAttributeScopedEnum, eDWARFAttributeVector,
        eDWARFAttributeVirtual, eDWARFAttributeExternal, eDWARFAttributeExportSymbols,
        eDWARFAttributeObjCDirect, eDWARFAttributeObjCCompleteType]
    by_cases h9 : attr = DW_AT_decl_line
    · subst h9
      by_cases hu : fv.Unsigned = 0 <;> simp [hb, hs, hu, visitAttribute, applyAttribute, writeOf, flagMask, flagOfKind, setFlag,
        setIsArtificial, setIsExplicit, setIsForwardDeclaration, setIsInline, setIsScopedEnum,
        setIsVector, setIsVirtual, setIsExternal, setIsExportsSymbols, setIsObjCDirectCall,
        setIsObjCCompleteType, Declaration.SetFile, Declaration.SetLine, Declaration.SetColumn,
        DW_AT_name, DW_AT_byte_size, DW_AT_containing_type, DW_AT_inline, DW_AT_bit_stride,
        DW_AT_abstract_origin, DW_AT_accessibility, DW_AT_artificial, DW_AT_calling_convention,
        DW_AT_decl_column, DW_AT_decl_file, DW_AT_decl_line, DW_AT_declaration, DW_AT_encoding,
        DW_AT_external, DW_AT_specification, DW_AT_type, DW_AT_virtuality, DW_AT_byte_stride,
        DW_AT_explicit, DW_AT_object_pointer, DW_AT_signature, DW_AT_enum_class,
        DW_AT_linkage_name, DW_AT_export_symbols, DW_AT_MIPS_linkage_name, DW_AT_GNU_vector,
        DW_AT_APPLE_runtime_class, DW_AT_APPLE_objc_complete_type, DW_AT_APPLE_objc_direct,
        eDWARFAttributeArtificial, eDWARFAttributeExplicit, eDWARFAttributeForwardDecl,
        eDWARFAttributeInline, eDWARFAttributeScopedEnum, eDWARFAttributeVector,
        eDWARFAttributeVirtual, eDWARFAttributeExternal, eDWARFAttributeExportSymbols,
        eDWARFAttributeObjCDirect, eDWARFAttributeObjCCompleteType]
    by_cases h10 : attr = DW_AT_decl_column
    · subst h10
      by_cases hu : fv.Unsigned = 0 <;> simp [hb, hs, hu, visitAttribute, applyAttribute, writeOf, flagMask, flagOfKind, setFlag,
        setIsArtificial, setIsExplicit, setIsForwardDeclaration, setIsInline, setIsScopedEnum,
        setIsVector, setIsVirtual, setIsExternal, setIsExportsSymbols, setIsObjCDirectCall,
        setIsObjCCompleteType, Declaration.SetFile, Declaration.SetLine, Declaration.SetColumn,
        DW_AT_name, DW_AT_byte_size, DW_AT_containing_type, DW_AT_inline, DW_AT_bit_stride,
        DW_AT_abstract_origin, DW_AT_accessibility, DW_AT_artificial, DW_AT_calling_convention,
        DW_AT_decl_column, DW_AT_decl_file, DW_AT_decl_line, DW_AT_declaration, DW_AT_encoding,
        DW_AT_external, DW_AT_specification, DW_AT_type, DW_AT_virtuality, DW_AT_byte_stride,
        DW_AT_explicit, DW_AT_object_pointer, DW_AT_signature, DW_AT_enum_class,
        DW_AT_linkage_name, DW_AT_export_symbols, DW_AT_MIPS_linkage_name, DW_AT_GNU_vector,
        DW_AT_APPLE_runtime_class, DW_AT_APPLE_objc_complete_type, DW_AT_APPLE_objc_direct,
        eDWARFAttributeArtificial, eDWARFAttributeExplicit, eDWARFAttributeForwardDecl,
        eDWARFAttributeInline, eDWARFAttributeScopedEnum, eDWARFAttributeVector,
        eDWARFAttributeVirtual, eDWARFAttributeExternal, eDWARFAttributeExportSymbols,
        eDWARFAttributeObjCDirect, eDWARFAttributeObjCCompleteType]
    by_cases h11 : attr = DW_AT_declaration
    · subst h11
      by_cases hu : fv.Unsigned = 0 <;> simp [hb, hs, hu, visitAttribute, applyAttribute, writeOf, flagMask, flagOfKind, setFlag,
        setIsArtificial, setIsExplicit, setIsForwardDeclaration, setIsInline, setIsScopedEnum,
        setIsVector, setIsVirtual, setIsExternal, setIsExportsSymbols, setIsObjCDirectCall,
        setIsObjCCompleteType, Declaration.SetFile, Declaration.SetLine, Declaration.SetColumn,
        DW_AT_name, DW_AT_byte_size, DW_AT_containing_type, DW_AT_inline, DW_AT_bit_stride,
        DW_AT_abstract_origin, DW_AT_accessibility, DW_AT_artificial, DW_AT_calling_convention,
        DW_AT_decl_column, DW_AT_decl_file, DW_AT_decl_line, DW_AT_declaration, DW_AT_encoding,
        DW_AT_external, DW_AT_specification, DW_AT_type, DW_AT_virtuality, DW_AT_byte_stride,
        DW_AT_explicit, DW_AT_object_pointer, DW_AT_signature, DW_AT_enum_class,
        DW_AT_linkage_name, DW_AT_export_symbols, DW_AT_MIPS_linkage_name, DW_AT_GNU_vector,
        DW_AT_APPLE_runtime_class, DW_AT_APPLE_objc_complete_type, DW_AT_APPLE_objc_direct,
        eDWARFAttributeArtificial, eDWARFAttributeExplicit, eDWARFAttributeForwardDecl,
        eDWARFAttributeInline, eDWARFAttributeScopedEnum, eDWARFAttributeVector,
        eDWARFAttributeVirtual, eDWARFAttributeExternal, eDWARFAttributeExportSymbols,
        eDWARFAttributeObjCDirect, eDWARFAttributeObjCCompleteType]
    by_cases h12 : attr = DW_AT_encoding
    · subst h12
      by_cases hu : fv.Unsigned = 0 <;> simp [hb, hs, hu, visitAttribute, applyAttribute, writeOf, flagMask, flagOfKind, setFlag,
        setIsArtificial, setIsExplicit, setIsForwardDeclaration, setIsInline, setIsScopedEnum,
        setIsVector, setIsVirtual, setIsExternal, setIsExportsSymbols, setIsObjCDirectCall,
        setIsObjCCompleteType, Declaration.SetFile, Declaration.SetLine, Declaration.SetColumn,
        DW_AT_name, DW_AT_byte_size, DW_AT_containing_type, DW_AT_inline, DW_AT_bit_stride,
        DW_AT_abstract_origin, DW_AT_accessibility, DW_AT_artificial, DW_AT_calling_convention,
        DW_AT_decl_column, DW_AT_decl_file, DW_AT_decl_line, DW_AT_declaration, DW_AT_encoding,
        DW_AT_external, DW_AT_specification, DW_AT_type, DW_AT_virtuality, DW_AT_byte_stride,
        DW_AT_explicit, DW_AT_object_pointer, DW_AT_signature, DW_AT_enum_class,
        DW_AT_linkage_name, DW_AT_export_symbols, DW_AT_MIPS_linkage_name, DW_AT_GNU_vector,
        DW_AT_APPLE_runtime_class, DW_AT_APPLE_objc_complete_type, DW_AT_APPLE_objc_direct,
        eDWARFAttributeArtificial, eDWARFAttributeExplicit, eDWARFAttributeForwardDecl,
        eDWARFAttributeInline, eDWARFAttributeScopedEnum, eDWARFAttributeVector,
        eDWARFAttributeVirtual, eDWARFAttributeExternal, eDWARFAttributeExportSymbols,
        eDWARFAttributeObjCDirect, eDWARFAttributeObjCCompleteType]
    by_cases h13 : attr = DW_AT_enum_class
    · subst h13
      by_cases hu : fv.Unsigned = 0 <;> simp [hb, hs, hu, visitAttribute, applyAttribute, writeOf, flagMask, flagOfKind, setFlag,
        setIsArtificial, setIsExplicit, setIsForwardDeclaration, setIsInline, setIsScopedEnum,
        setIsVector, setIsVirtual, setIsExternal, setIsExportsSymbols, setIsObjCDirectCall,
        setIsObjCCompleteType, Declaration.SetFile, Declaration.SetLine, Declaration.SetColumn,
        DW_AT_name, DW_AT_byte_size, DW_AT_containing_type, DW_AT_inline, DW_AT_bit_stride,
        DW_AT_abstract_origin, DW_AT_accessibility, DW_AT_artificial, DW_AT_calling_convention,
        DW_AT_decl_column, DW_AT_decl_file, DW_AT_decl_line, DW_AT_declaration, DW_AT_encoding,
        DW_AT_external, DW_AT_specification, DW_AT_type, DW_AT_virtuality, DW_AT_byte_stride,
        DW_AT_explicit, DW_AT_object_pointer, DW_AT_signature, DW_AT_enum_class,
        DW_AT_linkage_name, DW_AT_export_symbols, DW_AT_MIPS_linkage_name, DW_AT_GNU_vector,
        DW_AT_APPLE_runtime_class, DW_AT_APPLE_objc_complete_type, DW_AT_APPLE_objc_direct,
        eDWARFAttributeArtificial, eDWARFAttributeExplicit, eDWARFAttributeForwardDecl,
        eDWARFAttributeInline, eDWARFAttributeScopedEnum, eDWARFAttributeVector,
        eDWARFAttributeVirtual, eDWARFAttributeExternal, eDWARFAttributeExportSymbols,
        eDWARFAttributeObjCDirect, eDWARFAttributeObjCCompleteType]
    by_cases h14 : attr = DW_AT_explicit
    · subst h14
      by_cases hu : fv.Unsigned = 0 <;> simp [hb, hs, hu, visitAttribute, applyAttribute, writeOf, flagMask, flagOfKind, setFlag,
        setIsArtificial, setIsExplicit, setIsForwardDeclaration, setIsInline, setIsScopedEnum,
        setIsVector, setIsVirtual, setIsExternal, setIsExportsSymbols, setIsObjCDirectCall,
        setIsObjCCompleteType, Declaration.SetFile, Declaration.SetLine, Declaration.SetColumn,
        DW_AT_name, DW_AT_byte_size, DW_AT_containing_type, DW_AT_inline, DW_AT_bit_stride,
        DW_AT_abstract_origin, DW_AT_accessibility, DW_AT_artificial, DW_AT_calling_convention,
        DW_AT_decl_column, DW_AT_decl_file, DW_AT_decl_line, DW_AT_declaration, DW_AT_encoding,
        DW_AT_external, DW_AT_specification, DW_AT_type, DW_AT_virtuality, DW_AT_byte_stride,
        DW_AT_explicit, DW_AT_object_pointer, DW_AT_signature, DW_AT_enum_class,
        DW_AT_linkage_name, DW_AT_export_symbols, DW_AT_MIPS_linkage_name, DW_AT_GNU_vector,
        DW_AT_APPLE_runtime_class, DW_AT_APPLE_objc_complete_type, DW_AT_APPLE_objc_direct,
        eDWARFAttributeArtificial, eDWARFAttributeExplicit, eDWARFAttributeForwardDecl,
        eDWARFAttributeInline, eDWARFAttributeScopedEnum, eDWARFAttributeVector,
        eDWARFAttributeVirtual, eDWARFAttributeExternal, eDWARFAttributeExportSymbols,
        eDWARFAttributeObjCDirect, eDWARFAttributeObjCCompleteType]
    by_cases h15 : attr = DW_AT_external
    · subst h15
      by_cases hu : fv.Unsigned = 0 <;> simp [hb, hs, hu, visitAttribute, applyAttribute, writeOf, flagMask, flagOfKind, setFlag,
        setIsArtificial, setIsExplicit, setIsForwardDeclaration, setIsInline, setIsScopedEnum,
        setIsVector, setIsVirtual, setIsExternal, setIsExportsSymbols, setIsObjCDirectCall,
        setIsObjCCompleteType, Declaration.SetFile, Declaration.SetLine, Declaration.SetColumn,
        DW_AT_name, DW_AT_byte_size, DW_AT_containing_type, DW_AT_inline, DW_AT_bit_stride,
        DW_AT_abstract_origin, DW_AT_accessibility, DW_AT_artificial, DW_AT_calling_convention,
        DW_AT_decl_column, DW_AT_decl_file, DW_AT_decl_line, DW_AT_declaration, DW_AT_encoding,
        DW_AT_external, DW_AT_specification, DW_AT_type, DW_AT_virtuality, DW_AT_byte_stride,
        DW_AT_explicit, DW_AT_object_pointer, DW_AT_signature, DW_AT_enum_class,
        DW_AT_linkage_name, DW_AT_export_symbols, DW_AT_MIPS_linkage_name, DW_AT_GNU_vector,
        DW_AT_APPLE_runtime_class, DW_AT_APPLE_objc_complete_type, DW_AT_APPLE_objc_direct,
        eDWARFAttributeArtificial, eDWARFAttributeExplicit, eDWARFAttributeForwardDecl,
        eDWARFAttributeInline, eDWARFAttributeScopedEnum, eDWARFAttributeVector,
        eDWARFAttributeVirtual, eDWARFAttributeExternal, eDWARFAttributeExportSymbols,
        eDWARFAttributeObjCDirect, eDWARFAttributeObjCCompleteType]
    by_cases h16 : attr = DW_AT_inline
    · subst h16
      by_cases hu : fv.Unsigned = 0 <;> simp [hb, hs, hu, visitAttribute, applyAttribute, writeOf, flagMask, flagOfKind, setFlag,
        setIsArtificial, setIsExplicit, setIsForwardDeclaration, setIsInline, setIsScopedEnum,
        setIsVector, setIsVirtual, setIsExternal, setIsExportsSymbols, setIsObjCDirectCall,
        setIsObjCCompleteType, Declaration.SetFile, Declaration.SetLine, Declaration.SetColumn,
        DW_AT_name, DW_AT_byte_size, DW_AT_containing_type, DW_AT_inline, DW_AT_bit_stride,
        DW_AT_abstract_origin, DW_AT_accessibility, DW_AT_artificial, DW_AT_calling_convention,
        DW_AT_decl_column, DW_AT_decl_file, DW_AT_decl_line, DW_AT_declaration, DW_AT_encoding,
        DW_AT_external, DW_AT_specification, DW_AT_type, DW_AT_virtuality, DW_AT_byte_stride,
        DW_AT_explicit, DW_AT_object_pointer, DW_AT_signature, DW_AT_enum_class,
        DW_AT_linkage_name, DW_AT_export_symbols, DW_AT_MIPS_linkage_name, DW_AT_GNU_vector,
        DW_AT_APPLE_runtime_class, DW_AT_APPLE_objc_complete_type, DW_AT_APPLE_objc_direct,
        eDWARFAttributeArtificial, eDWARFAttributeExplicit, eDWARFAttributeForwardDecl,
        eDWARFAttributeInline, eDWARFAttributeScopedEnum, eDWARFAttributeVector,
        eDWARFAttributeVirtual, eDWARFAttributeExternal, eDWARFAttributeExportSymbols,
        eDWARFAttributeObjCDirect, eDWARFAttributeObjCCompleteType]
    by_cases h17 : attr = DW_AT_linkage_name
    · subst h17
      by_cases hu : fv.Unsigned = 0 <;> simp [hb, hs, hu, visitAttribute, applyAttribute, writeOf, flagMask, flagOfKind, setFlag,
        setIsArtificial, setIsExplicit, setIsForwardDeclaration, setIsInline, setIsScopedEnum,
        setIsVector, setIsVirtual, setIsExternal, setIsExportsSymbols, setIsObjCDirectCall,
        setIsObjCCompleteType, Declaration.SetFile, Declaration.SetLine, Declaration.SetColumn,
        DW_AT_name, DW_AT_byte_size, DW_AT_containing_type, DW_AT_inline, DW_AT_bit_stride,
        DW_AT_abstract_origin, DW_AT_accessibility, DW_AT_artificial, DW_AT_calling_convention,
        DW_AT_decl_column, DW_AT_decl_file, DW_AT_decl_line, DW_AT_declaration, DW_AT_encoding,
        DW_AT_external, DW_AT_specification, DW_AT_type, DW_AT_virtuality, DW_AT_byte_stride,
        DW_AT_explicit, DW_AT_object_pointer, DW_AT_signature, DW_AT_enum_class,
        DW_AT_linkage_name, DW_AT_export_symbols, DW_AT_MIPS_linkage_name, DW_AT_GNU_vector,
        DW_AT_APPLE_runtime_class, DW_AT_APPLE_objc_complete_type, DW_AT_APPLE_objc_direct,
        eDWARFAttributeArtificial, eDWARFAttributeExplicit, eDWARFAttributeForwardDecl,
        eDWARFAttributeInline, eDWARFAttributeScopedEnum, eDWARFAttributeVector,
        eDWARFAttributeVirtual, eDWARFAttributeExternal, eDWARFAttributeExportSymbols,
        eDWARFAttributeObjCDirect, eDWARFAttributeObjCCompleteType]
    by_cases h18 : attr = DW_AT_MIPS_linkage_name
    · subst h18
      by_cases hu : fv.Unsigned = 0 <;> simp [hb, hs, hu, visitAttribute, applyAttribute, writeOf, flagMask, flagOfKind, setFlag,
        setIsArtificial, setIsExplicit, setIsForwardDeclaration, setIsInline, setIsScopedEnum,
        setIsVector, setIsVirtual, setIsExternal, setIsExportsSymbols, setIsObjCDirectCall,
        setIsObjCCompleteType, Declaration.SetFile, Declaration.SetLine, Declaration.SetColumn,
        DW_AT_name, DW_AT_byte_size, DW_AT_containing_type, DW_AT_inline, DW_AT_bit_stride,
        DW_AT_abstract_origin, DW_AT_accessibility, DW_AT_artificial, DW_AT_calling_convention,
        DW_AT_decl_column, DW_AT_decl_file, DW_AT_decl_line, DW_AT_declaration, DW_AT_encoding,
        DW_AT_external, DW_AT_specification, DW_AT_type, DW_AT_virtuality, DW_AT_byte_stride,
        DW_AT_explicit, DW_AT_object_pointer, DW_AT_signature, DW_AT_enum_class,
        DW_AT_linkage_name, DW_AT_export_symbols, DW_AT_MIPS_linkage_name, DW_AT_GNU_vector,
        DW_AT_APPLE_runtime_class, DW_AT_APPLE_objc_complete_type, DW_AT_APPLE_objc_direct,
        eDWARFAttributeArtificial, eDWARFAttributeExplicit, eDWARFAttributeForwardDecl,
        eDWARFAttributeInline, eDWARFAttributeScopedEnum, eDWARFAttributeVector,
        eDWARFAttributeVirtual, eDWARFAttributeExternal, eDWARFAttributeExportSymbols,
        eDWARFAttributeObjCDirect, eDWARFAttributeObjCCompleteType]
    by_cases h19 : attr = DW_AT_name
    · subst h19
      by_cases hu : fv.Unsigned = 0 <;> simp [hb, hs, hu, visitAttribute, applyAttribute, writeOf, flagMask, flagOfKind, setFlag,
        setIsArtificial, setIsExplicit, setIsForwardDeclaration, setIsInline, setIsScopedEnum,
        setIsVector, setIsVirtual, setIsExternal, setIsExportsSymbols, setIsObjCDirectCall,
        setIsObjCCompleteType, Declaration.SetFile, Declaration.SetLine, Declaration.SetColumn,
        DW_AT_name, DW_AT_byte_size, DW_AT_containing_type, DW_AT_inline, DW_AT_bit_stride,
        DW_AT_abstract_origin, DW_AT_accessibility, DW_AT_artificial, DW_AT_calling_convention,
        DW_AT_decl_column, DW_AT_decl_file, DW_AT_decl_line, DW_AT_declaration, DW_AT_encoding,
        DW_AT_external, DW_AT_specification, DW_AT_type, DW_AT_virtuality, DW_AT_byte_stride,
        DW_AT_explicit, DW_AT_object_pointer, DW_AT_signature, DW_AT_enum_class,
        DW_AT_linkage_name, DW_AT_export_symbols, DW_AT_MIPS_linkage_name, DW_AT_GNU_vector,
        DW_AT_APPLE_runtime_class, DW_AT_APPLE_objc_complete_type, DW_AT_APPLE_objc_direct,
        eDWARFAttributeArtificial, eDWARFAttributeExplicit, eDWARFAttributeForwardDecl,
        eDWARFAttributeInline, eDWARFAttributeScopedEnum, eDWARFAttributeVector,
        eDWARFAttributeVirtual, eDWARFAttributeExternal, eDWARFAttributeExportSymbols,
        eDWARFAttributeObjCDirect, eDWARFAttributeObjCCompleteType]
    by_cases h20 : attr = DW_AT_object_pointer
    · subst h20
      by_cases hu : fv.Unsigned = 0 <;> simp [hb, hs, hu, visitAttribute, applyAttribute, writeOf, flagMask, flagOfKind, setFlag,
        setIsArtificial, setIsExplicit, setIsForwardDeclaration, setIsInline, setIsScopedEnum,
        setIsVector, setIsVirtual, setIsExternal, setIsExportsSymbols, setIsObjCDirectCall,
        setIsObjCCompleteType, Declaration.SetFile, Declaration.SetLine, Declaration.SetColumn,
        DW_AT_name, DW_AT_byte_size, DW_AT_containing_type, DW_AT_inline, DW_AT_bit_stride,
        DW_AT_abstract_origin, DW_AT_accessibility, DW_AT_artificial, DW_AT_calling_convention,
        DW_AT_decl_column, DW_AT_decl_file, DW_AT_decl_line, DW_AT_declaration, DW_AT_encoding,
        DW_AT_external, DW_AT_specification, DW_AT_type, DW_AT_virtuality, DW_AT_byte_stride,
        DW_AT_explicit, DW_AT_object_pointer, DW_AT_signature, DW_AT_enum_class,
        DW_AT_linkage_name, DW_AT_export_symbols, DW_AT_MIPS_linkage_name, DW_AT_GNU_vector,
        DW_AT_APPLE_runtime_class, DW_AT_APPLE_objc_complete_type, DW_AT_APPLE_objc_direct,
        eDWARFAttributeArtificial, eDWARFAttributeExplicit, eDWARFAttributeForwardDecl,
        eDWARFAttributeInline, eDWARFAttributeScopedEnum, eDWARFAttributeVector,
        eDWARFAttributeVirtual, eDWARFAttributeExternal, eDWARFAttributeExportSymbols,
        eDWARFAttributeObjCDirect, eDWARFAttributeObjCCompleteType]
    by_cases h21 : attr = DW_AT_signature
    · subst h21
      by_cases hu : fv.Unsigned = 0 <;> simp [hb, hs, hu, visitAttribute, applyAttribute, writeOf, flagMask, flagOfKind, setFlag,
        setIsArtificial, setIsExplicit, setIsForwardDeclaration, setIsInline, setIsScopedEnum,
        setIsVector, setIsVirtual, setIsExternal, setIsExportsSymbols, setIsObjCDirectCall,
        setIsObjCCompleteType, Declaration.SetFile, Declaration.SetLine, Declaration.SetColumn,
        DW_AT_name, DW_AT_byte_size, DW_AT_containing_type, DW_AT_inline, DW_AT_bit_stride,
        DW_AT_abstract_origin, DW_AT_accessibility, DW_AT_artificial, DW_AT_calling_convention,
        DW_AT_decl_column, DW_AT_decl_file, DW_AT_decl_line, DW_AT_declaration, DW_AT_encoding,
        DW_AT_external, DW_AT_specification, DW_AT_type, DW_AT_virtuality, DW_AT_byte_stride,
        DW_AT_explicit, DW_AT_object_pointer, DW_AT_signature, DW_AT_enum_class,
        DW_AT_linkage_name, DW_AT_export_symbols, DW_AT_MIPS_linkage_name, DW_AT_GNU_vector,
        DW_AT_APPLE_runtime_class, DW_AT_APPLE_objc_complete_type, DW_AT_APPLE_objc_direct,
        eDWARFAttributeArtificial, eDWARFAttributeExplicit, eDWARFAttributeForwardDecl,
        eDWARFAttributeInline, eDWARFAttributeScopedEnum, eDWARFAttributeVector,
        eDWARFAttributeVirtual, eDWARFAttributeExternal, eDWARFAttributeExportSymbols,
        eDWARFAttributeObjCDirect, eDWARFAttributeObjCCompleteType]
    by_cases h22 : attr = DW_AT_specification
    · subst h22
      by_cases hu : fv.Unsigned = 0 <;> simp [hb, hs, hu, visitAttribute, applyAttribute, writeOf, flagMask, flagOfKind, setFlag,
        setIsArtificial, setIsExplicit, setIsForwardDeclaration, setIsInline, setIsScopedEnum,
        setIsVector, setIsVirtual, setIsExternal, setIsExportsSymbols, setIsObjCDirectCall,
        setIsObjCCompleteType, Declaration.SetFile, Declaration.SetLine, Declaration.SetColumn,
        DW_AT_name, DW_AT_byte_size, DW_AT_containing_type, DW_AT_inline, DW_AT_bit_stride,
        DW_AT_abstract_origin, DW_AT_accessibility, DW_AT_artificial, DW_AT_calling_convention,
        DW_AT_decl_column, DW_AT_decl_file, DW_AT_decl_line, DW_AT_declaration, DW_AT_encoding,
        DW_AT_external, DW_AT_specification, DW_AT_type, DW_AT_virtuality, DW_AT_byte_stride,
        DW_AT_explicit, DW_AT_object_pointer, DW_AT_signature, DW_AT_enum_class,
        DW_AT_linkage_name, DW_AT_export_symbols, DW_AT_MIPS_linkage_name, DW_AT_GNU_vector,
        DW_AT_APPLE_runtime_class, DW_AT_APPLE_objc_complete_type, DW_AT_APPLE_objc_direct,
        eDWARFAttributeArtificial, eDWARFAttributeExplicit, eDWARFAttributeForwardDecl,
        eDWARFAttributeInline, eDWARFAttributeScopedEnum, eDWARFAttributeVector,
        eDWARFAttributeVirtual, eDWARFAttributeExternal, eDWARFAttributeExportSymbols,
        eDWARFAttributeObjCDirect, eDWARFAttributeObjCCompleteType]
    by_cases h23 : attr = DW_AT_type
    · subst h23
      by_cases hu : fv.Unsigned = 0 <;> simp [hb, hs, hu, visitAttribute, applyAttribute, writeOf, flagMask, flagOfKind, setFlag,
        setIsArtificial, setIsExplicit, setIsForwardDeclaration, setIsInline, setIsScopedEnum,
        setIsVector, setIsVirtual, setIsExternal, setIsExportsSymbols, setIsObjCDirectCall,
        setIsObjCCompleteType, Declaration.SetFile, Declaration.SetLine, Declaration.SetColumn,
        DW_AT_name, DW_AT_byte_size, DW_AT_containing_type, DW_AT_inline, DW_AT_bit_stride,
        DW_AT_abstract_origin, DW_AT_accessibility, DW_AT_artificial, DW_AT_calling_convention,
        DW_AT_decl_column, DW_AT_decl_file, DW_AT_decl_line, DW_AT_declaration, DW_AT_encoding,
        DW_AT_external, DW_AT_specification, DW_AT_type, DW_AT_virtuality, DW_AT_byte_stride,
        DW_AT_explicit, DW_AT_object_pointer, DW_AT_signature, DW_AT_enum_class,
        DW_AT_linkage_name, DW_AT_export_symbols, DW_AT_MIPS_linkage_name, DW_AT_GNU_vector,
        DW_AT_APPLE_runtime_class, DW_AT_APPLE_objc_complete_type, DW_AT_APPLE_objc_direct,
        eDWARFAttributeArtificial, eDWARFAttributeExplicit, eDWARFAttributeForwardDecl,
        eDWARFAttributeInline, eDWARFAttributeScopedEnum, eDWARFAttributeVector,
        eDWARFAttributeVirtual, eDWARFAttributeExternal, eDWARFAttributeExportSymbols,
        eDWARFAttributeObjCDirect, eDWARFAttributeObjCCompleteType]
    by_cases h24 : attr = DW_AT_virtuality
    · subst h24
      by_cases hu : fv.Unsigned = 0 <;> simp [hb, hs, hu, visitAttribute, applyAttribute, writeOf, flagMask, flagOfKind, setFlag,
        setIsArtificial, setIsExplicit, setIsForwardDeclaration, setIsInline, setIsScopedEnum,
        setIsVector, setIsVirtual, setIsExternal, setIsExportsSymbols, setIsObjCDirectCall,
        setIsObjCCompleteType, Declaration.SetFile, Declaration.SetLine, Declaration.SetColumn,
        DW_AT_name, DW_AT_byte_size, DW_AT_containing_type, DW_AT_inline, DW_AT_bit_stride,
        DW_AT_abstract_origin, DW_AT_accessibility, DW_AT_artificial, DW_AT_calling_convention,
        DW_AT_decl_column, DW_AT_decl_file, DW_AT_decl_line, DW_AT_declaration, DW_AT_encoding,
        DW_AT_external, DW_AT_specification, DW_AT_type, DW_AT_virtuality, DW_AT_byte_stride,
        DW_AT_explicit, DW_AT_object_pointer, DW_AT_signature, DW_AT_enum_class,
        DW_AT_linkage_name, DW_AT_export_symbols, DW_AT_MIPS_linkage_name, DW_AT_GNU_vector,
        DW_AT_APPLE_runtime_class, DW_AT_APPLE_objc_complete_type, DW_AT_APPLE_objc_direct,
        eDWARFAttributeArtificial, eDWARFAttributeExplicit, eDWARFAttributeForwardDecl,
        eDWARFAttributeInline, eDWARFAttributeScopedEnum, eDWARFAttributeVector,
        eDWARFAttributeVirtual, eDWARFAttributeExternal, eDWARFAttributeExportSymbols,
        eDWARFAttributeObjCDirect, eDWARFAttributeObjCCompleteType]
    by_cases h25 : attr = DW_AT_APPLE_objc_complete_type
    · subst h25
      by_cases hu : fv.Unsigned = 0 <;> simp [hb, hs, hu, visitAttribute, applyAttribute, writeOf, flagMask, flagOfKind, setFlag,
        setIsArtificial, setIsExplicit, setIsForwardDeclaration, setIsInline, setIsScopedEnum,
        setIsVector, setIsVirtual, setIsExternal, setIsExportsSymbols, setIsObjCDirectCall,
        setIsObjCCompleteType, Declaration.SetFile, Declaration.SetLine, Declaration.SetColumn,
        DW_AT_name, DW_AT_byte_size, DW_AT_containing_type, DW_AT_inline, DW_AT_bit_stride,
        DW_AT_abstract_origin, DW_AT_accessibility, DW_AT_artificial, DW_AT_calling_convention,
        DW_AT_decl_column, DW_AT_decl_file, DW_AT_decl_line, DW_AT_declaration, DW_AT_encoding,
        DW_AT_external, DW_AT_specification, DW_AT_type, DW_AT_virtuality, DW_AT_byte_stride,
        DW_AT_explicit, DW_AT_object_pointer, DW_AT_signature, DW_AT_enum_class,
        DW_AT_linkage_name, DW_AT_export_symbols, DW_AT_MIPS_linkage_name, DW_AT_GNU_vector,
        DW_AT_APPLE_runtime_class, DW_AT_APPLE_objc_complete_type, DW_AT_APPLE_objc_direct,
        eDWARFAttributeArtificial, eDWARFAttributeExplicit, eDWARFAttributeForwardDecl,
        eDWARFAttributeInline, eDWARFAttributeScopedEnum, eDWARFAttributeVector,
        eDWARFAttributeVirtual, eDWARFAttributeExternal, eDWARFAttributeExportSymbols,
        eDWARFAttributeObjCDirect, eDWARFAttributeObjCCompleteType]
    by_cases h26 : attr = DW_AT_APPLE_objc_direct
    · subst h26
      by_cases hu : fv.Unsigned = 0 <;> simp [hb, hs, hu, visitAttribute, applyAttribute, writeOf, flagMask, flagOfKind, setFlag,
        setIsArtificial, setIsExplicit, setIsForwardDeclaration, setIsInline, setIsScopedEnum,
        setIsVector, setIsVirtual, setIsExternal, setIsExportsSymbols, setIsObjCDirectCall,
        setIsObjCCompleteType, Declaration.SetFile, Declaration.SetLine, Declaration.SetColumn,
        DW_AT_name, DW_AT_byte_size, DW_AT_containing_type, DW_AT_inline, DW_AT_bit_stride,
        DW_AT_abstract_origin, DW_AT_accessibility, DW_AT_artificial, DW_AT_calling_convention,
        DW_AT_decl_column, DW_AT_decl_file, DW_AT_decl_line, DW_AT_declaration, DW_AT_encoding,
        DW_AT_external, DW_AT_specification, DW_AT_type, DW_AT_virtuality, DW_AT_byte_stride,
        DW_AT_explicit, DW_AT_object_pointer, DW_AT_signature, DW_AT_enum_class,
        DW_AT_linkage_name, DW_AT_export_symbols, DW_AT_MIPS_linkage_name, DW_AT_GNU_vector,
        DW_AT_APPLE_runtime_class, DW_AT_APPLE_objc_complete_type, DW_AT_APPLE_objc_direct,
        eDWARFAttributeArtificial, eDWARFAttributeExplicit, eDWARFAttributeForwardDecl,
        eDWARFAttributeInline, eDWARFAttributeScopedEnum, eDWARFAttributeVector,
        eDWARFAttributeVirtual, eDWARFAttributeExternal, eDWARFAttributeExportSymbols,
        eDWARFAttributeObjCDirect, eDWARFAttributeObjCCompleteType]
    by_cases h27 : attr = DW_AT_APPLE_runtime_class
    · subst h27
      by_cases hu : fv.Unsigned = 0 <;> simp [hb, hs, hu, visitAttribute, applyAttribute, writeOf, flagMask, flagOfKind, setFlag,
        setIsArtificial, setIsExplicit, setIsForwardDeclaration, setIsInline, setIsScopedEnum,
        setIsVector, setIsVirtual, setIsExternal, setIsExportsSymbols, setIsObjCDirectCall,
        setIsObjCCompleteType, Declaration.SetFile, Declaration.SetLine, Declaration.SetColumn,
        DW_AT_name, DW_AT_byte_size, DW_AT_containing_type, DW_AT_inline, DW_AT_bit_stride,
        DW_AT_abstract_origin, DW_AT_accessibility, DW_AT_artificial, DW_AT_calling_convention,
        DW_AT_decl_column, DW_AT_decl_file, DW_AT_decl_line, DW_AT_declaration, DW_AT_encoding,
        DW_AT_external, DW_AT_specification, DW_AT_type, DW_AT_virtuality, DW_AT_byte_stride,
        DW_AT_explicit, DW_AT_object_pointer, DW_AT_signature, DW_AT_enum_class,
        DW_AT_linkage_name, DW_AT_export_symbols, DW_AT_MIPS_linkage_name, DW_AT_GNU_vector,
        DW_AT_APPLE_runtime_class, DW_AT_APPLE_objc_complete_type, DW_AT_APPLE_objc_direct,
        eDWARFAttributeArtificial, eDWARFAttributeExplicit, eDWARFAttributeForwardDecl,
        eDWARFAttributeInline, eDWARFAttributeScopedEnum, eDWARFAttributeVector,
        eDWARFAttributeVirtual, eDWARFAttributeExternal, eDWARFAttributeExportSymbols,
        eDWARFAttributeObjCDirect, eDWARFAttributeObjCCompleteType]
    by_cases h28 : attr = DW_AT_GNU_vector
    · subst h28
      by_cases hu : fv.Unsigned = 0 <;> simp [hb, hs, hu, visitAttribute, applyAttribute, writeOf, flagMask, flagOfKind, setFlag,
        setIsArtificial, setIsExplicit, setIsForwardDeclaration, setIsInline, setIsScopedEnum,
        setIsVector, setIsVirtual, setIsExternal, setIsExportsSymbols, setIsObjCDirectCall,
        setIsObjCCompleteType, Declaration.SetFile, Declaration.SetLine, Declaration.SetColumn,
        DW_AT_name, DW_AT_byte_size, DW_AT_containing_type, DW_AT_inline, DW_AT_bit_stride,
        DW_AT_abstract_origin, DW_AT_accessibility, DW_AT_artificial, DW_AT_calling_convention,
        DW_AT_decl_column, DW_AT_decl_file, DW_AT_decl_line, DW_AT_declaration, DW_AT_encoding,
        DW_AT_external, DW_AT_specification, DW_AT_type, DW_AT_virtuality, DW_AT_byte_stride,
        DW_AT_explicit, DW_AT_object_pointer, DW_AT_signature, DW_AT_enum_class,
        DW_AT_linkage_name, DW_AT_export_symbols, DW_AT_MIPS_linkage_name, DW_AT_GNU_vector,
        DW_AT_APPLE_runtime_class, DW_AT_APPLE_objc_complete_type, DW_AT_APPLE_objc_direct,
        eDWARFAttributeArtificial, eDWARFAttributeExplicit, eDWARFAttributeForwardDecl,
        eDWARFAttributeInline, eDWARFAttributeScopedEnum, eDWARFAttributeVector,
        eDWARFAttributeVirtual, eDWARFAttributeExternal, eDWARFAttributeExportSymbols,
        eDWARFAttributeObjCDirect, eDWARFAttributeObjCCompleteType]
    by_cases h29 : attr = DW_AT_export_symbols
    · subst h29
      by_cases hu : fv.Unsigned = 0 <;> simp [hb, hs, hu, visitAttribute, applyAttribute, writeOf, flagMask, flagOfKind, setFlag,
        setIsArtificial, setIsExplicit, setIsForwardDeclaration, setIsInline, setIsScopedEnum,
        setIsVector, setIsVirtual, setIsExternal, setIsExportsSymbols, setIsObjCDirectCall,
        setIsObjCCompleteType, Declaration.SetFile, Declaration.SetLine, Declaration.SetColumn,
        DW_AT_name, DW_AT_byte_size, DW_AT_containing_type, DW_AT_inline, DW_AT_bit_stride,
        DW_AT_abstract_origin, DW_AT_accessibility, DW_AT_artificial, DW_AT_calling_convention,
        DW_AT_decl_column, DW_AT_decl_file, DW_AT_decl_line, DW_AT_declaration, DW_AT_encoding,
        DW_AT_external, DW_AT_specification, DW_AT_type, DW_AT_virtuality, DW_AT_byte_stride,
        DW_AT_explicit, DW_AT_object_pointer, DW_AT_signature, DW_AT_enum_class,
        DW_AT_linkage_name, DW_AT_export_symbols, DW_AT_MIPS_linkage_name, DW_AT_GNU_vector,
        DW_AT_APPLE_runtime_class, DW_AT_APPLE_objc_complete_type, DW_AT_APPLE_objc_direct,
        eDWARFAttributeArtificial, eDWARFAttributeExplicit, eDWARFAttributeForwardDecl,
        eDWARFAttributeInline, eDWARFAttributeScopedEnum, eDWARFAttributeVector,
        eDWARFAttributeVirtual, eDWARFAttributeExternal, eDWARFAttributeExportSymbols,
        eDWARFAttributeObjCDirect, eDWARFAttributeObjCCompleteType]
    simp [h0, h1, h2, h3, h4, h5, h6, h7, h8, h9, h10, h11, h12, h13, h14, h15, h16, h17, h18, h19, h20, h21, h22, h23, h24, h25, h26, h27, h28, h29, visitAttribute, applyAttribute, writeOf,
      flagMask, flagOfKind]

end ParsedDWARFTypeAttributes

/-! ## The record as a function of the attribute list -/

theorem lastWrite_nil {β : Type} (w : DWARFAttribute → Option β) : lastWrite w [] = none := rfl

theorem lastWrite_cons {β : Type} (w : DWARFAttribute → Option β) (a : DWARFAttribute)
    (l : List DWARFAttribute) : lastWrite w (a :: l) = (lastWrite w l).or (w a) := by
  unfold lastWrite
  rw [List.reverse_cons, List.findSome?_append]
  cases h : w a <;> simp [List.findSome?_cons, h]

theorem lastWrite_append {β : Type} (w : DWARFAttribute → Option β)
    (l₁ l₂ : List DWARFAttribute) :
    lastWrite w (l₁ ++ l₂) = (lastWrite w l₂).or (lastWrite w l₁) := by
  unfold lastWrite
  rw [List.reverse_append, List.findSome?_append]

theorem lastWrite_filter {β : Type} (w : DWARFAttribute → Option β)
    (p : DWARFAttribute → Bool) (l : List DWARFAttribute)
    (h : ∀ x ∈ l, p x = false → w x = none) :
    lastWrite w (l.filter p) = lastWrite w l := by
  induction l with
  | nil => rfl
  | cons x l ih =>
    have ih := ih (fun y hy => h y (List.mem_cons_of_mem _ hy))
    cases hp : p x with
    | true => rw [List.filter_cons_of_pos (by simpa using hp), lastWrite_cons, lastWrite_cons, ih]
    | false =>
      rw [List.filter_cons_of_neg (by simpa using hp), lastWrite_cons, ih,
        h x (List.mem_cons_self _ _) hp]
      simp

/-- The flags set by a list of attributes: the union of the flags its attributes set. -/
def orMasks (l : List DWARFAttribute) : Nat :=
  l.foldr (fun a acc => flagMask a ||| acc) 0

theorem ite_lt_of_lt {c : Prop} [Decidable c] {a b n : Nat} (ha : a < n) (hb : b < n) :
    (if c then a else b) < n := by
  split_ifs <;> assumption

theorem flagOfKind_lt (attr : Nat) : flagOfKind attr < 2 ^ 11 := by
  unfold flagOfKind
  repeat' apply ite_lt_of_lt
  all_goals decide

theorem flagMask_cases (a : DWARFAttribute) :
    flagMask a = 0 ∨ flagMask a = flagOfKind a.attr := by
  unfold flagMask
  cases a.form_value with
  | none => exact Or.inl rfl
  | some fv =>
    simp only []
    by_cases h : a.attr = DW_AT_APPLE_objc_direct
    · right
      rw [if_pos h, h]
      decide
    · rw [if_neg h]
      split_ifs
      · exact Or.inr rfl
      · exact Or.inl rfl

theorem flagMask_lt (a : DWARFAttribute) : flagMask a < 2 ^ 11 := by
  rcases flagMask_cases a with h | h
  · rw [h]; positivity
  · rw [h]; exact flagOfKind_lt _

theorem orMasks_lt (l : List DWARFAttribute) : orMasks l < 2 ^ 11 := by
  induction l with
  | nil => simp [orMasks]
  | cons a l ih =>
    show flagMask a ||| orMasks l < 2 ^ 11
    exact Nat.or_lt_two_pow (flagMask_lt a) ih

theorem orMasks_cons (a : DWARFAttribute) (l : List DWARFAttribute) :
    orMasks (a :: l) = flagMask a ||| orMasks l := rfl

theorem orMasks_append (l₁ l₂ : List DWARFAttribute) :
    orMasks (l₁ ++ l₂) = orMasks l₁ ||| orMasks l₂ := by
  induction l₁ with
  | nil => simp [orMasks]
  | cons a l ih => rw [List.cons_append, orMasks_cons, orMasks_cons, ih, Nat.lor_assoc]

namespace ParsedDWARFTypeAttributes

theorem foldl_field {β : Type} (π : ParsedDWARFTypeAttributes → β)
    (w : DWARFAttribute → Option β)
    (h : ∀ r a, π (visitAttribute r a) = (w a).getD (π r))
    (l : List DWARFAttribute) (r : ParsedDWARFTypeAttributes) :
    π (l.foldl visitAttribute r) = (lastWrite w l).getD (π r) := by
  induction l generalizing r with
  | nil => rfl
  | cons a l ih =>
    rw [List.foldl_cons, ih, h, lastWrite_cons]
    cases lastWrite w l <;> rfl

theorem foldl_attr_flags (l : List DWARFAttribute) (r : ParsedDWARFTypeAttributes)
    (hr : r.attr_flags < 2 ^ 32) :
    (l.foldl visitAttribute r).attr_flags = r.attr_flags ||| orMasks l := by
  induction l generalizing r with
  | nil => simp [orMasks]
  | cons a l ih =>
    have hm : flagMask a < 2 ^ 32 := lt_trans (flagMask_lt a) (by decide)
    have hstep : (visitAttribute r a).attr_flags = r.attr_flags ||| flagMask a := by
      rw [visitAttribute_eq]
      show (if flagMask a = 0 then r.attr_flags else (r.attr_flags ||| flagMask a) % 2 ^ 32) = _
      split_ifs with h0
      · rw [h0]; simp
      · exact Nat.mod_eq_of_lt (Nat.or_lt_two_pow hr hm)
    have hlt : (visitAttribute r a).attr_flags < 2 ^ 32 := by
      rw [hstep]; exact Nat.or_lt_two_pow hr hm
    rw [List.foldl_cons, ih _ hlt, hstep, orMasks_cons, Nat.lor_assoc]

end ParsedDWARFTypeAttributes


namespace ParsedDWARFTypeAttributes

/-- The record the constructor ends with, read off the attribute list: every field other
than the flags holds the last value written to it, its default when nothing was written, and
the flags are the union of the flags that the attributes set. -/
def normalForm (l : List DWARFAttribute) : ParsedDWARFTypeAttributes where
  accessibility := (lastWrite (writeOf [DW_AT_accessibility]
    (fun _ fv => GetAccessTypeFromDWARF (fv.Unsigned % 2 ^ 32))) l).getD AccessType.eAccessNone
  mangled_name := (lastWrite (writeOf [DW_AT_linkage_name, DW_AT_MIPS_linkage_name]
    (fun _ fv => fv.AsCString)) l).getD none
  name := (lastWrite (writeOf [DW_AT_name]
    (fun _ fv => fv.AsCString.getD "")) l).getD ""
  decl :=
    { file := (lastWrite (writeOf [DW_AT_decl_file]
        (fun a fv => a.cu.GetFile fv.Unsigned)) l).getD {}
      line := (lastWrite (writeOf [DW_AT_decl_line]
        (fun _ fv => fv.Unsigned % 2 ^ 32)) l).getD 0
      column := (lastWrite (writeOf [DW_AT_decl_column]
        (fun _ fv => fv.Unsigned % 2 ^ 16)) l).getD 0 }
  object_pointer := (lastWrite (writeOf [DW_AT_object_pointer]
    (fun _ fv => fv.Reference)) l).getD none
  abstract_origin := (lastWrite (writeOf [DW_AT_abstract_origin]
    (fun _ fv => fv)) l).getD {}
  containing_type := (lastWrite (writeOf [DW_AT_containing_type]
    (fun _ fv => fv)) l).getD {}
  signature := (lastWrite (writeOf [DW_AT_signature]
    (fun _ fv => fv)) l).getD {}
  specification := (lastWrite (writeOf [DW_AT_specification]
    (fun _ fv => fv)) l).getD {}
  type := (lastWrite (writeOf [DW_AT_type]
    (fun _ fv => fv)) l).getD {}
  class_language := (lastWrite (writeOf [DW_AT_APPLE_runtime_class]
    (fun _ fv => fv.Signed % 2 ^ 32)) l).getD eLanguageTypeUnknown
  byte_size := (lastWrite (writeOf [DW_AT_byte_size]
    (fun _ fv => some fv.Unsigned)) l).getD none
  calling_convention := (lastWrite (writeOf [DW_AT_calling_convention]
    (fun _ fv => fv.Unsigned)) l).getD DW_CC_normal
  bit_stride := (lastWrite (writeOf [DW_AT_bit_stride]
    (fun _ fv => fv.Unsigned % 2 ^ 32)) l).getD 0
  byte_stride := (lastWrite (writeOf [DW_AT_byte_stride]
    (fun _ fv => fv.Unsigned % 2 ^ 32)) l).getD 0
  encoding := (lastWrite (writeOf [DW_AT_encoding]
    (fun _ fv => fv.Unsigned % 2 ^ 32)) l).getD 0
  attr_flags := orMasks l

theorem ext_fields (r s : ParsedDWARFTypeAttributes)
    (h0 : r.accessibility = s.accessibility)
    (h1 : r.mangled_name = s.mangled_name)
    (h2 : r.name = s.name)
    (h3 : r.decl.file = s.decl.file)
    (h4 : r.decl.line = s.decl.line)
    (h5 : r.decl.column = s.decl.column)
    (h6 : r.object_pointer = s.object_pointer)
    (h7 : r.abstract_origin = s.abstract_origin)
    (h8 : r.containing_type = s.containing_type)
    (h9 : r.signature = s.signature)
    (h10 : r.specification = s.specification)
    (h11 : r.type = s.type)
    (h12 : r.class_language = s.class_language)
    (h13 : r.byte_size = s.byte_size)
    (h14 : r.calling_convention = s.calling_convention)
    (h15 : r.bit_stride = s.bit_stride)
    (h16 : r.byte_stride = s.byte_stride)
    (h17 : r.encoding = s.encoding)
    (hflags : r.attr_flags = s.attr_flags) : r = s := by
  obtain ⟨_, _, _, ⟨_, _, _⟩, _, _, _, _, _, _, _, _, _, _, _, _, _⟩ := r
  obtain ⟨_, _, _, ⟨_, _, _⟩, _, _, _, _, _, _, _, _, _, _, _, _, _⟩ := s
  simp only [] at *
  subst_vars
  rfl

/-- The constructor yields the record read off the attribute list. -/
theorem ctor_eq_normalForm (die : DWARFDIE) : ctor die = normalForm die.GetAttributes := by
  unfold ctor
  apply ext_fields
  · exact foldl_field (fun r => r.accessibility) _ (fun r a => by rw [visitAttribute_eq]; rfl) _ _
  · exact foldl_field (fun r => r.mangled_name) _ (fun r a => by rw [visitAttribute_eq]; rfl) _ _
  · exact foldl_field (fun r => r.name) _ (fun r a => by rw [visitAttribute_eq]; rfl) _ _
  · exact foldl_field (fun r => r.decl.file) _ (fun r a => by rw [visitAttribute_eq]; rfl) _ _
  · exact foldl_field (fun r => r.decl.line) _ (fun r a => by rw [visitAttribute_eq]; rfl) _ _
  · exact foldl_field (fun r => r.decl.column) _ (fun r a => by rw [visitAttribute_eq]; rfl) _ _
  · exact foldl_field (fun r => r.object_pointer) _ (fun r a => by rw [visitAttribute_eq]; rfl) _ _
  · exact foldl_field (fun r => r.abstract_origin) _ (fun r a => by rw [visitAttribute_eq]; rfl) _ _
  · exact foldl_field (fun r => r.containing_type) _ (fun r a => by rw [visitAttribute_eq]; rfl) _ _
  · exact foldl_field (fun r => r.signature) _ (fun r a => by rw [visitAttribute_eq]; rfl) _ _
  · exact foldl_field (fun r => r.specification) _ (fun r a => by rw [visitAttribute_eq]; rfl) _ _
  · exact foldl_field (fun r => r.type) _ (fun r a => by rw [visitAttribute_eq]; rfl) _ _
  · exact foldl_field (fun r => r.class_language) _ (fun r a => by rw [visitAttribute_eq]; rfl) _ _
  · exact foldl_field (fun r => r.byte_size) _ (fun r a => by rw [visitAttribute_eq]; rfl) _ _
  · exact foldl_field (fun r => r.calling_convention) _ (fun r a => by rw [visitAttribute_eq]; rfl) _ _
  · exact foldl_field (fun r => r.bit_stride) _ (fun r a => by rw [visitAttribute_eq]; rfl) _ _
  · exact foldl_field (fun r => r.byte_stride) _ (fun r a => by rw [visitAttribute_eq]; rfl) _ _
  · exact foldl_field (fun r => r.encoding) _ (fun r a => by rw [visitAttribute_eq]; rfl) _ _
  · rw [foldl_attr_flags _ _ (by decide)]
    show 0 ||| orMasks die.GetAttributes = orMasks die.GetAttributes
    simp

end ParsedDWARFTypeAttributes


/-! ## Claims on the flag set -/

namespace ParsedDWARFTypeAttributes

/-- The eleven flag setters, in the order of their bits. -/
def flagSetters : List (ParsedDWARFTypeAttributes → ParsedDWARFTypeAttributes) :=
  [setIsArtificial, setIsExplicit, setIsForwardDeclaration, setIsInline, setIsScopedEnum,
    setIsVector, setIsVirtual, setIsExternal, setIsExportsSymbols, setIsObjCDirectCall,
    setIsObjCCompleteType]

/-- The eleven flag getters, in the order of their bits. -/
def flagGetters : List (ParsedDWARFTypeAttributes → Bool) :=
  [isArtificial, isExplicit, isForwardDeclaration, isInline, isScopedEnum, isVector,
    isVirtual, isExternal, isExportsSymbols, isObjCDirectCall, isObjCCompleteType]

theorem flagSetters_getD (i : Nat) (hi : i < 11) :
    flagSetters.getD i id = fun r => r.setFlag (1 <<< i) := by
  interval_cases i <;> rfl

theorem flagGetters_getD (j : Nat) (hj : j < 11) :
    flagGetters.getD j (fun _ => false) = fun r => r.hasFlag (1 <<< j) := by
  interval_cases j <;> rfl

theorem flagGetters_mem (g : ParsedDWARFTypeAttributes → Bool) (hg : g ∈ flagGetters) :
    ∃ j, j < 11 ∧ g = fun r => r.hasFlag (1 <<< j) := by
  simp only [flagGetters, List.mem_cons, List.mem_singleton, List.not_mem_nil, or_false] at hg
  rcases hg with h | h | h | h | h | h | h | h | h | h | h
  · exact ⟨0, by decide, h⟩
  · exact ⟨1, by decide, h⟩
  · exact ⟨2, by decide, h⟩
  · exact ⟨3, by decide, h⟩
  · exact ⟨4, by decide, h⟩
  · exact ⟨5, by decide, h⟩
  · exact ⟨6, by decide, h⟩
  · exact ⟨7, by decide, h⟩
  · exact ⟨8, by decide, h⟩
  · exact ⟨9, by decide, h⟩
  · exact ⟨10, by decide, h⟩

end ParsedDWARFTypeAttributes

/-- C18: the eleven flags are independent.  For the `i`-th setter and the `j`-th getter, the
getter returns true after the setter when they belong to the same flag, and otherwise
returns what it returned before; and every getter returns false when `attr_flags = 0`. -/
theorem flags_independent (r : ParsedDWARFTypeAttributes) (i j : Nat) (hi : i < 11)
    (hj : j < 11) :
    (ParsedDWARFTypeAttributes.flagGetters.getD j (fun _ => false))
        ((ParsedDWARFTypeAttributes.flagSetters.getD i id) r) =
      (if i = j then true
        else (ParsedDWARFTypeAttributes.flagGetters.getD j (fun _ => false)) r) ∧
    (r.attr_flags = 0 →
      (ParsedDWARFTypeAttributes.flagGetters.getD j (fun _ => false)) r = false) := by
  rw [ParsedDWARFTypeAttributes.flagSetters_getD i hi,
    ParsedDWARFTypeAttributes.flagGetters_getD j hj]
  refine ⟨?_, ?_⟩
  · show (r.setFlag (1 <<< i)).hasFlag (1 <<< j) = _
    rw [ParsedDWARFTypeAttributes.hasFlag_setFlag r i j (lt_trans hj (by decide))]
  · intro h0
    show r.hasFlag (1 <<< j) = false
    rw [ParsedDWARFTypeAttributes.hasFlag_bit, h0, Nat.zero_testBit]

/-- Examples of C18 on the record with `attr_flags = 0b100` (forward declaration only):
`setIsVirtual` makes `isVirtual` true and leaves `isForwardDeclaration` true and
`isArtificial` false. -/
theorem flags_independent_witness :
    ({ attr_flags := 4 } : ParsedDWARFTypeAttributes).setIsVirtual.isVirtual = true ∧
    ({ attr_flags := 4 } : ParsedDWARFTypeAttributes).setIsVirtual.isForwardDeclaration
      = ({ attr_flags := 4 } : ParsedDWARFTypeAttributes).isForwardDeclaration ∧
    ({ attr_flags := 4 } : ParsedDWARFTypeAttributes).setIsVirtual.isArtificial
      = ({ attr_flags := 4 } : ParsedDWARFTypeAttributes).isArtificial ∧
    ({} : ParsedDWARFTypeAttributes).isVirtual = false :=
  ⟨(flags_independent { attr_flags := 4 } 6 6 (by decide) (by decide)).1,
    (flags_independent { attr_flags := 4 } 6 2 (by decide) (by decide)).1,
    (flags_independent { attr_flags := 4 } 6 0 (by decide) (by decide)).1,
    (flags_independent {} 6 6 (by decide) (by decide)).2 rfl⟩

theorem orMasks_testBit_mono (l₁ l₂ : List DWARFAttribute) (j : Nat)
    (h : (orMasks l₁).testBit j = true) : (orMasks (l₁ ++ l₂)).testBit j = true := by
  rw [orMasks_append, Nat.testBit_or, h]
  rfl

/-- C17: flags only accumulate within one scan.  Every one of the eleven flags that is true in
the record built from a prefix of an attribute list is true in the record built from the
whole list, and every flag is false in the record before the first attribute. -/
theorem flags_accumulate (die whole : DWARFDIE) (rest : List DWARFAttribute)
    (hwhole : whole.GetAttributes = die.GetAttributes ++ rest) :
    (∀ g ∈ ParsedDWARFTypeAttributes.flagGetters,
      g (ParsedDWARFTypeAttributes.ctor die) = true →
      g (ParsedDWARFTypeAttributes.ctor whole) = true) ∧
    (∀ g ∈ ParsedDWARFTypeAttributes.flagGetters,
      g ({} : ParsedDWARFTypeAttributes) = false) := by
  refine ⟨?_, ?_⟩
  · intro g hg
    obtain ⟨j, _, rfl⟩ := ParsedDWARFTypeAttributes.flagGetters_mem g hg
    simp only [ParsedDWARFTypeAttributes.hasFlag_bit,
      ParsedDWARFTypeAttributes.ctor_eq_normalForm, hwhole]
    exact orMasks_testBit_mono _ _ j
  · intro g hg
    obtain ⟨j, _, rfl⟩ := ParsedDWARFTypeAttributes.flagGetters_mem g hg
    simp only [ParsedDWARFTypeAttributes.hasFlag_bit]
    exact Nat.zero_testBit j

/-- A node `[artificial = 1, external = 0]`. -/
def artificialNode : DWARFDIE :=
  .die 0x2e "f" [{ attr := DW_AT_artificial, form_value := some { uval := 1 } },
    { attr := DW_AT_external, form_value := some { uval := 0 } }] .invalid []

/-- The node `artificialNode` with `[artificial = 0, virtuality = 1]` appended. -/
def artificialVirtualNode : DWARFDIE :=
  .die 0x2e "f" [{ attr := DW_AT_artificial, form_value := some { uval := 1 } },
    { attr := DW_AT_external, form_value := some { uval := 0 } },
    { attr := DW_AT_artificial, form_value := some { uval := 0 } },
    { attr := DW_AT_virtuality, form_value := some { uval := 1 } }] .invalid []

/-- An example of C17: `isArtificial`, true after `[artificial = 1, external = 0]`, is still
true after the further attributes `[artificial = 0, virtuality = 1]`. -/
theorem flags_accumulate_witness :
    (ParsedDWARFTypeAttributes.ctor artificialNode).isArtificial = true ∧
    (ParsedDWARFTypeAttributes.ctor artificialVirtualNode).isArtificial = true ∧
    (ParsedDWARFTypeAttributes.ctor artificialVirtualNode).attr_flags = 65 :=
  ⟨by decide,
    (flags_accumulate artificialNode artificialVirtualNode
      [{ attr := DW_AT_artificial, form_value := some { uval := 0 } },
        { attr := DW_AT_virtuality, form_value := some { uval := 1 } }] rfl).1
      ParsedDWARFTypeAttributes.isArtificial (by simp [ParsedDWARFTypeAttributes.flagGetters])
      (by decide),
    by decide⟩



/-! ## Claims on the scan of the normalizer -/

/-- The attribute kinds that are case labels of the constructor's switch
(DWARFASTParser.cpp:126-250). -/
def handledKinds : List Nat :=
  [DW_AT_abstract_origin, DW_AT_accessibility, DW_AT_artificial, DW_AT_bit_stride,
    DW_AT_byte_size, DW_AT_byte_stride, DW_AT_calling_convention, DW_AT_containing_type,
    DW_AT_decl_file, DW_AT_decl_line, DW_AT_decl_column, DW_AT_declaration,
    DW_AT_encoding, DW_AT_enum_class, DW_AT_explicit, DW_AT_external, DW_AT_inline,
    DW_AT_linkage_name, DW_AT_MIPS_linkage_name, DW_AT_name, DW_AT_object_pointer,
    DW_AT_signature, DW_AT_specification, DW_AT_type, DW_AT_virtuality,
    DW_AT_APPLE_objc_complete_type, DW_AT_APPLE_objc_direct, DW_AT_APPLE_runtime_class,
    DW_AT_GNU_vector, DW_AT_export_symbols]

/-- The list `l'` arises from `l` by inserting attributes of unrecognized kinds, any number
of them at any positions. -/
inductive InsertedUnrecognized : List DWARFAttribute → List DWARFAttribute → Prop where
  | nil : InsertedUnrecognized [] []
  | keep (a : DWARFAttribute) {l l' : List DWARFAttribute} :
      InsertedUnrecognized l l' → InsertedUnrecognized (a :: l) (a :: l')
  | skip (a : DWARFAttribute) {l l' : List DWARFAttribute} :
      a.attr ∉ handledKinds → InsertedUnrecognized l l' → InsertedUnrecognized l (a :: l')

theorem visitAttribute_unrecognized (r : ParsedDWARFTypeAttributes) (a : DWARFAttribute)
    (h : a.attr ∉ handledKinds) : ParsedDWARFTypeAttributes.visitAttribute r a = r := by
  simp only [handledKinds, List.mem_cons, List.mem_singleton, List.not_mem_nil, or_false,
    not_or] at h
  obtain ⟨h0, h1, h2, h3, h4, h5, h6, h7, h8, h9, h10, h11, h12, h13, h14, h15, h16, h17, h18, h19, h20, h21, h22, h23, h24, h25, h26, h27, h28, h29⟩ := h
  unfold ParsedDWARFTypeAttributes.visitAttribute
  cases a.form_value with
  | none => rfl
  | some fv =>
    simp [h0, h1, h2, h3, h4, h5, h6, h7, h8, h9, h10, h11, h12, h13, h14, h15, h16, h17, h18, h19, h20, h21, h22, h23, h24, h25, h26, h27, h28, h29]

theorem foldl_inserted_unrecognized (l l' : List DWARFAttribute)
    (h : InsertedUnrecognized l l') (r : ParsedDWARFTypeAttributes) :
    l'.foldl ParsedDWARFTypeAttributes.visitAttribute r =
      l.foldl ParsedDWARFTypeAttributes.visitAttribute r := by
  induction h generalizing r with
  | nil => rfl
  | keep a _ ih => rw [List.foldl_cons, List.foldl_cons, ih]
  | skip a ha _ ih => rw [List.foldl_cons, visitAttribute_unrecognized r a ha, ih]

/-- C13: attributes of an unrecognized kind are ignored.  When the attribute list of `padded`
arises from that of `die` by inserting attributes whose kind is no case label of the switch,
any number of them at any positions, the two constructed records are equal; the constructor
is a total function, so that it yields a record for both. -/
theorem unrecognized_kinds_ignored (die padded : DWARFDIE)
    (h : InsertedUnrecognized die.GetAttributes padded.GetAttributes) :
    ParsedDWARFTypeAttributes.ctor padded = ParsedDWARFTypeAttributes.ctor die := by
  unfold ParsedDWARFTypeAttributes.ctor
  exact foldl_inserted_unrecognized _ _ h {}

/-- A node `[name = "arr", byte_size = 12]`. -/
def namedNode : DWARFDIE :=
  .die 0x01 "arr" [{ attr := DW_AT_name, form_value := some { cstr := some "arr" } },
    { attr := DW_AT_byte_size, form_value := some { uval := 12 } }] .invalid []

/-- The node `namedNode` with attributes of the unrecognized kinds `0x11` (`DW_AT_low_pc`) and
`0x3ffe` inserted before, between and after its attributes. -/
def paddedNode : DWARFDIE :=
  .die 0x01 "arr" [{ attr := 0x11, form_value := some { uval := 4096 } },
    { attr := DW_AT_name, form_value := some { cstr := some "arr" } },
    { attr := 0x3ffe, form_value := some { uval := 1 } },
    { attr := DW_AT_byte_size, form_value := some { uval := 12 } },
    { attr := 0x11, form_value := none }] .invalid []

/-- An example of C13: the padded node yields the record of the plain node. -/
theorem unrecognized_kinds_ignored_witness :
    ParsedDWARFTypeAttributes.ctor paddedNode = ParsedDWARFTypeAttributes.ctor namedNode ∧
    (ParsedDWARFTypeAttributes.ctor paddedNode).byte_size = some 12 :=
  ⟨unrecognized_kinds_ignored namedNode paddedNode
    (.skip _ (by decide) (.keep _ (.skip _ (by decide) (.keep _ (.skip _ (by decide) .nil))))),
    by decide⟩



/-- The attribute kinds that have a flag, in the order of the bits of their flags. -/
def flagKinds : List Nat :=
  [DW_AT_artificial, DW_AT_explicit, DW_AT_declaration, DW_AT_inline, DW_AT_enum_class,
    DW_AT_GNU_vector, DW_AT_virtuality, DW_AT_external, DW_AT_export_symbols,
    DW_AT_APPLE_objc_direct, DW_AT_APPLE_objc_complete_type]

theorem flagOfKind_testBit (attr j : Nat) (hj : j < 11) :
    (flagOfKind attr).testBit j = true ↔ attr = flagKinds.getD j 0 := by
  interval_cases j
  all_goals
    by_cases h0 : attr = DW_AT_artificial
    · subst h0; decide
    by_cases h1 : attr = DW_AT_explicit
    · subst h1; decide
    by_cases h2 : attr = DW_AT_declaration
    · subst h2; decide
    by_cases h3 : attr = DW_AT_inline
    · subst h3; decide
    by_cases h4 : attr = DW_AT_enum_class
    · subst h4; decide
    by_cases h5 : attr = DW_AT_GNU_vector
    · subst h5; decide
    by_cases h6 : attr = DW_AT_virtuality
    · subst h6; decide
    by_cases h7 : attr = DW_AT_external
    · subst h7; decide
    by_cases h8 : attr = DW_AT_export_symbols
    · subst h8; decide
    by_cases h9 : attr = DW_AT_APPLE_objc_direct
    · subst h9; decide
    by_cases h10 : attr = DW_AT_APPLE_objc_complete_type
    · subst h10; decide
    have h : flagOfKind attr = 0 := by simp [flagOfKind, h0, h1, h2, h3, h4, h5, h6, h7, h8, h9, h10]
    rw [h, Nat.zero_testBit]
    simp [flagKinds, h0, h1, h2, h3, h4, h5, h6, h7, h8, h9, h10]

/-- Whether an attribute sets the flag of its kind: its form value can be extracted and is
nonzero, or the kind is `DW_AT_APPLE_objc_direct`, whose case sets the flag whatever the
value. -/
def setsItsFlag (a : DWARFAttribute) : Prop :=
  ∃ fv, a.form_value = some fv ∧ (a.attr = DW_AT_APPLE_objc_direct ∨ fv.Unsigned ≠ 0)

theorem flagMask_testBit (a : DWARFAttribute) (j : Nat) (hj : j < 11) :
    (flagMask a).testBit j = true ↔ a.attr = flagKinds.getD j 0 ∧ setsItsFlag a := by
  obtain ⟨attr, fvo, cu⟩ := a
  cases fvo with
  | none => simp [flagMask, setsItsFlag]
  | some fv =>
    by_cases hd : attr = DW_AT_APPLE_objc_direct
    · have hm : flagMask ⟨attr, some fv, cu⟩ = flagOfKind attr := by
        rw [hd]; simp [flagMask]; decide
      rw [hm, flagOfKind_testBit _ _ hj]
      simp [setsItsFlag, hd]
    · by_cases hu : fv.Unsigned = 0
      · simp [flagMask, setsItsFlag, hd, hu]
      · have hm : flagMask ⟨attr, some fv, cu⟩ = flagOfKind attr := by
          simp [flagMask, hd, hu]
        rw [hm, flagOfKind_testBit _ _ hj]
        simp [setsItsFlag, hd, hu]

theorem orMasks_testBit (l : List DWARFAttribute) (j : Nat) :
    (orMasks l).testBit j = true ↔ ∃ a ∈ l, (flagMask a).testBit j = true := by
  induction l with
  | nil => simp [orMasks]
  | cons a l ih =>
    rw [orMasks_cons, Nat.testBit_or, Bool.or_eq_true, ih]
    simp

/-- The flag `j` of the constructed record is set exactly when some attribute of the list has
the kind of that flag and sets its flag. -/
theorem ctor_hasFlag (die : DWARFDIE) (j : Nat) (hj : j < 11) :
    (ParsedDWARFTypeAttributes.ctor die).hasFlag (1 <<< j) = true ↔
      ∃ a ∈ die.GetAttributes, a.attr = flagKinds.getD j 0 ∧ setsItsFlag a := by
  rw [ParsedDWARFTypeAttributes.hasFlag_bit, ParsedDWARFTypeAttributes.ctor_eq_normalForm]
  show (orMasks die.GetAttributes).testBit j = true ↔ _
  rw [orMasks_testBit]
  constructor
  · rintro ⟨a, ha, h⟩
    exact ⟨a, ha, (flagMask_testBit a j hj).mp h⟩
  · rintro ⟨a, ha, h⟩
    exact ⟨a, ha, (flagMask_testBit a j hj).mpr h⟩



/-- Some attribute of kind `kind` in the list has a form value that can be extracted and is
nonzero. -/
def occursNonzero (kind : Nat) (l : List DWARFAttribute) : Prop :=
  ∃ a ∈ l, a.attr = kind ∧ ∃ fv, a.form_value = some fv ∧ fv.Unsigned ≠ 0

/-- Some attribute of kind `kind` in the list has a form value that can be extracted. -/
def occursReadable (kind : Nat) (l : List DWARFAttribute) : Prop :=
  ∃ a ∈ l, a.attr = kind ∧ ∃ fv, a.form_value = some fv

theorem sets_iff_occursNonzero (kind : Nat) (hk : kind ≠ DW_AT_APPLE_objc_direct)
    (l : List DWARFAttribute) :
    (∃ a ∈ l, a.attr = kind ∧ setsItsFlag a) ↔ occursNonzero kind l := by
  constructor
  · rintro ⟨a, ha, hkind, fv, hfv, h | h⟩
    · exact absurd (hkind ▸ h) hk
    · exact ⟨a, ha, hkind, fv, hfv, h⟩
  · rintro ⟨a, ha, hkind, fv, hfv, h⟩
    exact ⟨a, ha, hkind, fv, hfv, Or.inr h⟩

theorem sets_iff_occursReadable (l : List DWARFAttribute) :
    (∃ a ∈ l, a.attr = DW_AT_APPLE_objc_direct ∧ setsItsFlag a) ↔
      occursReadable DW_AT_APPLE_objc_direct l := by
  constructor
  · rintro ⟨a, ha, hkind, fv, hfv, _⟩
    exact ⟨a, ha, hkind, fv, hfv⟩
  · rintro ⟨a, ha, hkind, fv, hfv⟩
    exact ⟨a, ha, hkind, fv, hfv, Or.inl hkind⟩

/-- A node with the single attribute `APPLE_objc_direct = 0`. -/
def objcDirectZeroNode : DWARFDIE :=
  .die 0x2e "m" [{ attr := DW_AT_APPLE_objc_direct, form_value := some { uval := 0 } }]
    .invalid []

/-- C12, at the failing input: on the node whose only attribute is `APPLE_objc_direct = 0`,
every occurrence of the attribute has value `0`, and the constructor sets the flag all the
same, because the case at cpp:235-237 does not test the form value as its ten sibling cases
do. -/
theorem objc_direct_zero_sets_flag :
    ¬ occursNonzero DW_AT_APPLE_objc_direct objcDirectZeroNode.GetAttributes ∧
    (ParsedDWARFTypeAttributes.ctor objcDirectZeroNode).isObjCDirectCall = true := by
  refine ⟨?_, by decide⟩
  rintro ⟨a, ha, _, fv, hfv, hne⟩
  simp only [objcDirectZeroNode, DWARFDIE.GetAttributes, List.mem_singleton] at ha
  subst ha
  simp only [Option.some.injEq] at hfv
  subst hfv
  exact hne (by decide)

/-- What the constructor does for the eleven flags.  For each of the ten boolean-flag
attributes artificial, explicit, declaration, inline, enum_class, GNU_vector, virtuality,
external, export_symbols and APPLE_objc_complete_type, the flag is true in the record exactly
when some attribute of that kind has a form value that can be extracted and is nonzero: it is
false when the attribute is absent and when every occurrence has value `0`.  The flag of
APPLE_objc_direct is true exactly when some attribute of that kind has a form value that can
be extracted, whatever the value. -/
theorem flag_iff_occurrence (die : DWARFDIE) :
    ((ParsedDWARFTypeAttributes.ctor die).isArtificial = true ↔
      occursNonzero DW_AT_artificial die.GetAttributes) ∧
    ((ParsedDWARFTypeAttributes.ctor die).isExplicit = true ↔
      occursNonzero DW_AT_explicit die.GetAttributes) ∧
    ((ParsedDWARFTypeAttributes.ctor die).isForwardDeclaration = true ↔
      occursNonzero DW_AT_declaration die.GetAttributes) ∧
    ((ParsedDWARFTypeAttributes.ctor die).isInline = true ↔
      occursNonzero DW_AT_inline die.GetAttributes) ∧
    ((ParsedDWARFTypeAttributes.ctor die).isScopedEnum = true ↔
      occursNonzero DW_AT_enum_class die.GetAttributes) ∧
    ((ParsedDWARFTypeAttributes.ctor die).isVector = true ↔
      occursNonzero DW_AT_GNU_vector die.GetAttributes) ∧
    ((ParsedDWARFTypeAttributes.ctor die).isVirtual = true ↔
      occursNonzero DW_AT_virtuality die.GetAttributes) ∧
    ((ParsedDWARFTypeAttributes.ctor die).isExternal = true ↔
      occursNonzero DW_AT_external die.GetAttributes) ∧
    ((ParsedDWARFTypeAttributes.ctor die).isExportsSymbols = true ↔
      occursNonzero DW_AT_export_symbols die.GetAttributes) ∧
    ((ParsedDWARFTypeAttributes.ctor die).isObjCCompleteType = true ↔
      occursNonzero DW_AT_APPLE_objc_complete_type die.GetAttributes) ∧
    ((ParsedDWARFTypeAttributes.ctor die).isObjCDirectCall = true ↔
      occursReadable DW_AT_APPLE_objc_direct die.GetAttributes) := by
  refine ⟨?_, ?_, ?_, ?_, ?_, ?_, ?_, ?_, ?_, ?_, ?_⟩
  · exact (ctor_hasFlag die 0 (by decide)).trans
      (sets_iff_occursNonzero DW_AT_artificial (by decide) die.GetAttributes)
  · exact (ctor_hasFlag die 1 (by decide)).trans
      (sets_iff_occursNonzero DW_AT_explicit (by decide) die.GetAttributes)
  · exact (ctor_hasFlag die 2 (by decide)).trans
      (sets_iff_occursNonzero DW_AT_declaration (by decide) die.GetAttributes)
  · exact (ctor_hasFlag die 3 (by decide)).trans
      (sets_iff_occursNonzero DW_AT_inline (by decide) die.GetAttributes)
  · exact (ctor_hasFlag die 4 (by decide)).trans
      (sets_iff_occursNonzero DW_AT_enum_class (by decide) die.GetAttributes)
  · exact (ctor_hasFlag die 5 (by decide)).trans
      (sets_iff_occursNonzero DW_AT_GNU_vector (by decide) die.GetAttributes)
  · exact (ctor_hasFlag die 6 (by decide)).trans
      (sets_iff_occursNonzero DW_AT_virtuality (by decide) die.GetAttributes)
  · exact (ctor_hasFlag die 7 (by decide)).trans
      (sets_iff_occursNonzero DW_AT_external (by decide) die.GetAttributes)
  · exact (ctor_hasFlag die 8 (by decide)).trans
      (sets_iff_occursNonzero DW_AT_export_symbols (by decide) die.GetAttributes)
  · exact (ctor_hasFlag die 10 (by decide)).trans
      (sets_iff_occursNonzero DW_AT_APPLE_objc_complete_type (by decide) die.GetAttributes)
  · exact (ctor_hasFlag die 9 (by decide)).trans (sets_iff_occursReadable die.GetAttributes)

/-- Examples on the node `[artificial = 1, external = 0, artificial = 0, virtuality = 1]`:
`isArtificial` and `isVirtual` are true, `isExternal` (every occurrence `0`) and `isInline`
(absent) are false. -/
theorem flag_iff_occurrence_witness :
    (ParsedDWARFTypeAttributes.ctor artificialVirtualNode).isArtificial = true ∧
    (ParsedDWARFTypeAttributes.ctor artificialVirtualNode).isVirtual = true ∧
    (ParsedDWARFTypeAttributes.ctor artificialVirtualNode).isExternal = false ∧
    (ParsedDWARFTypeAttributes.ctor artificialVirtualNode).isInline = false ∧
    occursNonzero DW_AT_artificial artificialVirtualNode.GetAttributes :=
  ⟨by decide, by decide, by decide, by decide,
    (flag_iff_occurrence artificialVirtualNode).1.mp (by decide)⟩



/-! ## Claims on single fields of the normalizer -/

theorem lastWrite_unsigned {β : Type} (kind : Nat) (f : Nat → β) (l : List DWARFAttribute) :
    lastWrite (writeOf [kind] (fun _ fv => f fv.Unsigned)) l = (lastUnsigned kind l).map f := by
  have hlast : ∀ l, lastUnsigned kind l =
      lastWrite (fun a => if a.attr = kind then a.form_value.map DWARFFormValue.Unsigned
        else none) l := fun _ => rfl
  induction l with
  | nil => rfl
  | cons a l ih =>
    rw [hlast, lastWrite_cons, lastWrite_cons, ← hlast, ih]
    cases lastUnsigned kind l with
    | some v => rfl
    | none =>
      simp only [Option.map_none', Option.none_or, writeOf, List.mem_singleton]
      cases a.form_value with
      | none => simp
      | some fv => by_cases hk : a.attr = kind <;> simp [hk]

/-- C20: the 32-bit fields narrow.  With `v` the value of the last `DW_AT_bit_stride`
(`DW_AT_byte_stride`, `DW_AT_encoding`) attribute, the record holds `v mod 2^32`; with `v` the
value of the last `DW_AT_accessibility` attribute, the access level is
`GetAccessTypeFromDWARF (v mod 2^32)`, so that `2^32 + 1` gives the level of the public code;
and `byte_size` holds the value of the last `DW_AT_byte_size` attribute unchanged. -/
theorem narrowing_to_32_bits (die : DWARFDIE) :
    (ParsedDWARFTypeAttributes.ctor die).bit_stride =
      (match lastUnsigned DW_AT_bit_stride die.GetAttributes with
        | some v => v % 2 ^ 32
        | none => 0) ∧
    (ParsedDWARFTypeAttributes.ctor die).byte_stride =
      (match lastUnsigned DW_AT_byte_stride die.GetAttributes with
        | some v => v % 2 ^ 32
        | none => 0) ∧
    (ParsedDWARFTypeAttributes.ctor die).encoding =
      (match lastUnsigned DW_AT_encoding die.GetAttributes with
        | some v => v % 2 ^ 32
        | none => 0) ∧
    (ParsedDWARFTypeAttributes.ctor die).accessibility =
      (match lastUnsigned DW_AT_accessibility die.GetAttributes with
        | some v => GetAccessTypeFromDWARF (v % 2 ^ 32)
        | none => AccessType.eAccessNone) ∧
    (ParsedDWARFTypeAttributes.ctor die).byte_size =
      lastUnsigned DW_AT_byte_size die.GetAttributes ∧
    GetAccessTypeFromDWARF ((2 ^ 32 + 1) % 2 ^ 32) = GetAccessTypeFromDWARF DW_ACCESS_public := by
  rw [ParsedDWARFTypeAttributes.ctor_eq_normalForm]
  refine ⟨?_, ?_, ?_, ?_, ?_, by decide⟩
  · show (lastWrite (writeOf [DW_AT_bit_stride] (fun _ fv => fv.Unsigned % 2 ^ 32)) _).getD 0 = _
    rw [lastWrite_unsigned DW_AT_bit_stride (fun v => v % 2 ^ 32)]
    cases lastUnsigned DW_AT_bit_stride die.GetAttributes <;> rfl
  · show (lastWrite (writeOf [DW_AT_byte_stride] (fun _ fv => fv.Unsigned % 2 ^ 32)) _).getD 0
      = _
    rw [lastWrite_unsigned DW_AT_byte_stride (fun v => v % 2 ^ 32)]
    cases lastUnsigned DW_AT_byte_stride die.GetAttributes <;> rfl
  · show (lastWrite (writeOf [DW_AT_encoding] (fun _ fv => fv.Unsigned % 2 ^ 32)) _).getD 0 = _
    rw [lastWrite_unsigned DW_AT_encoding (fun v => v % 2 ^ 32)]
    cases lastUnsigned DW_AT_encoding die.GetAttributes <;> rfl
  · show (lastWrite (writeOf [DW_AT_accessibility]
      (fun _ fv => GetAccessTypeFromDWARF (fv.Unsigned % 2 ^ 32))) _).getD
        AccessType.eAccessNone = _
    rw [lastWrite_unsigned DW_AT_accessibility (fun v => GetAccessTypeFromDWARF (v % 2 ^ 32))]
    cases lastUnsigned DW_AT_accessibility die.GetAttributes <;> rfl
  · show (lastWrite (writeOf [DW_AT_byte_size] (fun _ fv => some fv.Unsigned)) _).getD none = _
    rw [lastWrite_unsigned DW_AT_byte_size (fun v => some v)]
    cases lastUnsigned DW_AT_byte_size die.GetAttributes <;> rfl

/-- A node `[bit_stride = 2^32 + 5, byte_stride = 2^33 + 6, encoding = 2^32 + 7,
accessibility = 2^32 + 1, byte_size = 2^32 + 9]`. -/
def wideValuesNode : DWARFDIE :=
  .die 0x13 "s" [{ attr := DW_AT_bit_stride, form_value := some { uval := 2 ^ 32 + 5 } },
    { attr := DW_AT_byte_stride, form_value := some { uval := 2 ^ 33 + 6 } },
    { attr := DW_AT_encoding, form_value := some { uval := 2 ^ 32 + 7 } },
    { attr := DW_AT_accessibility, form_value := some { uval := 2 ^ 32 + 1 } },
    { attr := DW_AT_byte_size, form_value := some { uval := 2 ^ 32 + 9 } }] .invalid []

/-- An example of C20: the node `wideValuesNode` yields the strides `5` and `6`, the encoding
`7`, public access and the byte size `2^32 + 9`. -/
theorem narrowing_to_32_bits_witness :
    (ParsedDWARFTypeAttributes.ctor wideValuesNode).bit_stride = 5 ∧
    (ParsedDWARFTypeAttributes.ctor wideValuesNode).byte_stride = 6 ∧
    (ParsedDWARFTypeAttributes.ctor wideValuesNode).encoding = 7 ∧
    (ParsedDWARFTypeAttributes.ctor wideValuesNode).accessibility = AccessType.eAccessPublic ∧
    (ParsedDWARFTypeAttributes.ctor wideValuesNode).byte_size = some (2 ^ 32 + 9) ∧
    (ParsedDWARFTypeAttributes.ctor wideValuesNode).byte_size =
      lastUnsigned DW_AT_byte_size wideValuesNode.GetAttributes :=
  ⟨by decide, by decide, by decide, by decide, by decide,
    (narrowing_to_32_bits wideValuesNode).2.2.2.2.1⟩

/-- C15: when the last `DW_AT_decl_file` attribute whose form value can be extracted stands
at some position with unsigned value `f`, the record's declaration file is the file with
index `f` of the compile unit recorded for that position of the attribute list; the line and
the column are the values of the last `DW_AT_decl_line` and `DW_AT_decl_column` attributes
(as `uint32_t` and `uint16_t`), `0` when absent, and do not enter the file. -/
theorem decl_file_of_owning_unit (die : DWARFDIE) (before after : List DWARFAttribute)
    (a : DWARFAttribute) (fv : DWARFFormValue)
    (hattrs : die.GetAttributes = before ++ a :: after)
    (hkind : a.attr = DW_AT_decl_file)
    (hfv : a.form_value = some fv)
    (hlast : ∀ x ∈ after, x.attr = DW_AT_decl_file → x.form_value = none) :
    (ParsedDWARFTypeAttributes.ctor die).decl.file = a.cu.GetFile fv.Unsigned ∧
    (ParsedDWARFTypeAttributes.ctor die).decl.line =
      (match lastUnsigned DW_AT_decl_line die.GetAttributes with
        | some v => v % 2 ^ 32
        | none => 0) ∧
    (ParsedDWARFTypeAttributes.ctor die).decl.column =
      (match lastUnsigned DW_AT_decl_column die.GetAttributes with
        | some v => v % 2 ^ 16
        | none => 0) := by
  rw [ParsedDWARFTypeAttributes.ctor_eq_normalForm]
  refine ⟨?_, ?_, ?_⟩
  · show (lastWrite (writeOf [DW_AT_decl_file] (fun a fv => a.cu.GetFile fv.Unsigned)) _).getD {}
      = _
    have hafter : lastWrite (writeOf [DW_AT_decl_file]
        (fun a fv => a.cu.GetFile fv.Unsigned)) after = none := by
      rw [← lastWrite_filter _ (fun _ => false) after (fun x hx _ => by
        unfold writeOf
        cases hx' : x.form_value with
        | none => rfl
        | some v =>
          have : x.attr ≠ DW_AT_decl_file := fun h => by
            rw [hlast x hx h] at hx'; exact absurd hx' (by simp)
          simp [this])]
      simp [lastWrite_nil]
    rw [hattrs, lastWrite_append, lastWrite_cons, hafter]
    simp [writeOf, hkind, hfv]
  · show (lastWrite (writeOf [DW_AT_decl_line] (fun _ fv => fv.Unsigned % 2 ^ 32)) _).getD 0 = _
    rw [lastWrite_unsigned DW_AT_decl_line (fun v => v % 2 ^ 32)]
    cases lastUnsigned DW_AT_decl_line die.GetAttributes <;> rfl
  · show (lastWrite (writeOf [DW_AT_decl_column] (fun _ fv => fv.Unsigned % 2 ^ 16)) _).getD 0
      = _
    rw [lastWrite_unsigned DW_AT_decl_column (fun v => v % 2 ^ 16)]
    cases lastUnsigned DW_AT_decl_column die.GetAttributes <;> rfl

/-- A compile unit with the file table `["a.c", "a.h"]`. -/
def unitA : DWARFUnit := { files := [{ path := "a.c" }, { path := "a.h" }] }

/-- A compile unit with the file table `["b.c", "b.h"]`. -/
def unitB : DWARFUnit := { files := [{ path := "b.c" }, { path := "b.h" }] }

/-- A node whose attribute list holds `decl_file = 1` read from `unitA`, then `decl_line = 7`,
then `decl_file = 1` inherited from a node of `unitB`, then `decl_column = 3`. -/
def declaredNode : DWARFDIE :=
  .die 0x13 "s" [{ attr := DW_AT_decl_file, form_value := some { uval := 1 }, cu := unitA },
    { attr := DW_AT_decl_line, form_value := some { uval := 7 }, cu := unitA },
    { attr := DW_AT_decl_file, form_value := some { uval := 1 }, cu := unitB },
    { attr := DW_AT_decl_column, form_value := some { uval := 3 }, cu := unitA }] .invalid []

/-- An example of C15: the file of `declaredNode` is `b.h`, entry `1` of the unit of the last
`DW_AT_decl_file` position, with line `7` and column `3`. -/
theorem decl_file_of_owning_unit_witness :
    (ParsedDWARFTypeAttributes.ctor declaredNode).decl.file = unitB.GetFile 1 ∧
    unitB.GetFile 1 = { path := "b.h" } ∧
    (ParsedDWARFTypeAttributes.ctor declaredNode).decl.line = 7 ∧
    (ParsedDWARFTypeAttributes.ctor declaredNode).decl.column = 3 :=
  ⟨(decl_file_of_owning_unit declaredNode
      [{ attr := DW_AT_decl_file, form_value := some { uval := 1 }, cu := unitA },
        { attr := DW_AT_decl_line, form_value := some { uval := 7 }, cu := unitA }]
      [{ attr := DW_AT_decl_column, form_value := some { uval := 3 }, cu := unitA }]
      { attr := DW_AT_decl_file, form_value := some { uval := 1 }, cu := unitB }
      { uval := 1 } rfl rfl rfl (by decide)).1,
    by decide, by decide, by decide⟩



/-! ## Claims on repeated attributes and on the order of attributes -/

theorem lastWrite_drop_earlier {β : Type} (kinds : List Nat)
    (val : DWARFAttribute → DWARFFormValue → β) (before after : List DWARFAttribute)
    (a : DWARFAttribute) (hfv : a.form_value ≠ none) :
    lastWrite (writeOf kinds val) (before.filter (fun x => x.attr ≠ a.attr) ++ a :: after) =
      lastWrite (writeOf kinds val) (before ++ a :: after) := by
  rw [lastWrite_append, lastWrite_append, lastWrite_cons]
  by_cases hk : a.attr ∈ kinds
  · obtain ⟨fv, hfv⟩ := Option.ne_none_iff_exists'.mp hfv
    have hw : writeOf kinds val a = some (val a fv) := by simp [writeOf, hfv, hk]
    rw [hw]
    cases lastWrite (writeOf kinds val) after <;> rfl
  · rw [lastWrite_filter]
    intro x _ hx
    have hxa : x.attr = a.attr := by simpa using hx
    unfold writeOf
    cases x.form_value with
    | none => rfl
    | some v => simp [hxa, hk]

theorem lor_absorb (m o : Nat) : (m ||| o) ||| m = o ||| m := by
  apply Nat.eq_of_testBit_eq
  intro i
  simp only [Nat.testBit_or]
  cases m.testBit i <;> cases o.testBit i <;> rfl

theorem orMasks_drop_earlier (before after : List DWARFAttribute) (a : DWARFAttribute)
    (h : flagMask a = flagOfKind a.attr) :
    orMasks (before.filter (fun x => x.attr ≠ a.attr) ++ a :: after) =
      orMasks (before ++ a :: after) := by
  have key : orMasks (before.filter (fun x => x.attr ≠ a.attr)) ||| flagMask a =
      orMasks before ||| flagMask a := by
    induction before with
    | nil => rfl
    | cons x l ih =>
      by_cases hx : x.attr = a.attr
      · rw [List.filter_cons_of_neg (by simpa using hx), ih, orMasks_cons]
        rcases flagMask_cases x with h0 | h1
        · rw [h0, Nat.zero_or]
        · rw [h1, hx, ← h, lor_absorb]
      · rw [List.filter_cons_of_pos (by simpa using hx), orMasks_cons, orMasks_cons,
          Nat.lor_assoc, ih, Nat.lor_assoc]
  rw [orMasks_append, orMasks_append, orMasks_cons, ← Nat.lor_assoc, ← Nat.lor_assoc, key]

theorem flagOfKind_eq_zero (attr : Nat) (h : attr ∉ flagKinds) : flagOfKind attr = 0 := by
  simp only [flagKinds, List.mem_cons, List.mem_singleton, List.not_mem_nil, or_false,
    not_or] at h
  obtain ⟨h0, h1, h2, h3, h4, h5, h6, h7, h8, h9, h10⟩ := h
  simp [flagOfKind, h0, h1, h2, h3, h4, h5, h6, h7, h8, h9, h10]

theorem flagMask_of_sets (a : DWARFAttribute) (h : setsItsFlag a) :
    flagMask a = flagOfKind a.attr := by
  obtain ⟨fv, hfv, hd | hu⟩ := h
  · unfold flagMask
    rw [hfv]
    simp only [hd, if_true]
    decide
  · unfold flagMask
    rw [hfv]
    simp only [hu]
    by_cases hd : a.attr = DW_AT_APPLE_objc_direct
    · rw [if_pos hd, hd]; decide
    · rw [if_neg hd]
      simp [hu]

/-- A node `[artificial = 1, artificial = 0]`. -/
def twiceArtificialNode : DWARFDIE :=
  .die 0x2e "f" [{ attr := DW_AT_artificial, form_value := some { uval := 1 } },
    { attr := DW_AT_artificial, form_value := some { uval := 0 } }] .invalid []

/-- The node `twiceArtificialNode` without the earlier occurrence: `[artificial = 0]`. -/
def lastArtificialNode : DWARFDIE :=
  .die 0x2e "f" [{ attr := DW_AT_artificial, form_value := some { uval := 0 } }] .invalid []

/-- A node `[byte_size = 4, byte_size]` whose second `DW_AT_byte_size` has a form value
that cannot be extracted. -/
def unreadableSizeNode : DWARFDIE :=
  .die 0x13 "s" [{ attr := DW_AT_byte_size, form_value := some { uval := 4 } },
    { attr := DW_AT_byte_size, form_value := none }] .invalid []

/-- The node `unreadableSizeNode` without the earlier attribute: `[byte_size]`, unreadable. -/
def unreadableSizeOnlyNode : DWARFDIE :=
  .die 0x13 "s" [{ attr := DW_AT_byte_size, form_value := none }] .invalid []

/-- C11, as stated, fails in two ways.  For the flag kinds: in
`[artificial = 1, artificial = 0]` the kind `DW_AT_artificial` occurs twice and its flag is
true, while with the earlier occurrence removed the flag is false.  For an attribute whose
form value cannot be extracted: in `[byte_size = 4, byte_size]` with an unreadable second
attribute the record holds `byte_size = 4`, while with the earlier attribute removed
`byte_size` is absent. -/
theorem earlier_flag_occurrence_counts :
    (ParsedDWARFTypeAttributes.ctor twiceArtificialNode).isArtificial = true ∧
    (ParsedDWARFTypeAttributes.ctor twiceArtificialNode).attr_flags = 1 ∧
    (ParsedDWARFTypeAttributes.ctor lastArtificialNode).isArtificial = false ∧
    (ParsedDWARFTypeAttributes.ctor lastArtificialNode).attr_flags = 0 ∧
    (ParsedDWARFTypeAttributes.ctor unreadableSizeNode).byte_size = some 4 ∧
    (ParsedDWARFTypeAttributes.ctor unreadableSizeOnlyNode).byte_size = none := by
  decide

/-- C11 (amended): count as occurrences the attributes whose form value can be extracted, the
others being skipped by the scan.  Let an occurrence stand in the list, and let its kind
either have no flag or let the occurrence set its flag.  Then removing all earlier attributes
of that kind changes no field of the record; so for a kind that occurs more than once the
last occurrence alone determines the field that kind writes. -/
theorem last_occurrence_decides (die trimmed : DWARFDIE) (before after : List DWARFAttribute)
    (a : DWARFAttribute)
    (hattrs : die.GetAttributes = before ++ a :: after)
    (htrimmed : trimmed.GetAttributes =
      before.filter (fun x => x.attr ≠ a.attr) ++ a :: after)
    (hfv : a.form_value ≠ none)
    (hflag : a.attr ∉ flagKinds ∨ setsItsFlag a) :
    ParsedDWARFTypeAttributes.ctor trimmed = ParsedDWARFTypeAttributes.ctor die := by
  have hmask : flagMask a = flagOfKind a.attr := by
    rcases hflag with h | h
    · rcases flagMask_cases a with h0 | h1
      · rw [h0, flagOfKind_eq_zero _ h]
      · exact h1
    · exact flagMask_of_sets a h
  rw [ParsedDWARFTypeAttributes.ctor_eq_normalForm, ParsedDWARFTypeAttributes.ctor_eq_normalForm,
    hattrs, htrimmed]
  unfold ParsedDWARFTypeAttributes.normalForm
  simp only [lastWrite_drop_earlier _ _ before after a hfv,
    orMasks_drop_earlier before after a hmask]

/-- A node `[byte_size = 4, name = "s", byte_size = 8, linkage_name = "_s", byte_size = 16]`. -/
def resizedNode : DWARFDIE :=
  .die 0x13 "s" [{ attr := DW_AT_byte_size, form_value := some { uval := 4 } },
    { attr := DW_AT_name, form_value := some { cstr := some "s" } },
    { attr := DW_AT_byte_size, form_value := some { uval := 8 } },
    { attr := DW_AT_linkage_name, form_value := some { cstr := some "_s" } },
    { attr := DW_AT_byte_size, form_value := some { uval := 16 } }] .invalid []

/-- The node `resizedNode` with only the last occurrence of `DW_AT_byte_size`. -/
def resizedOnceNode : DWARFDIE :=
  .die 0x13 "s" [{ attr := DW_AT_name, form_value := some { cstr := some "s" } },
    { attr := DW_AT_linkage_name, form_value := some { cstr := some "_s" } },
    { attr := DW_AT_byte_size, form_value := some { uval := 16 } }] .invalid []

/-- An example of C11: `byte_size` of `resizedNode` is that of its last occurrence, `16`, and
the record is that of the node with the earlier occurrences removed. -/
theorem last_occurrence_decides_witness :
    (ParsedDWARFTypeAttributes.ctor resizedNode).byte_size = some 16 ∧
    ParsedDWARFTypeAttributes.ctor resizedOnceNode =
      ParsedDWARFTypeAttributes.ctor resizedNode :=
  ⟨by decide, last_occurrence_decides resizedNode resizedOnceNode
    [{ attr := DW_AT_byte_size, form_value := some { uval := 4 } },
      { attr := DW_AT_name, form_value := some { cstr := some "s" } },
      { attr := DW_AT_byte_size, form_value := some { uval := 8 } },
      { attr := DW_AT_linkage_name, form_value := some { cstr := some "_s" } }] []
    { attr := DW_AT_byte_size, form_value := some { uval := 16 } } rfl (by decide) (by decide)
    (Or.inl (by decide))⟩



theorem writeOf_comm {β : Type} (kinds : List Nat) (val : DWARFAttribute → DWARFFormValue → β)
    (x y : DWARFAttribute) (b : β) (h : ¬ (x.attr ∈ kinds ∧ y.attr ∈ kinds)) :
    (writeOf kinds val y).getD ((writeOf kinds val x).getD b) =
      (writeOf kinds val x).getD ((writeOf kinds val y).getD b) := by
  by_cases hx : x.attr ∈ kinds
  · have hy : y.attr ∉ kinds := fun hy => h ⟨hx, hy⟩
    have : writeOf kinds val y = none := by
      unfold writeOf
      cases y.form_value <;> simp [hy]
    rw [this]
    rfl
  · have : writeOf kinds val x = none := by
      unfold writeOf
      cases x.form_value <;> simp [hx]
    rw [this]
    rfl

theorem writeOf_comm_single {β : Type} (kind : Nat)
    (val : DWARFAttribute → DWARFFormValue → β) (x y : DWARFAttribute) (b : β)
    (hne : x.attr ≠ y.attr) :
    (writeOf [kind] val y).getD ((writeOf [kind] val x).getD b) =
      (writeOf [kind] val x).getD ((writeOf [kind] val y).getD b) :=
  writeOf_comm [kind] val x y b fun h =>
    hne ((List.mem_singleton.mp h.1).trans (List.mem_singleton.mp h.2).symm)

theorem flagStep_comm (b m n : Nat) :
    (if n = 0 then (if m = 0 then b else (b ||| m) % 2 ^ 32)
      else ((if m = 0 then b else (b ||| m) % 2 ^ 32) ||| n) % 2 ^ 32) =
    (if m = 0 then (if n = 0 then b else (b ||| n) % 2 ^ 32)
      else ((if n = 0 then b else (b ||| n) % 2 ^ 32) ||| m) % 2 ^ 32) := by
  by_cases hm : m = 0 <;> by_cases hn : n = 0 <;> simp only [hm, hn, if_true, if_false]
  apply Nat.eq_of_testBit_eq
  intro i
  simp only [Nat.testBit_mod_two_pow, Nat.testBit_or]
  cases decide (i < 32) <;> cases b.testBit i <;> cases m.testBit i <;> cases n.testBit i <;>
    rfl

theorem applyAttribute_comm (r : ParsedDWARFTypeAttributes) (x y : DWARFAttribute)
    (hne : x.attr ≠ y.attr)
    (hlink : ¬ (x.attr ∈ [DW_AT_linkage_name, DW_AT_MIPS_linkage_name] ∧
      y.attr ∈ [DW_AT_linkage_name, DW_AT_MIPS_linkage_name])) :
    (r.applyAttribute x).applyAttribute y = (r.applyAttribute y).applyAttribute x := by
  apply ParsedDWARFTypeAttributes.ext_fields
  · exact writeOf_comm_single _ _ x y _ hne
  · exact writeOf_comm _ _ x y _ hlink
  · exact writeOf_comm_single _ _ x y _ hne
  · exact writeOf_comm_single _ _ x y _ hne
  · exact writeOf_comm_single _ _ x y _ hne
  · exact writeOf_comm_single _ _ x y _ hne
  · exact writeOf_comm_single _ _ x y _ hne
  · exact writeOf_comm_single _ _ x y _ hne
  · exact writeOf_comm_single _ _ x y _ hne
  · exact writeOf_comm_single _ _ x y _ hne
  · exact writeOf_comm_single _ _ x y _ hne
  · exact writeOf_comm_single _ _ x y _ hne
  · exact writeOf_comm_single _ _ x y _ hne
  · exact writeOf_comm_single _ _ x y _ hne
  · exact writeOf_comm_single _ _ x y _ hne
  · exact writeOf_comm_single _ _ x y _ hne
  · exact writeOf_comm_single _ _ x y _ hne
  · exact writeOf_comm_single _ _ x y _ hne
  · exact flagStep_comm r.attr_flags (flagMask x) (flagMask y)

/-- A node `[linkage_name = "_Z1fv", MIPS_linkage_name = "f_mips"]`. -/
def linkageFirstNode : DWARFDIE :=
  .die 0x2e "f" [{ attr := DW_AT_linkage_name, form_value := some { cstr := some "_Z1fv" } },
    { attr := DW_AT_MIPS_linkage_name, form_value := some { cstr := some "f_mips" } }]
    .invalid []

/-- The node `linkageFirstNode` with its two attributes swapped. -/
def linkageLastNode : DWARFDIE :=
  .die 0x2e "f" [{ attr := DW_AT_MIPS_linkage_name, form_value := some { cstr := some "f_mips" } },
    { attr := DW_AT_linkage_name, form_value := some { cstr := some "_Z1fv" } }]
    .invalid []

/-- C14, as stated, fails: the attribute lists `[linkage_name, MIPS_linkage_name]` and
`[MIPS_linkage_name, linkage_name]` are permutations of one another, no kind occurs twice,
and the records differ in `mangled_name`. -/
theorem linkage_synonyms_depend_on_order :
    linkageFirstNode.GetAttributes.Perm linkageLastNode.GetAttributes ∧
    (linkageFirstNode.GetAttributes.map DWARFAttribute.attr).Nodup ∧
    (ParsedDWARFTypeAttributes.ctor linkageFirstNode).mangled_name = some "f_mips" ∧
    (ParsedDWARFTypeAttributes.ctor linkageLastNode).mangled_name = some "_Z1fv" ∧
    ParsedDWARFTypeAttributes.ctor linkageFirstNode ≠
      ParsedDWARFTypeAttributes.ctor linkageLastNode := by
  refine ⟨List.Perm.swap _ _ _, by decide, by decide, by decide, by decide⟩

/-- C14 (amended): for two nodes whose attribute lists are permutations of one another, in
which no attribute kind occurs more than once and in which `DW_AT_linkage_name` and
`DW_AT_MIPS_linkage_name` do not both occur, the constructed records are equal. -/
theorem order_irrelevant_without_duplicates (die permuted : DWARFDIE)
    (hperm : die.GetAttributes.Perm permuted.GetAttributes)
    (hnodup : (die.GetAttributes.map DWARFAttribute.attr).Nodup)
    (hlink : ¬ ((∃ a ∈ die.GetAttributes, a.attr = DW_AT_linkage_name) ∧
      (∃ a ∈ die.GetAttributes, a.attr = DW_AT_MIPS_linkage_name))) :
    ParsedDWARFTypeAttributes.ctor die = ParsedDWARFTypeAttributes.ctor permuted := by
  unfold ParsedDWARFTypeAttributes.ctor
  apply List.Perm.foldl_eq' hperm
  intro x hx y hy z
  by_cases hxy : x = y
  · rw [hxy]
  · have hne : x.attr ≠ y.attr := fun h => hxy (List.inj_on_of_nodup_map hnodup hx hy h)
    rw [ParsedDWARFTypeAttributes.visitAttribute_eq, ParsedDWARFTypeAttributes.visitAttribute_eq,
      ParsedDWARFTypeAttributes.visitAttribute_eq, ParsedDWARFTypeAttributes.visitAttribute_eq]
    apply applyAttribute_comm z x y hne
    rintro ⟨h1, h2⟩
    simp only [List.mem_cons, List.mem_singleton, List.not_mem_nil, or_false] at h1 h2
    rcases h1 with h1 | h1 <;> rcases h2 with h2 | h2
    · exact hne (h1.trans h2.symm)
    · exact hlink ⟨⟨x, hx, h1⟩, ⟨y, hy, h2⟩⟩
    · exact hlink ⟨⟨y, hy, h2⟩, ⟨x, hx, h1⟩⟩
    · exact hne (h1.trans h2.symm)

/-- The node `namedNode` with its attributes `[name = "arr", byte_size = 12]` swapped. -/
def swappedNamedNode : DWARFDIE :=
  .die 0x01 "arr" [{ attr := DW_AT_byte_size, form_value := some { uval := 12 } },
    { attr := DW_AT_name, form_value := some { cstr := some "arr" } }] .invalid []

/-- An example of C14: `[name, byte_size]` and `[byte_size, name]` yield the same record. -/
theorem order_irrelevant_without_duplicates_witness :
    namedNode.GetAttributes.Perm swappedNamedNode.GetAttributes ∧
    ParsedDWARFTypeAttributes.ctor namedNode = ParsedDWARFTypeAttributes.ctor swappedNamedNode :=
  ⟨List.Perm.swap _ _ _, order_irrelevant_without_duplicates namedNode swappedNamedNode
    (List.Perm.swap _ _ _) (by decide) (by
      rintro ⟨⟨a, ha, h⟩, _⟩
      simp only [namedNode, DWARFDIE.GetAttributes, List.mem_cons, List.mem_singleton,
        List.not_mem_nil, or_false] at ha
      rcases ha with rfl | rfl <;> exact absurd h (by decide))⟩

end DWARFASTParser
